import Mathlib

/-!
# Media-Discord-Bot-v2: activity store, cooldown tracker and poll cycle

A shallow embedding of `src/utils/dataManager.js` (`saveStreamData`,
`readUserActivity`), of `src/services/streamMonitorService.js`
(`checkAllTrackedChannels`, `triggerStreamCheckAndSave`) and of
`src/services/youtubeService.js` (`resolveYouTubeIdentifierToChannelId`).

Modelling conventions.

* A file of the `data/` directory is represented by what `fs.readFile` followed by
  `JSON.parse` makes of it (`FileState`); `JSON.parse (JSON.stringify v) = v` for the JSON
  values `v` of type `Json`.  `fs.writeFile` either replaces the whole file or fails and
  leaves it as it was.
* The directory of the resolver is represented by the `items` that each request answers
  with, or the error that `axios.get` throws; `new URL(x).pathname` is a parameter.
* Every call that can throw or reject (`fs.mkdir`, `fs.writeFile`, `getStreamStatus`,
  `client.channels.fetch`, the embed builder, `send`, a property read on `null`) has its
  outcome supplied by the environment or computed as an `Except`; the `try`/`catch` blocks
  of the source are the `match`es on these outcomes.
* Times are integers (milliseconds since the epoch, `Date.now()`); the configured cooldown
  is an integer number of minutes.
* Console output is not modelled.
-/

namespace MediaBot

/-! ## JavaScript and JSON values -/

/-- JavaScript value of a snapshot or stream-data field: the status providers copy these
fields from the platform answer, so they are strings, or `undefined`/`null` when the
answer lacks them. -/
inductive JsVal where
  | undefined
  | null
  | str (s : String)
  deriving DecidableEq, Repr

/-- JavaScript truthiness of a field value (the empty string is falsy). -/
def JsVal.truthy : JsVal → Bool
  | .str s => s != ""
  | _ => false

/-- Parsed JSON value (the result of `JSON.parse`). -/
inductive Json where
  | null
  | bool (b : Bool)
  | num (n : Int)
  | str (s : String)
  | arr (xs : List Json)
  | obj (kvs : List (String × Json))

/-- JavaScript truthiness of a parsed JSON value. -/
def Json.truthy : Json → Bool
  | .null => false
  | .bool b => b
  | .num n => n != 0
  | .str s => s != ""
  | .arr _ => true
  | .obj _ => true

/-- Property read `s.k` on a parsed, non-null JSON value: the own property of an object,
`undefined` (`none`) for a missing property and for every non-object value. -/
def Json.getProp : Json → String → Option Json
  | .obj kvs, k => kvs.lookup k
  | _, _ => none

/-- Strict equality `x === v` between a property read from a parsed record (`none` is
`undefined`) and a field value.  Parsed arrays and objects are fresh references, numbers and
booleans are of another type than a string: all of these compare unequal. -/
def strictEq : Option Json → JsVal → Bool
  | none, .undefined => true
  | some .null, .null => true
  | some (.str a), .str b => a == b
  | _, _ => false

/-- Errors that the modelled calls throw. -/
inductive JsError where
  | typeError
  | fsError
  | apiError
  deriving DecidableEq, Repr

/-! ## The activity store (`src/utils/dataManager.js`) -/

/-- The durable state of a log file, by what reading and parsing it gives: the file does not
exist (`readFile` fails with `ENOENT`); it holds the JSON text of `v` but `readFile` fails
with another error; its text is not JSON; it holds the JSON text of `v` and is read. -/
inductive FileState where
  | missing
  | unreadable (v : Json)
  | garbage
  | json (v : Json)

/-- The `data/` directory: the state of every file path. -/
abbrev Disk := String → FileState

/-- The path `data/<userId>/<platform>_<channelId>.json` built by `path.join`, for ids
without path separators (user ids are numeric, channel ids are names or `UC...` ids). -/
def logPath (userId platform channelId : String) : String :=
  "data/" ++ userId ++ "/" ++ platform ++ "_" ++ channelId ++ ".json"

/-- The stream data object built by the poll cycle and passed to `saveStreamData`.  The three
key fields and the channel name are copied from the configuration entry written by the track
command, the others from the status snapshot. -/
structure StreamData where
  streamUrl : JsVal
  startedAt : JsVal
  title : JsVal
  platform : String
  streamerChannelId : String
  targetUserId : String
  channelName : String
  thumbnailUrl : JsVal
  deriving DecidableEq, Repr

/-- One property of the stored record as `JSON.stringify` writes it: an `undefined` value is
left out. -/
def jsonField (k : String) : JsVal → List (String × Json)
  | .undefined => []
  | .null => [(k, .null)]
  | .str s => [(k, .str s)]

/-- The record `{ streamUrl, startedAt, title }` pushed by `saveStreamData`, as it is read
back from the file. -/
def sessionRecord (streamUrl startedAt title : JsVal) : Json :=
  .obj (jsonField "streamUrl" streamUrl ++ jsonField "startedAt" startedAt ++
    jsonField "title" title)

/-- The test `streams.some(s => s.streamUrl === streamUrl && s.startedAt === startedAt)`:
elements are visited in order up to the first match, and the property read on a `null`
element throws. -/
def streamExists : List Json → JsVal → JsVal → Except JsError Bool
  | [], _, _ => .ok false
  | s :: rest, streamUrl, startedAt =>
    match s with
    | .null => .error .typeError
    | _ =>
      if strictEq (s.getProp "streamUrl") streamUrl && strictEq (s.getProp "startedAt") startedAt
      then .ok true
      else streamExists rest streamUrl startedAt

/-- Outcome of the two file-system calls of `saveStreamData` that can reject. -/
structure SaveEnv where
  mkdirOk : Bool
  writeOk : Bool
  deriving DecidableEq, Repr

/-- The body of the outer `try` of `saveStreamData`: the returned flag and the directory
afterwards, or the error that reaches the outer `catch`. -/
def saveStreamDataTry (env : SaveEnv) (disk : Disk) (d : StreamData) :
    Except JsError (Bool × Disk) :=
  if d.targetUserId == "" || d.platform == "" || d.streamerChannelId == "" then
    .ok (false, disk)
  else
    let filePath := logPath d.targetUserId d.platform d.streamerChannelId
    if !env.mkdirOk then .error .fsError
    else
      let streams : List Json :=
        match disk filePath with
        | .json (.arr xs) => xs
        | .json _ => []
        | .missing => []
        | .unreadable _ => []
        | .garbage => []
      match streamExists streams d.streamUrl d.startedAt with
      | .error e => .error e
      | .ok false =>
        if !env.writeOk then .error .fsError
        else
          .ok (true, Function.update disk filePath
            (.json (.arr (streams ++ [sessionRecord d.streamUrl d.startedAt d.title]))))
      | .ok true => .ok (false, disk)

/-- The function `saveStreamData`: the outer `catch` turns every error into `false`. -/
def saveStreamData (env : SaveEnv) (disk : Disk) (d : StreamData) : Bool × Disk :=
  match saveStreamDataTry env disk d with
  | .ok r => r
  | .error _ => (false, disk)

/-- The function `readUserActivity`: the `streamSessions` of the returned object. -/
def readUserActivity (disk : Disk) (userId platform channelId : String) : List Json :=
  match disk (logPath userId platform channelId) with
  | .json (.arr streams) => streams
  | .json _ => []
  | .missing => []
  | .unreadable _ => []
  | .garbage => []

/-- The identity key of a stored record: its `streamUrl` and `startedAt` properties. -/
def keyOf (s : Json) : Option Json × Option Json :=
  (s.getProp "streamUrl", s.getProp "startedAt")

/-- The log invariant: no two records of the log have the same (streamUrl, startedAt). -/
def NoDupKeys (log : List Json) : Prop :=
  log.Pairwise (fun a b => keyOf a ≠ keyOf b)

/-- Whether a stored record carries the given (streamUrl, startedAt) pair. -/
def hasKey (streamUrl startedAt : JsVal) (s : Json) : Bool :=
  strictEq (s.getProp "streamUrl") streamUrl && strictEq (s.getProp "startedAt") startedAt

/-! ## The poll cycle (`src/services/streamMonitorService.js`) -/

/-- An entry of `config.trackedChannels`, as the track command writes it. -/
structure TrackedChannel where
  platform : String
  channelId : String
  channelName : String
  targetUserId : String
  deriving DecidableEq, Repr

/-- The object returned by `getStreamStatus`. -/
structure StreamDetails where
  isLive : Bool
  title : JsVal
  startedAt : JsVal
  streamUrl : JsVal
  thumbnailUrl : JsVal
  error : JsVal
  deriving DecidableEq, Repr

/-- The configuration fields the poll cycle reads. -/
structure Config where
  trackedChannels : Option (List TrackedChannel)
  announcementCooldownMinutes : Option Int
  munchyStreamChannelId : Option String
  deriving DecidableEq, Repr

/-- The module-level map `announcedStreams`, from stream id to the time of the last
announcement: the most recent binding of a key is the first one in the list. -/
def AnnouncedStreams := List (String × Int)

instance : DecidableEq AnnouncedStreams := inferInstanceAs (DecidableEq (List (String × Int)))

/-- The call `announcedStreams.get(k)`. -/
def AnnouncedStreams.get (m : AnnouncedStreams) (k : String) : Option Int :=
  List.lookup k m

/-- The call `announcedStreams.set(k, v)`. -/
def AnnouncedStreams.set (m : AnnouncedStreams) (k : String) (v : Int) : AnnouncedStreams :=
  (k, v) :: m

/-- The constant `DEFAULT_ANNOUNCEMENT_COOLDOWN_MINUTES`. -/
def DEFAULT_ANNOUNCEMENT_COOLDOWN_MINUTES : Int := 15

/-- The value `(config.announcementCooldownMinutes || DEFAULT) * 60 * 1000`. -/
def announcementCooldownMs (config : Config) : Int :=
  (match config.announcementCooldownMinutes with
    | some n => if n != 0 then n else DEFAULT_ANNOUNCEMENT_COOLDOWN_MINUTES
    | none => DEFAULT_ANNOUNCEMENT_COOLDOWN_MINUTES) * 60 * 1000

/-- The method `toLowerCase` on the characters of a title.  Only the ASCII letters are
mapped; no other character lower-cases to a letter of the keyword, so the keyword test
below is the one of the source. -/
def toLowerCase (cs : List Char) : List Char :=
  cs.map Char.toLower

/-- The method `includes`: `pat` occurs in `cs` as a contiguous substring. -/
def includes : List Char → List Char → Bool
  | [], pat => pat.isEmpty
  | c :: cs, pat => pat.isPrefixOf (c :: cs) || includes cs pat

/-- The test `title && title.toLowerCase().includes('munchy')`. -/
def titleIsMunchy : JsVal → Bool
  | .str t => t != "" && includes (toLowerCase t.data) "munchy".data
  | _ => false

/-- The test `streamDetails && streamDetails.isLive` followed by the keyword test, as
written in the loop of `checkAllTrackedChannels` and, word for word, in the loop of
`checkUserStreams`. -/
def isLiveMunchy : Option StreamDetails → Bool
  | some streamDetails => streamDetails.isLive && titleIsMunchy streamDetails.title
  | none => false

/-- The discord channel fetched as announcement sink. -/
structure SinkChannel where
  isTextBased : Bool
  deriving DecidableEq, Repr

/-- A message that the sink accepted: the `content` of the message and the stream data its
embed was built from. -/
structure Announcement where
  content : Option String
  stream : StreamData
  deriving DecidableEq, Repr

/-- What the outside world answers while one tracked channel is processed: the result of
the `getStreamStatus` call of the channel's platform, the two readings of `Date.now()` (the
one used for priming and the one named `now`), the result of `client.channels.fetch`,
whether the embed builder accepts the fields, and whether `send` resolves. -/
structure ChannelEnv where
  status : Except JsError (Option StreamDetails)
  primeClock : Int
  now : Int
  fetchChannel : Except JsError (Option SinkChannel)
  embedOk : Bool
  sendOk : Bool

/-- The state a cycle works on: the list `liveMunchyStreams` being built, the map
`announcedStreams`, and the messages accepted by the sink so far. -/
structure CycleState where
  liveMunchyStreams : List StreamData
  announcedStreams : AnnouncedStreams
  sent : List Announcement
  deriving DecidableEq

/-- The stream id `platform_channelId` used as cooldown key. -/
def streamIdOf (platform channelId : String) : String :=
  platform ++ "_" ++ channelId

/-- The search `streamSessions.find(session => session.startedAt === streamData.startedAt)`;
the property read on a `null` element throws. -/
def alreadyKnownStream : List Json → JsVal → Except JsError (Option Json)
  | [], _ => .ok none
  | session :: rest, startedAt =>
    match session with
    | .null => .error .typeError
    | _ =>
      if strictEq (session.getProp "startedAt") startedAt then .ok (some session)
      else alreadyKnownStream rest startedAt

/-- The block "Prevent re-announcement of already known streams": on a non-manual check a
stream found in the stored sessions primes the cooldown with the current time; an error is
caught and logged. -/
def primeCooldown (isManualCheck : Bool) (disk : Disk) (primeClock : Int)
    (streamData : StreamData) (streamId : String) (m : AnnouncedStreams) : AnnouncedStreams :=
  if !isManualCheck then
    match alreadyKnownStream
        (readUserActivity disk streamData.targetUserId streamData.platform
          streamData.streamerChannelId) streamData.startedAt with
    | .ok (some session) => if session.truthy then m.set streamId primeClock else m
    | .ok none => m
    | .error _ => m
  else m

/-- The value `announcedStreams.get(streamId) || 0`. -/
def lastAnnouncedTime (m : AnnouncedStreams) (streamId : String) : Int :=
  match m.get streamId with
  | some t => if t != 0 then t else 0
  | none => 0

/-- The variable `shouldAnnounce` after the announcement decision. -/
def shouldAnnounce (m : AnnouncedStreams) (streamId : String) (isManualCheck : Bool)
    (now cooldownMs : Int) : Bool :=
  if isManualCheck then true
  else if now - lastAnnouncedTime m streamId > cooldownMs then true
  else false

/-- The block under `if (shouldAnnounce)`: fetch the sink, build the embed, send; only a
resolved `send` of a non-manual check records the time `now` in `announcedStreams`. -/
def announce (client : Bool) (config : Config) (isManualCheck : Bool) (env : ChannelEnv)
    (streamData : StreamData) (streamId : String) (st : CycleState) : CycleState :=
  if client && (match config.munchyStreamChannelId with | some id => id != "" | none => false)
  then
    match env.fetchChannel with
    | .error _ => st
    | .ok none => st
    | .ok (some munchyStreamChannel) =>
      if munchyStreamChannel.isTextBased then
        if !env.embedOk then st
        else if env.sendOk then
          { st with
            sent := st.sent ++
              [{ content := if isManualCheck then some "**DEBUG ANNOUNCEMENT:**" else none,
                 stream := streamData }],
            announcedStreams :=
              if !isManualCheck then st.announcedStreams.set streamId env.now
              else st.announcedStreams }
        else st
      else st
  else st

/-- The stream data object built for a channel whose snapshot passed the filter. -/
def mkStreamData (channel : TrackedChannel) (streamDetails : StreamDetails) : StreamData :=
  { streamUrl := streamDetails.streamUrl,
    startedAt := streamDetails.startedAt,
    title := streamDetails.title,
    platform := channel.platform,
    streamerChannelId := channel.channelId,
    targetUserId := channel.targetUserId,
    channelName := channel.channelName,
    thumbnailUrl := streamDetails.thumbnailUrl }

/-- The state after the push and the priming block, at the announcement decision. -/
def primed (isManualCheck : Bool) (disk : Disk) (env : ChannelEnv) (channel : TrackedChannel)
    (streamDetails : StreamDetails) (st : CycleState) : CycleState :=
  { st with
    liveMunchyStreams := st.liveMunchyStreams ++ [mkStreamData channel streamDetails],
    announcedStreams :=
      primeCooldown isManualCheck disk env.primeClock (mkStreamData channel streamDetails)
        (streamIdOf channel.platform channel.channelId) st.announcedStreams }

/-- One iteration of the `for` loop of `checkAllTrackedChannels`. -/
def checkChannel (client : Bool) (config : Config) (isManualCheck : Bool) (disk : Disk)
    (env : ChannelEnv) (channel : TrackedChannel) (st : CycleState) : CycleState :=
  if channel.platform == "Twitch" || channel.platform == "YouTube" then
    match env.status with
    | .error _ => st
    | .ok none => st
    | .ok (some streamDetails) =>
      if isLiveMunchy (some streamDetails) then
        let st2 := primed isManualCheck disk env channel streamDetails st
        if shouldAnnounce st2.announcedStreams (streamIdOf channel.platform channel.channelId)
            isManualCheck env.now (announcementCooldownMs config) then
          announce client config isManualCheck env (mkStreamData channel streamDetails)
            (streamIdOf channel.platform channel.channelId) st2
        else st2
      else st
  else st

/-- The `for` loop over the tracked channels; `world i` is the environment met while the
channel at position `i` is processed. -/
def checkChannels (client : Bool) (config : Config) (isManualCheck : Bool) (disk : Disk)
    (world : Nat → ChannelEnv) : Nat → List TrackedChannel → CycleState → CycleState
  | _, [], st => st
  | i, channel :: rest, st =>
    checkChannels client config isManualCheck disk world (i + 1) rest
      (checkChannel client config isManualCheck disk (world i) channel st)

/-- The function `checkAllTrackedChannels`.  `readConfig` is the outcome of
`configHelper.readConfig()`; `announced` and `sent` are the cooldown map and the sink
history before the call. -/
def checkAllTrackedChannels (client : Bool) (readConfig : Except JsError Config)
    (isManualCheck : Bool) (disk : Disk) (world : Nat → ChannelEnv)
    (announced : AnnouncedStreams) (sent : List Announcement) : CycleState :=
  match readConfig with
  | .error _ => { liveMunchyStreams := [], announcedStreams := announced, sent := sent }
  | .ok config =>
    match config.trackedChannels with
    | none => { liveMunchyStreams := [], announcedStreams := announced, sent := sent }
    | some [] => { liveMunchyStreams := [], announcedStreams := announced, sent := sent }
    | some channels =>
      checkChannels client config isManualCheck disk world 0 channels
        { liveMunchyStreams := [], announcedStreams := announced, sent := sent }

/-- The guard `streamData.streamUrl && streamData.startedAt && streamData.targetUserId` of
`triggerStreamCheckAndSave`. -/
def saveGuard (streamData : StreamData) : Bool :=
  streamData.streamUrl.truthy && streamData.startedAt.truthy && streamData.targetUserId != ""

/-- The saving loop of `triggerStreamCheckAndSave`: `saveEnv i` is the file-system outcome
met by the stream data at position `i`; the calls of `saveStreamData` made so far are
recorded with their results. -/
def saveLoop (saveEnv : Nat → SaveEnv) :
    Nat → List StreamData → Disk × List (StreamData × Bool) →
      Disk × List (StreamData × Bool)
  | _, [], acc => acc
  | i, streamData :: rest, (disk, calls) =>
    if saveGuard streamData then
      saveLoop saveEnv (i + 1) rest
        ((saveStreamData (saveEnv i) disk streamData).2,
          calls ++ [(streamData, (saveStreamData (saveEnv i) disk streamData).1)])
    else saveLoop saveEnv (i + 1) rest (disk, calls)

/-- The result of `triggerStreamCheckAndSave`: the cycle state returned by
`checkAllTrackedChannels`, the directory after the saves and the `saveStreamData` calls. -/
structure TriggerResult where
  cycle : CycleState
  disk : Disk
  saveCalls : List (StreamData × Bool)

/-- The function `triggerStreamCheckAndSave`. -/
def triggerStreamCheckAndSave (client : Bool) (readConfig : Except JsError Config)
    (isManualCheck : Bool) (disk : Disk) (world : Nat → ChannelEnv) (saveEnv : Nat → SaveEnv)
    (announced : AnnouncedStreams) (sent : List Announcement) : TriggerResult :=
  let cycle := checkAllTrackedChannels client readConfig isManualCheck disk world announced sent
  let saved := saveLoop saveEnv 0 cycle.liveMunchyStreams (disk, [])
  { cycle := cycle, disk := saved.1, saveCalls := saved.2 }

/-! ## The cooldown tracker of the specification -/

/-- A channel identity of the specification: the pair (platform, channelId). -/
abbrev Identity := String × String

/-- The cooldown tracker as the specification words it: the history of the
`recordNotified` and `primeWithoutNotifying` operations, most recent first. -/
abbrev TrackerHistory := List (Identity × Int)

/-- The last-notified time of an identity: the time of the most recent operation on it, and
the epoch 0 when there is none. -/
def lastNotified : TrackerHistory → Identity → Int
  | [], _ => 0
  | (id, t) :: rest, identity => if id = identity then t else lastNotified rest identity

/-- The map `announcedStreams` that the history leaves behind, every operation having been
a `set` on the stream id of its identity. -/
def replay : TrackerHistory → AnnouncedStreams
  | [] => []
  | (id, t) :: rest => AnnouncedStreams.set (replay rest) (streamIdOf id.1 id.2) t

/-- A platform for which the poll cycle has a status provider. -/
def supportedPlatform (platform : String) : Prop :=
  platform = "Twitch" ∨ platform = "YouTube"

instance (platform : String) : Decidable (supportedPlatform platform) :=
  inferInstanceAs (Decidable (_ ∨ _))

/-! ## Auxiliary notions used in the statements -/

/-- A field value as it is read back from a stored record (`none` is `undefined`). -/
def toStored : JsVal → Option Json
  | .undefined => none
  | .null => some .null
  | .str s => some (.str s)

/-- The test `s === null` on a parsed value. -/
def Json.isNull : Json → Bool
  | .null => true
  | _ => false

/-- The log that a file state stands for: its elements when it holds a JSON array, and the
empty log otherwise. -/
def storedLog : FileState → List Json
  | .json (.arr xs) => xs
  | _ => []

/-! ## Concrete scenarios -/

/-- A tracked Twitch channel `a` of user `42`. -/
def channelA : TrackedChannel :=
  { platform := "Twitch", channelId := "a", channelName := "A", targetUserId := "42" }

/-- A configuration tracking `channelA` only, with the default cooldown and a sink. -/
def configA : Config :=
  { trackedChannels := some [channelA],
    announcementCooldownMinutes := none,
    munchyStreamChannelId := some "sink" }

/-- A tracked YouTube channel of user `42`. -/
def channelY : TrackedChannel :=
  { platform := "YouTube", channelId := "UCaaaaaaaaaaaaaaaaaaaaaa", channelName := "Y",
    targetUserId := "42" }

/-- A configuration tracking `channelY` only, with the default cooldown and a sink. -/
def configY : Config :=
  { trackedChannels := some [channelY],
    announcementCooldownMinutes := none,
    munchyStreamChannelId := some "sink" }

/-- A live snapshot titled "munchy time" with the given stream URL and start time. -/
def liveSnapshot (streamUrl startedAt : JsVal) : StreamDetails :=
  { isLive := true, title := JsVal.str "munchy time", startedAt := startedAt,
    streamUrl := streamUrl, thumbnailUrl := JsVal.undefined, error := JsVal.undefined }

/-- An environment in which the status query returns `streamDetails`, both clock readings
are `now`, and the sink is fetched, is text based and accepts the message. -/
def workingEnv (streamDetails : StreamDetails) (now : Int) : ChannelEnv :=
  { status := Except.ok (some streamDetails), primeClock := now, now := now,
    fetchChannel := Except.ok (some { isTextBased := true }), embedOk := true, sendOk := true }

/-- A directory whose only file is the log at `path`, holding the array `log`. -/
def diskWith (path : String) (log : List Json) : Disk :=
  fun p => if p = path then FileState.json (Json.arr log) else FileState.missing

/-- A file system on which `mkdir` and `writeFile` succeed. -/
def fsOk : SaveEnv := { mkdirOk := true, writeOk := true }

/-- A live snapshot of `channelY`: the video `A`, published at 10:00. -/
def snapshotY : StreamDetails :=
  liveSnapshot (JsVal.str "https://www.youtube.com/watch?v=A") (JsVal.str "2024-05-01T10:00:00Z")

/-- A directory in which the log of `channelY` holds one session: the video `B`, published
at 10:00 as well. -/
def diskY : Disk :=
  diskWith "data/42/YouTube_UCaaaaaaaaaaaaaaaaaaaaaa.json"
    [sessionRecord (JsVal.str "https://www.youtube.com/watch?v=B")
      (JsVal.str "2024-05-01T10:00:00Z") (JsVal.str "munchy time")]

/-- A live snapshot of `channelA` that carries no start time. -/
def snapshotNoStart : StreamDetails :=
  liveSnapshot (JsVal.str "https://www.twitch.tv/a") JsVal.undefined

/-- Whether a message built for a channel reaches the sink: a client and a sink id are
there, the sink is fetched and is text based, the embed is built and `send` resolves. -/
def delivered (client : Bool) (config : Config) (env : ChannelEnv) : Bool :=
  client && (match config.munchyStreamChannelId with | some id => id != "" | none => false) &&
    (match env.fetchChannel with
      | .ok (some munchyStreamChannel) => munchyStreamChannel.isTextBased
      | _ => false) &&
    env.embedOk && env.sendOk

/-- The cycle state in which `checkAllTrackedChannels` starts its loop. -/
def initialState (announced : AnnouncedStreams) (sent : List Announcement) : CycleState :=
  { liveMunchyStreams := [], announcedStreams := announced, sent := sent }

/-- A live snapshot of `channelA`, started at 10:00. -/
def snapshotA : StreamDetails :=
  liveSnapshot (JsVal.str "https://www.twitch.tv/a") (JsVal.str "2024-05-01T10:00:00Z")

/-- The first non-manual cycle for `channelA`, run at time 1714558000000 on an empty
directory and an empty cooldown map, with a working sink and file system. -/
def firstCycleA : TriggerResult :=
  triggerStreamCheckAndSave true (Except.ok configA) false (fun _ => FileState.missing)
    (fun _ => workingEnv snapshotA 1714558000000) (fun _ => fsOk) [] []

/-- An environment like `workingEnv` in which `send` rejects. -/
def sendFailsEnv (streamDetails : StreamDetails) (now : Int) : ChannelEnv :=
  { status := Except.ok (some streamDetails), primeClock := now, now := now,
    fetchChannel := Except.ok (some { isTextBased := true }), embedOk := true, sendOk := false }

/-- The events a cycle is expected to return, in the words of the specification: in
tracked-channel order, one event for each tracked channel whose status query (made for the
supported platforms only) reported a live stream with a title passing the keyword filter. -/
def expectedEvents (world : Nat → ChannelEnv) : Nat → List TrackedChannel → List StreamData
  | _, [] => []
  | i, channel :: rest =>
    (if channel.platform = "Twitch" ∨ channel.platform = "YouTube" then
      match (world i).status with
      | .ok (some streamDetails) =>
        if streamDetails.isLive = true ∧ titleIsMunchy streamDetails.title = true then
          [mkStreamData channel streamDetails]
        else []
      | _ => []
    else []) ++ expectedEvents world (i + 1) rest

/-- The environments met by a tracked list from which the entry at position `k` is taken
out: the later entries meet what they met one position further. -/
def skipAt (world : Nat → ChannelEnv) (k : Nat) : Nat → ChannelEnv :=
  fun i => if i < k then world i else world (i + 1)

/-- A tracked entry whose platform value has no status provider. -/
def channelKick : TrackedChannel :=
  { platform := "Kick", channelId := "k", channelName := "K", targetUserId := "7" }

/-- The records a log file durably holds: the elements of the JSON array it contains,
whether or not the file can be read at the moment; a missing file and a file that holds
no JSON array hold no record. -/
def durableRecords : FileState → List Json
  | .json (.arr xs) => xs
  | .unreadable (.arr xs) => xs
  | _ => []

/-- A session of `channelA` recorded the day before. -/
def oldRecordA : Json :=
  sessionRecord (JsVal.str "https://www.twitch.tv/a") (JsVal.str "2024-04-30T10:00:00Z")
    (JsVal.str "munchy yesterday")

/-- A directory in which the log of `channelA` holds `oldRecordA` and its read fails with an
error other than not-found. -/
def diskUnreadableA : Disk :=
  fun p => if p = "data/42/Twitch_a.json" then FileState.unreadable (Json.arr [oldRecordA])
    else FileState.missing

/-! ## The identifier resolver (`src/services/youtubeService.js`) -/

/-- The code points that `String.prototype.trim` removes: white space and line
terminators. -/
def isJsWhiteSpace (c : Char) : Bool :=
  c.toNat == 9 || c.toNat == 10 || c.toNat == 11 || c.toNat == 12 || c.toNat == 13 ||
    c.toNat == 32 || c.toNat == 160 || c.toNat == 5760 ||
    (Nat.ble 8192 c.toNat && Nat.ble c.toNat 8202) || c.toNat == 8232 || c.toNat == 8233 ||
    c.toNat == 8239 || c.toNat == 8287 || c.toNat == 12288 || c.toNat == 65279

/-- The method `trim` on the characters of a string. -/
def trimChars (cs : List Char) : List Char :=
  ((cs.dropWhile isJsWhiteSpace).reverse.dropWhile isJsWhiteSpace).reverse

/-- The method `trim`. -/
def jsTrim (s : String) : String :=
  String.mk (trimChars s.data)

/-- The property `length` of a JavaScript string: its number of UTF-16 code units. -/
def jsLength (s : String) : Nat :=
  (s.data.map (fun c => if c.toNat < 65536 then 1 else 2)).sum

/-- The method `startsWith`. -/
def startsWith (s pre : String) : Bool :=
  pre.data.isPrefixOf s.data

/-- The call `substring(1)` on a string whose first character is one code unit. -/
def substring1 (s : String) : String :=
  String.mk (s.data.drop 1)

/-- The call `split('/')` on the characters of a path. -/
def splitSlash : List Char → List (List Char)
  | [] => [[]]
  | c :: cs =>
    match splitSlash cs with
    | [] => [[]]
    | p :: ps => if c = '/' then [] :: p :: ps else (c :: p) :: ps

/-- The value `pathname.split('/').filter(p => p)`: the non-empty segments of a path. -/
def pathParts (pathname : String) : List String :=
  ((splitSlash pathname.data).filter (fun p => !p.isEmpty)).map String.mk

/-- The variables `handleName` (`none` is `null`) and `usernameForApi` after the input
parsing block. -/
structure ParsedIdentifier where
  handleName : Option String
  usernameForApi : String
  deriving DecidableEq, Repr

/-- The block "Input Parsing for Handles and Usernames".  `urlPathname x` is the `pathname`
of `new URL(x)`, or the error that the constructor throws. -/
def parseIdentifier (urlPathname : String → Except JsError String) (identifier : String) :
    ParsedIdentifier :=
  if startsWith identifier "@" then
    { handleName := some (substring1 identifier), usernameForApi := substring1 identifier }
  else if includes identifier.data "youtube.com/".data then
    match urlPathname identifier with
    | .error _ => { handleName := none, usernameForApi := identifier }
    | .ok pathname =>
      match pathParts pathname with
      | [] => { handleName := none, usernameForApi := identifier }
      | p0 :: rest =>
        if startsWith p0 "@" then
          { handleName := some (substring1 p0), usernameForApi := substring1 p0 }
        else
          match rest with
          | p1 :: _ =>
            if p0 == "c" then { handleName := none, usernameForApi := p1 }
            else if p0 == "user" then { handleName := none, usernameForApi := p1 }
            else { handleName := none, usernameForApi := identifier }
          | [] =>
            if !(["channel", "results", "feed", "watch"].contains p0) then
              { handleName := none, usernameForApi := p0 }
            else { handleName := none, usernameForApi := identifier }
  else { handleName := none, usernameForApi := identifier }

/-- An item of a `channels` answer of the directory: its `id`, and the `title` of its
`snippet` when it has a snippet (`none` also stands for a `null` item). -/
structure ChannelResource where
  id : JsVal
  snippetTitle : Option JsVal
  deriving DecidableEq, Repr

/-- An item of a `search` answer of the directory: the `channelId` of its `id` object when
it has one, and the `title` of its `snippet` when it has one. -/
structure SearchResource where
  idChannelId : Option JsVal
  snippetTitle : Option JsVal
  deriving DecidableEq, Repr

/-- What the resolver meets: whether `YOUTUBE_API_KEY` is configured, the URL parser, and
the answer of each directory request (the `items` of the response, empty when the response
has none, or the error that `axios.get` throws). -/
structure ResolverEnv where
  youtubeApiKey : Bool
  urlPathname : String → Except JsError String
  channelsById : String → Except JsError (List ChannelResource)
  channelsForHandle : String → Except JsError (List ChannelResource)
  channelsForUsername : String → Except JsError (List ChannelResource)
  searchChannels : String → Except JsError (List SearchResource)

/-- A request sent to the directory. -/
inductive DirectoryCall where
  | channelsById (id : String)
  | channelsForHandle (handle : String)
  | channelsForUsername (username : String)
  | searchChannels (q : String)
  deriving DecidableEq, Repr

/-- The object `{ channelId, channelName }` returned by the resolver. -/
structure ResolvedInfo where
  channelId : JsVal
  channelName : JsVal
  deriving DecidableEq, Repr

/-- The outcome of a resolution: the value returned (`none` is `null`) and the directory
requests made, in order. -/
structure ResolveResult where
  result : Option ResolvedInfo
  calls : List DirectoryCall
  deriving DecidableEq, Repr

/-- Priority 1, the `try` block: the answer confirms the id when
`response.data?.items?.[0]?.snippet?.title` is truthy. -/
def canonicalIdCheck (env : ResolverEnv) (identifier : String) : Option ResolvedInfo :=
  match env.channelsById identifier with
  | .error _ => none
  | .ok [] => none
  | .ok (item :: _) =>
    match item.snippetTitle with
    | some title =>
      if title.truthy then some { channelId := JsVal.str identifier, channelName := title }
      else none
    | none => none

/-- The `try` block of priorities 2 and 3: with `items.length > 0` the first item is
returned as `{ channelId: items[0].id, channelName: items[0].snippet.title }`; reading the
title of a missing snippet throws, which is caught like an error of the request. -/
def firstChannel (response : Except JsError (List ChannelResource)) : Option ResolvedInfo :=
  match response with
  | .error _ => none
  | .ok [] => none
  | .ok (item :: _) =>
    match item.snippetTitle with
    | none => none
    | some title => some { channelId := item.id, channelName := title }

/-- The `try` block of priority 4: the first item is returned as
`{ channelId: items[0].id.channelId, channelName: items[0].snippet.title }`. -/
def firstSearchResult (response : Except JsError (List SearchResource)) :
    Option ResolvedInfo :=
  match response with
  | .error _ => none
  | .ok [] => none
  | .ok (item :: _) =>
    match item.idChannelId with
    | none => none
    | some channelId =>
      match item.snippetTitle with
      | none => none
      | some title => some { channelId := channelId, channelName := title }

/-- Priority 4, the fallback search with the query `usernameForApi || identifier`. -/
def searchStep (env : ResolverEnv) (identifier : String) (parsed : ParsedIdentifier)
    (calls : List DirectoryCall) : ResolveResult :=
  { result := firstSearchResult (env.searchChannels
      (if parsed.usernameForApi != "" then parsed.usernameForApi else identifier)),
    calls := calls ++ [DirectoryCall.searchChannels
      (if parsed.usernameForApi != "" then parsed.usernameForApi else identifier)] }

/-- Priority 3, under the guard
`usernameForApi && (handleName !== usernameForApi || !handleName)`. -/
def usernameStep (env : ResolverEnv) (identifier : String) (parsed : ParsedIdentifier)
    (calls : List DirectoryCall) : ResolveResult :=
  if parsed.usernameForApi != "" &&
      (match parsed.handleName with
        | some handleName => handleName != parsed.usernameForApi || handleName == ""
        | none => true) then
    match firstChannel (env.channelsForUsername parsed.usernameForApi) with
    | some r =>
      { result := some r,
        calls := calls ++ [DirectoryCall.channelsForUsername parsed.usernameForApi] }
    | none =>
      searchStep env identifier parsed
        (calls ++ [DirectoryCall.channelsForUsername parsed.usernameForApi])
  else searchStep env identifier parsed calls

/-- Priority 2, under the guard `if (handleName)`. -/
def handleStep (env : ResolverEnv) (identifier : String) (parsed : ParsedIdentifier)
    (calls : List DirectoryCall) : ResolveResult :=
  match parsed.handleName with
  | some handleName =>
    if handleName != "" then
      match firstChannel (env.channelsForHandle handleName) with
      | some r =>
        { result := some r, calls := calls ++ [DirectoryCall.channelsForHandle handleName] }
      | none =>
        usernameStep env identifier parsed
          (calls ++ [DirectoryCall.channelsForHandle handleName])
    else usernameStep env identifier parsed calls
  | none => usernameStep env identifier parsed calls

/-- The test `identifier.startsWith('UC') && identifier.length === 24`. -/
def isCanonicalId (identifier : String) : Bool :=
  startsWith identifier "UC" && jsLength identifier == 24

/-- The function `resolveYouTubeIdentifierToChannelId`.  It throws when `loadConfig` finds
no API key; otherwise it returns `null` or a resolved channel. -/
def resolveYouTubeIdentifierToChannelId (env : ResolverEnv) (identifier : JsVal) :
    Except JsError ResolveResult :=
  if !env.youtubeApiKey then .error .apiError
  else
    match identifier with
    | .str raw =>
      if raw == "" || jsTrim raw == "" then .ok { result := none, calls := [] }
      else if isCanonicalId (jsTrim raw) then
        match canonicalIdCheck env (jsTrim raw) with
        | some r =>
          .ok { result := some r, calls := [DirectoryCall.channelsById (jsTrim raw)] }
        | none =>
          .ok (handleStep env (jsTrim raw) (parseIdentifier env.urlPathname (jsTrim raw))
            [DirectoryCall.channelsById (jsTrim raw)])
      else
        .ok (handleStep env (jsTrim raw) (parseIdentifier env.urlPathname (jsTrim raw)) [])
    | _ => .ok { result := none, calls := [] }

/-- An identifier in handle form, in the words of the specification: `@name`, or a profile
URL whose first path segment is `@name`. -/
def handleForm (urlPathname : String → Except JsError String) (identifier name : String) :
    Prop :=
  identifier.data = '@' :: name.data ∨
    (startsWith identifier "@" = false ∧
      includes identifier.data "youtube.com/".data = true ∧
      ∃ pathname p0 rest, urlPathname identifier = Except.ok pathname ∧
        pathParts pathname = p0 :: rest ∧ p0.data = '@' :: name.data)

/-- The directory requests made before the parsing block: the lookup by id when the
identifier has the shape of a canonical id. -/
def fastPathCalls (identifier : String) : List DirectoryCall :=
  if isCanonicalId identifier then [DirectoryCall.channelsById identifier] else []

/-- A URL parser for the scenarios: it knows the profile URL of the handle `foo`. -/
def urlPathnameFoo (x : String) : Except JsError String :=
  if x = "https://www.youtube.com/@foo" then Except.ok "/@foo"
  else Except.error JsError.typeError

/-- A directory in which the channel `UCaaaaaaaaaaaaaaaaaaaaaa` is confirmed by id and
nothing else is found. -/
def directoryY : ResolverEnv :=
  { youtubeApiKey := true,
    urlPathname := urlPathnameFoo,
    channelsById := fun id =>
      if id = "UCaaaaaaaaaaaaaaaaaaaaaa" then
        Except.ok [{ id := JsVal.str id, snippetTitle := some (JsVal.str "Y") }]
      else Except.ok [],
    channelsForHandle := fun _ => Except.ok [],
    channelsForUsername := fun _ => Except.ok [],
    searchChannels := fun _ => Except.ok [] }

/-- A directory in which the handle `foo` and the search for `foo` find the channel `Foo`,
the handle lookup answering with `handleItems`. -/
def directoryFoo (handleItems : List ChannelResource) : ResolverEnv :=
  { youtubeApiKey := true,
    urlPathname := urlPathnameFoo,
    channelsById := fun _ => Except.ok [],
    channelsForHandle := fun h => if h = "foo" then Except.ok handleItems else Except.ok [],
    channelsForUsername := fun _ => Except.ok [],
    searchChannels := fun q =>
      if q = "foo" then
        Except.ok [{ idChannelId := some (JsVal.str "UCffffffffffffffffffffff"),
                     snippetTitle := some (JsVal.str "Foo") }]
      else Except.ok [] }

/-- The Twitch channel `a` tracked a second time, for user `43`. -/
def channelA2 : TrackedChannel :=
  { platform := "Twitch", channelId := "a", channelName := "A", targetUserId := "43" }

/-- A configuration tracking the Twitch channel `a` for the users `42` and `43`. -/
def configShared : Config :=
  { trackedChannels := some [channelA, channelA2],
    announcementCooldownMinutes := none,
    munchyStreamChannelId := some "sink" }

/-! ## Registration (`src/commands/track.js`, `src/events/interactionCreate.js`) -/

/-- An entry of `config.trackedChannels` as the two registration paths push it. -/
structure ChannelEntry where
  platform : String
  channelId : String
  channelName : JsVal
  channelLink : String
  targetUserId : String
  deriving DecidableEq, Repr

/-- The way a registration ends: the reply it sends. -/
inductive RegistrationReply
  | invalidPlatform
  | userNotFound
  | notResolved
  | alreadyTracked
  | added
  | failed
  deriving DecidableEq, Repr

/-- The capture of the first match of `/twitch\.tv\/([^/?#&]+)/` in a string: at the
leftmost place where `twitch.tv/` is followed by at least one character other than `/`, `?`,
`#` and `&`, the longest run of such characters. -/
def twitchLoginMatch : List Char → Option (List Char)
  | [] => none
  | c :: cs =>
    if "twitch.tv/".data.isPrefixOf (c :: cs) &&
        !(((c :: cs).drop 10).takeWhile
          (fun x => !(x == '/' || x == '?' || x == '#' || x == '&'))).isEmpty then
      some (((c :: cs).drop 10).takeWhile
        (fun x => !(x == '/' || x == '?' || x == '#' || x == '&')))
    else twitchLoginMatch cs

/-- The method `execute` of the track command, on the field `trackedChannels` of the
configuration read: the reply, and the field as `config.json` holds it afterwards.
`writeOk` tells whether `writeConfig` resolves; an exception of the resolver or of the write
reaches the `catch` of the command, which leaves the file as it was. -/
def trackExecute (env : ResolverEnv) (writeOk : Bool)
    (trackedChannels : Option (List ChannelEntry)) (platform channelLink targetUserId : String) :
    RegistrationReply × Option (List ChannelEntry) :=
  let resolved : Except RegistrationReply (String × JsVal) :=
    if platform == "Twitch" then
      match twitchLoginMatch channelLink.data with
      | some login => .ok (String.mk login, JsVal.str (String.mk login))
      | none => .ok (channelLink, JsVal.str channelLink)
    else if platform == "YouTube" then
      match resolveYouTubeIdentifierToChannelId env (JsVal.str channelLink) with
      | .error _ => .error .failed
      | .ok r =>
        match r.result with
        | some resolvedInfo =>
          match resolvedInfo.channelId with
          | .str id =>
            if id != "" then .ok (id, resolvedInfo.channelName) else .error .notResolved
          | _ => .error .notResolved
        | none => .error .notResolved
    else .ok (channelLink, JsVal.str "N/A")
  match resolved with
  | .error reply => (reply, trackedChannels)
  | .ok (channelId, resolvedChannelName) =>
    match (trackedChannels.getD []).find? (fun ch =>
        ch.platform == platform && ch.channelId == channelId &&
          ch.targetUserId == targetUserId) with
    | some _ => (.alreadyTracked, trackedChannels)
    | none =>
      if writeOk then
        (.added, some (trackedChannels.getD [] ++
          [{ platform := platform, channelId := channelId, channelName := resolvedChannelName,
             channelLink := channelLink, targetUserId := targetUserId }]))
      else (.failed, trackedChannels)

/-- The handler of the modal `add_channel_modal_<targetUserId>`, on the field
`trackedChannels` of the configuration read: the reply, and the field as `config.json` holds
it afterwards. `fetchUserOk` tells whether `client.users.fetch` resolves. The Twitch branch
calls `twitchService.getChannelInfo`, which `twitchService.js` does not export: the call
throws a `TypeError` that the `catch` of the handler answers. -/
def addChannelModal (env : ResolverEnv) (fetchUserOk writeOk : Bool)
    (trackedChannels : Option (List ChannelEntry))
    (targetUserId platformInput channelInput : String) :
    RegistrationReply × Option (List ChannelEntry) :=
  let normalizedPlatform : Option String :=
    if toLowerCase (jsTrim platformInput).data = "twitch".data then some "Twitch"
    else if toLowerCase (jsTrim platformInput).data = "youtube".data then some "YouTube"
    else none
  match normalizedPlatform with
  | none => (.invalidPlatform, trackedChannels)
  | some normalizedPlatform =>
    if !fetchUserOk then (.userNotFound, trackedChannels)
    else if normalizedPlatform == "Twitch" then (.failed, trackedChannels)
    else
      match resolveYouTubeIdentifierToChannelId env (JsVal.str (jsTrim channelInput)) with
      | .error _ => (.failed, trackedChannels)
      | .ok r =>
        match r.result with
        | none => (.notResolved, trackedChannels)
        | some resolvedInfo =>
          match resolvedInfo.channelId with
          | .str resolvedChannelId =>
            if resolvedChannelId != "" then
              match (trackedChannels.getD []).find? (fun ch =>
                  ch.platform == normalizedPlatform && ch.channelId == resolvedChannelId &&
                    ch.targetUserId == targetUserId) with
              | some _ => (.alreadyTracked, trackedChannels)
              | none =>
                if writeOk then
                  (.added, some (trackedChannels.getD [] ++
                    [{ platform := normalizedPlatform, channelId := resolvedChannelId,
                       channelName := resolvedInfo.channelName,
                       channelLink := jsTrim channelInput, targetUserId := targetUserId }]))
                else (.failed, trackedChannels)
            else (.notResolved, trackedChannels)
          | _ => (.notResolved, trackedChannels)

/-- Two entries name the same registration: same platform, channel id and target user. -/
def sameTriple (a b : ChannelEntry) : Prop :=
  a.platform = b.platform ∧ a.channelId = b.channelId ∧ a.targetUserId = b.targetUserId

instance (a b : ChannelEntry) : Decidable (sameTriple a b) := by
  unfold sameTriple
  exact inferInstance

/-- No two entries of the list name the same registration. -/
def NoDupTriples (l : List ChannelEntry) : Prop :=
  l.Pairwise (fun a b => ¬sameTriple a b)

instance (l : List ChannelEntry) : Decidable (NoDupTriples l) := by
  unfold NoDupTriples
  exact inferInstance

/-- The entry of the YouTube channel `UCaaaaaaaaaaaaaaaaaaaaaa` registered for user `42`. -/
def entryY : ChannelEntry :=
  { platform := "YouTube", channelId := "UCaaaaaaaaaaaaaaaaaaaaaa", channelName := JsVal.str "Y",
    channelLink := "UCaaaaaaaaaaaaaaaaaaaaaa", targetUserId := "42" }

/-- The effect a registration may have on the field `trackedChannels`: the list stays free
of duplicate triples; unless the reply is the success message the field is as before; with
the success message exactly one entry was appended to the entries as they were, for the
given platform and target user, and its triple matches no entry that was there. -/
def RegistrationEffect (before : Option (List ChannelEntry))
    (r : RegistrationReply × Option (List ChannelEntry)) (platform targetUserId : String) :
    Prop :=
  NoDupTriples (r.2.getD []) ∧
  (r.1 ≠ RegistrationReply.added → r.2 = before) ∧
  (r.1 = RegistrationReply.added →
    ∃ e : ChannelEntry, e.platform = platform ∧ e.targetUserId = targetUserId ∧
      (∀ ch ∈ before.getD [], ¬sameTriple ch e) ∧ r.2 = some (before.getD [] ++ [e]))

/-! ## Dates (the `Date` object of the platform, after ECMAScript 2023, section 21.4.1)

A date is its time value: milliseconds since the epoch, `none` for `NaN` (an invalid date).
Local time is UTC plus a constant offset: daylight-saving changes are not modelled. -/

/-- What the platform contributes to `Date`: the offset `LocalTZA` of local time from UTC in
milliseconds, the time value of `new Date(s)` for a string `s`, and the time value of
`new Date(v)` for an array or object `v` (which is converted to a string first). -/
structure DateLib where
  localTZA : Int
  parse : String → Option Int
  ofObject : Json → Option Int

/-- The constant `msPerDay`. -/
def msPerDay : Int := 86400000

/-- The abstract operation `DayFromYear`: the day number of the first day of year `y`. -/
def dayFromYear (y : Int) : Int :=
  365 * (y - 1970) + (y - 1969) / 4 - (y - 1901) / 100 + (y - 1601) / 400

/-- The year of a day number: the largest `y` with `dayFromYear y ≤ d`, found from the
estimate `1970 + 400 * d / 146097`, which is off by at most one. -/
def yearFromDay (d : Int) : Int :=
  if dayFromYear (1970 + 400 * d / 146097 + 1) ≤ d then 1970 + 400 * d / 146097 + 1
  else if dayFromYear (1970 + 400 * d / 146097) ≤ d then 1970 + 400 * d / 146097
  else 1970 + 400 * d / 146097 - 1

/-- The abstract operation `InLeapYear`, on a year: `1` in a year of 366 days, else `0`. -/
def inLeapYear (y : Int) : Int :=
  dayFromYear (y + 1) - dayFromYear y - 365

/-- The day within the year on which month `m` (0 to 11) starts; `m = 12` gives the length
of the year. -/
def monthStart (leap m : Int) : Int :=
  if m ≤ 0 then 0
  else if m = 1 then 31
  else if m = 2 then 59 + leap
  else if m = 3 then 90 + leap
  else if m = 4 then 120 + leap
  else if m = 5 then 151 + leap
  else if m = 6 then 181 + leap
  else if m = 7 then 212 + leap
  else if m = 8 then 243 + leap
  else if m = 9 then 273 + leap
  else if m = 10 then 304 + leap
  else if m = 11 then 334 + leap
  else 365 + leap

/-- The table of `MonthFromTime`, on the day within the year. -/
def monthFromDayInYear (leap d : Int) : Int :=
  if d < 31 then 0
  else if d < 59 + leap then 1
  else if d < 90 + leap then 2
  else if d < 120 + leap then 3
  else if d < 151 + leap then 4
  else if d < 181 + leap then 5
  else if d < 212 + leap then 6
  else if d < 243 + leap then 7
  else if d < 273 + leap then 8
  else if d < 304 + leap then 9
  else if d < 334 + leap then 10
  else 11

/-- The abstract operation `Day`. -/
def day (t : Int) : Int := t / msPerDay

/-- The abstract operation `TimeWithinDay`. -/
def timeWithinDay (t : Int) : Int := t % msPerDay

/-- The abstract operation `YearFromTime`. -/
def yearFromTime (t : Int) : Int := yearFromDay (day t)

/-- The abstract operation `MonthFromTime`. -/
def monthFromTime (t : Int) : Int :=
  monthFromDayInYear (inLeapYear (yearFromTime t)) (day t - dayFromYear (yearFromTime t))

/-- The abstract operation `DateFromTime`: the day of the month, from 1. -/
def dateFromTime (t : Int) : Int :=
  day t - dayFromYear (yearFromTime t) -
    monthStart (inLeapYear (yearFromTime t)) (monthFromTime t) + 1

/-- The abstract operation `MakeTime`. -/
def makeTime (hour min sec ms : Int) : Int :=
  hour * 3600000 + min * 60000 + sec * 1000 + ms

/-- The abstract operation `MakeDay`: the month is normalised into the year, the date counts
on from the first of that month (date `0` is the last day of the month before). -/
def makeDay (year month date : Int) : Int :=
  dayFromYear (year + month / 12) + monthStart (inLeapYear (year + month / 12)) (month % 12) +
    date - 1

/-- The abstract operation `MakeDate`. -/
def makeDate (d time : Int) : Int := d * msPerDay + time

/-- The abstract operation `TimeClip`: a time value is at most 8.64e15 in absolute value. -/
def timeClip (t : Int) : Option Int :=
  if -8640000000000000 ≤ t ∧ t ≤ 8640000000000000 then some t else none

/-- The method `getFullYear` of a valid date. -/
def DateLib.getFullYear (lib : DateLib) (t : Int) : Int := yearFromTime (t + lib.localTZA)

/-- The method `getMonth` of a valid date (0 to 11). -/
def DateLib.getMonth (lib : DateLib) (t : Int) : Int := monthFromTime (t + lib.localTZA)

/-- The method `getDate` of a valid date (1 to 31). -/
def DateLib.getDate (lib : DateLib) (t : Int) : Int := dateFromTime (t + lib.localTZA)

/-- The constructor `new Date(year, month, date, hours, minutes, seconds, ms)` in local time;
a year from 0 to 99 stands for 1900 + year. -/
def DateLib.newDate (lib : DateLib) (year month date hours minutes seconds ms : Int) :
    Option Int :=
  timeClip (makeDate
    (makeDay (if 0 ≤ year ∧ year ≤ 99 then 1900 + year else year) month date)
    (makeTime hours minutes seconds ms) - lib.localTZA)

/-- The constructor `new Date(value)` on a property read from a parsed record (`none` is
`undefined`). -/
def DateLib.ofJson (lib : DateLib) : Option Json → Option Int
  | none => none
  | some .null => some 0
  | some (.bool b) => some (if b then 1 else 0)
  | some (.num n) => timeClip n
  | some (.str s) => lib.parse s
  | some (.arr xs) => lib.ofObject (.arr xs)
  | some (.obj kvs) => lib.ofObject (.obj kvs)

/-- The method `setDate` (the day of the month, in local time). -/
def DateLib.setDate (lib : DateLib) (d : Option Int) (date : Int) : Option Int :=
  match d with
  | none => none
  | some tv =>
    timeClip (makeDate
      (makeDay (yearFromTime (tv + lib.localTZA)) (monthFromTime (tv + lib.localTZA)) date)
      (timeWithinDay (tv + lib.localTZA)) - lib.localTZA)

/-- The method `setMonth`. -/
def DateLib.setMonth (lib : DateLib) (d : Option Int) (month : Int) : Option Int :=
  match d with
  | none => none
  | some tv =>
    timeClip (makeDate
      (makeDay (yearFromTime (tv + lib.localTZA)) month (dateFromTime (tv + lib.localTZA)))
      (timeWithinDay (tv + lib.localTZA)) - lib.localTZA)

/-- The method `setFullYear`; on an invalid date the fields are those of time value `+0`. -/
def DateLib.setFullYear (lib : DateLib) (d : Option Int) (year : Int) : Option Int :=
  match d with
  | none => timeClip (makeDate (makeDay year (monthFromTime 0) (dateFromTime 0))
      (timeWithinDay 0) - lib.localTZA)
  | some tv =>
    timeClip (makeDate
      (makeDay year (monthFromTime (tv + lib.localTZA)) (dateFromTime (tv + lib.localTZA)))
      (timeWithinDay (tv + lib.localTZA)) - lib.localTZA)

/-- The method `setHours(hours, minutes, seconds, ms)`. -/
def DateLib.setHours (lib : DateLib) (d : Option Int) (hours minutes seconds ms : Int) :
    Option Int :=
  match d with
  | none => none
  | some tv =>
    timeClip (makeDate (day (tv + lib.localTZA)) (makeTime hours minutes seconds ms) -
      lib.localTZA)

/-- The comparison `a >= b` of two dates: false when either is invalid. -/
def dateGe (a b : Option Int) : Bool :=
  match a, b with
  | some x, some y => decide (y ≤ x)
  | _, _ => false

/-- The comparison `a <= b` of two dates: false when either is invalid. -/
def dateLe (a b : Option Int) : Bool :=
  match a, b with
  | some x, some y => decide (x ≤ y)
  | _, _ => false

/-- The comparison `a > b` of two dates: false when either is invalid. -/
def dateGt (a b : Option Int) : Bool :=
  match a, b with
  | some x, some y => decide (y < x)
  | _, _ => false

/-! ## Reports (`src/services/reportService.js`)

The activity files are named as in the activity store: the process runs in the directory
that holds `services/` and `data/`, so that `path.join(__dirname, '..', 'data', ...)` and
`path.join('data', ...)` name the same file. -/

/-- The configuration fields the report service reads. -/
structure ReportConfig where
  trackedChannels : Option (List ChannelEntry)
  reportChannelId : Option String

/-- The function `getTrackedChannels`: `config.trackedChannels || []`. -/
def getTrackedChannels (config : ReportConfig) : List ChannelEntry :=
  config.trackedChannels.getD []

/-- The function `getReportChannelId`: `config.reportChannelId || null`. -/
def getReportChannelId (config : ReportConfig) : Option String :=
  match config.reportChannelId with
  | some id => if id != "" then some id else none
  | none => none

/-- The body of the loops over the stored sessions in `generateReport` and in
`generateUserStreamReportData`, started with count `streamCount`: a session with a truthy
`startedAt` whose date lies in `[first, last]` is counted. Reading `startedAt` of a `null`
element throws; the `catch` around the loop keeps the count reached so far. -/
def countStreams (lib : DateLib) (first last : Option Int) : List Json → Nat → Nat
  | [], streamCount => streamCount
  | stream :: rest, streamCount =>
    if stream.isNull then streamCount
    else if (match stream.getProp "startedAt" with | some v => v.truthy | none => false) then
      if dateGe (lib.ofJson (stream.getProp "startedAt")) first &&
          dateLe (lib.ofJson (stream.getProp "startedAt")) last then
        countStreams lib first last rest (streamCount + 1)
      else countStreams lib first last rest streamCount
    else countStreams lib first last rest streamCount

/-- The variable `streamCount` of `generateReport` after the `try` block of a tracked
channel: the file is read and parsed there; a missing or unreadable file, invalid JSON and a
value that is not an array leave the count at 0. -/
def channelStreamCount (lib : DateLib) (disk : Disk) (first last : Option Int)
    (trackedChannel : ChannelEntry) : Nat :=
  match disk (logPath trackedChannel.targetUserId trackedChannel.platform
      trackedChannel.channelId) with
  | .json (.arr streams) => countStreams lib first last streams 0
  | _ => 0

/-- What one tracked channel adds to `totalStreamsThisMonth` in
`generateUserStreamReportData`: the sessions come from `readUserActivity`. -/
def userChannelCount (lib : DateLib) (disk : Disk) (first last : Option Int)
    (trackedChannel : ChannelEntry) : Nat :=
  countStreams lib first last
    (readUserActivity disk trackedChannel.targetUserId trackedChannel.platform
      trackedChannel.channelId) 0

/-- The field `streamsThisMonth` returned by `generateUserStreamReportData` for a user with
at least one tracked channel: the sum over the channels tracked for that user. -/
def userStreamsThisMonth (lib : DateLib) (disk : Disk) (config : ReportConfig)
    (targetUserId : String) (reportMonthOneIndexed reportYear : Int) : Nat :=
  (((getTrackedChannels config).filter (fun ch => ch.targetUserId == targetUserId)).map
    (userChannelCount lib disk
      (lib.newDate reportYear (reportMonthOneIndexed - 1) 1 0 0 0 0)
      (lib.newDate reportYear (reportMonthOneIndexed - 1 + 1) 0 23 59 59 999))).sum

/-- The filter of the footer block "Streams this month" of `checkAllTrackedChannels`: a
session is kept when its date has the year and month of the current date; reading
`startedAt` of a `null` element throws. -/
def footerFilter (lib : DateLib) (currentYear currentMonth : Int) :
    List Json → Except JsError (List Json)
  | [] => .ok []
  | session :: rest =>
    if session.isNull then .error .typeError
    else
      match footerFilter lib currentYear currentMonth rest with
      | .error e => .error e
      | .ok kept =>
        match lib.ofJson (session.getProp "startedAt") with
        | some t =>
          if lib.getFullYear t = currentYear ∧ lib.getMonth t = currentMonth then
            .ok (session :: kept)
          else .ok kept
        | none => .ok kept

/-- The variable `streamsThisMonthCount` of the footer block, with `currentDate` the clock
reading taken there; an exception leaves it at 0. -/
def streamsThisMonthCount (lib : DateLib) (disk : Disk) (streamData : StreamData)
    (currentDate : Int) : Nat :=
  match footerFilter lib (lib.getFullYear currentDate) (lib.getMonth currentDate)
      (readUserActivity disk streamData.targetUserId streamData.platform
        streamData.streamerChannelId) with
  | .ok kept => kept.length
  | .error _ => 0

/-- A line of a user's block in the report. -/
structure ChannelLine where
  platform : String
  name : String
  count : Nat
  deriving DecidableEq, Repr

/-- An entry of `userActivity`, with its key. -/
structure UserActivity where
  userId : String
  username : String
  channels : List ChannelLine
  totalStreams : Nat
  deriving DecidableEq, Repr

/-- The value `configChannelName || channelId`. -/
def effectiveChannelName (trackedChannel : ChannelEntry) : String :=
  match trackedChannel.channelName with
  | .str s => if s != "" then s else trackedChannel.channelId
  | _ => trackedChannel.channelId

/-- The value `platform.charAt(0).toUpperCase() + platform.slice(1)`, for a platform name
that starts with an ASCII character. -/
def capitalize (platform : String) : String :=
  match platform.data with
  | [] => ""
  | c :: cs => String.mk (c.toUpper :: cs)

/-- The update of `userActivity` for one tracked channel: the entry of the user is created
on first use (no entry carries `targetUserTag`, so the name starts as `User ID <id>`), the
line is pushed and the total increased. The entries are kept in order of creation, which is
the order `for...in` visits the keys of user ids (snowflakes, beyond the array-index
range). -/
def recordChannel (acts : List UserActivity) (targetUserId : String) (line : ChannelLine) :
    List UserActivity :=
  if acts.any (fun u => u.userId == targetUserId) then
    acts.map (fun u =>
      if u.userId == targetUserId then
        { u with channels := u.channels ++ [line], totalStreams := u.totalStreams + line.count }
      else u)
  else
    acts ++ [{ userId := targetUserId, username := "User ID " ++ targetUserId,
               channels := [line], totalStreams := line.count }]

/-- The loop over the tracked channels that fills `userActivity`. -/
def collectActivity (lib : DateLib) (disk : Disk) (first last : Option Int) :
    List ChannelEntry → List UserActivity → List UserActivity
  | [], acts => acts
  | trackedChannel :: rest, acts =>
    collectActivity lib disk first last rest
      (recordChannel acts trackedChannel.targetUserId
        { platform := capitalize trackedChannel.platform,
          name := effectiveChannelName trackedChannel,
          count := channelStreamCount lib disk first last trackedChannel })

/-- What the outside world answers during `generateReport`: the user name given by
`client.users.fetch`, the value of `a.toLowerCase().localeCompare(b.toLowerCase())` on two
user names, whether the embed builder accepts a description (given in UTF-16 code units),
the result of `client.channels.fetch`, and whether `send` resolves. -/
structure ReportEnv where
  fetchUser : String → Except JsError String
  compareNames : String → String → Int
  embedOk : List Nat → Bool
  fetchChannel : Except JsError (Option SinkChannel)
  sendOk : Bool

/-- The loop that fetches the users: a fetched user replaces the name, a failed fetch keeps
it. -/
def fetchNames (env : ReportEnv) (acts : List UserActivity) : List UserActivity :=
  acts.map (fun u =>
    match env.fetchUser u.userId with
    | .ok username => { u with username := username }
    | .error _ => u)

/-- The comparator of the sort puts `a` before or level with `b`: more streams first, then
the user names in ascending order. -/
def reportOrder (env : ReportEnv) (a b : UserActivity) : Prop :=
  (if b.totalStreams ≠ a.totalStreams then (b.totalStreams : Int) - (a.totalStreams : Int)
    else env.compareNames a.username b.username) ≤ 0

instance (env : ReportEnv) : DecidableRel (reportOrder env) := fun a b => by
  unfold reportOrder
  exact inferInstance

/-- The text added to `description` for one user. -/
def describeUser (userData : UserActivity) : String :=
  "<@" ++ userData.userId ++ "> (" ++ userData.username ++ "):\n" ++
    (if userData.channels.length > 0 then
      String.join (userData.channels.map (fun ch =>
        "  • " ++ ch.platform ++ " - " ++ ch.name ++ ": **" ++ toString ch.count ++
          "** streams\n"))
    else "  • No channels tracked for this user in the report period or no data found.\n") ++
    "\n"

/-- The variable `description` before the truncation step. -/
def assembleDescription (sortedUserActivityDetails : List UserActivity)
    (trackedChannels : List ChannelEntry) : String :=
  if sortedUserActivityDetails.length = 0 ∧ trackedChannels.length > 0 then
    "No stream activity found for any tracked users in this period."
  else if trackedChannels.length = 0 then "No channels are currently being tracked."
  else String.join (sortedUserActivityDetails.map describeUser)

/-- The UTF-16 code units of a character. -/
def utf16Units (c : Char) : List Nat :=
  if c.toNat < 65536 then [c.toNat]
  else [55296 + (c.toNat - 65536) / 1024, 56320 + (c.toNat - 65536) % 1024]

/-- A string as JavaScript holds it: its UTF-16 code units. -/
def utf16 (s : String) : List Nat :=
  (s.data.map utf16Units).flatten

/-- The truncation step: `if (description.length > 4096) description =
description.substring(0, 4090) + "\n... (report truncated due to length)"`. -/
def truncateDescription (description : List Nat) : List Nat :=
  if description.length > 4096 then
    description.take 4090 ++ utf16 "\n... (report truncated due to length)"
  else description

/-- The method `trim` on code units. -/
def trimUnits (units : List Nat) : List Nat :=
  ((units.dropWhile (fun u => isJsWhiteSpace (Char.ofNat u))).reverse.dropWhile
    (fun u => isJsWhiteSpace (Char.ofNat u))).reverse

/-- The argument of `setDescription`:
`description.trim() || 'No activity to report or no users tracked.'` after the truncation
step. -/
def embedDescription (description : String) : List Nat :=
  if (trimUnits (truncateDescription (utf16 description))).isEmpty then
    utf16 "No activity to report or no users tracked."
  else trimUnits (truncateDescription (utf16 description))

/-- The errors `generateReport` throws. -/
inductive ReportError where
  | invalidMonth
  | invalidTime
  | noReportChannel
  | channelUnavailable
  | thrown (e : JsError)
  deriving DecidableEq, Repr

/-- The messages `generateReport` returns. -/
inductive ReportMessage where
  | noTrackedChannels
  | reportSent
  deriving DecidableEq, Repr

/-- A run of `generateReport`: the message returned or the error thrown, and the argument
of `setDescription` when the run got that far. -/
structure ReportRun where
  outcome : Except ReportError ReportMessage
  description : Option (List Nat)

/-- The argument of `setDescription` in a run of `generateReport` that reaches the embed:
the entries of `userActivity` with the fetched names, sorted, described and cut. -/
def reportDescription (config : ReportConfig) (lib : DateLib) (env : ReportEnv) (disk : Disk)
    (first last : Option Int) : List Nat :=
  embedDescription (assembleDescription
    ((fetchNames env (collectActivity lib disk first last (getTrackedChannels config)
      [])).insertionSort (reportOrder env))
    (getTrackedChannels config))

/-- The function `generateReport`. The month is validated first; `toISOString` in the log
line of the report period throws a `RangeError` on an invalid date; the remaining steps run
inside the `try` whose `catch` logs and rethrows. -/
def generateReport (config : ReportConfig) (lib : DateLib) (env : ReportEnv) (disk : Disk)
    (reportYear reportMonthOneIndexed : Int) : ReportRun :=
  if reportMonthOneIndexed - 1 < 0 ∨ reportMonthOneIndexed - 1 > 11 then
    { outcome := .error .invalidMonth, description := none }
  else
    match lib.newDate reportYear (reportMonthOneIndexed - 1) 1 0 0 0 0,
        lib.newDate reportYear (reportMonthOneIndexed - 1 + 1) 0 23 59 59 999 with
    | some first, some last =>
      if (getTrackedChannels config).length = 0 then
        { outcome := .ok .noTrackedChannels, description := none }
      else
        match getReportChannelId config with
        | none => { outcome := .error .noReportChannel, description := none }
        | some _ =>
          { outcome :=
              if !env.embedOk (reportDescription config lib env disk (some first) (some last))
              then .error (.thrown .apiError)
              else
                match env.fetchChannel with
                | .error e => .error (.thrown e)
                | .ok none => .error .channelUnavailable
                | .ok (some discordChannel) =>
                  if discordChannel.isTextBased then
                    if env.sendOk then .ok .reportSent else .error (.thrown .apiError)
                  else .error .channelUnavailable,
            description :=
              some (reportDescription config lib env disk (some first) (some last)) }
    | _, _ => { outcome := .error .invalidTime, description := none }

/-- The function `generatePreviousMonthReport`, with `now` the clock reading it takes. -/
def generatePreviousMonthReport (config : ReportConfig) (lib : DateLib) (env : ReportEnv)
    (disk : Disk) (now : Int) : ReportRun :=
  if lib.getMonth now = 0 then generateReport config lib env disk (lib.getFullYear now - 1) 12
  else generateReport config lib env disk (lib.getFullYear now) (lib.getMonth now)

/-- The year and month that the command `forcegeneratereport` passes to `generateReport`:
the options when both are given and truthy, else the month before the current one. -/
def forceReportArguments (lib : DateLib) (inputYear inputMonth : Option Int) (now : Int) :
    Int × Int :=
  if (match inputYear with | some y => y != 0 | none => false) &&
      (match inputMonth with | some m => m != 0 | none => false) then
    (inputYear.getD 0, inputMonth.getD 0)
  else if lib.getMonth now - 1 < 0 then (lib.getFullYear now - 1, 11 + 1)
  else (lib.getFullYear now, lib.getMonth now - 1 + 1)

/-- The state after a call of `checkAndGenerateReport`: the module variable
`lastReportGeneratedForMonth`, and the run of the report generation if one was started. -/
structure CheckResult where
  lastReportGeneratedForMonth : Int
  run : Option ReportRun

/-- The function `checkAndGenerateReport`, with `today` its clock reading and `now` the one
of `generatePreviousMonthReport`. -/
def checkAndGenerateReport (config : ReportConfig) (lib : DateLib) (env : ReportEnv)
    (disk : Disk) (lastReportGeneratedForMonth today now : Int) : CheckResult :=
  if lib.getDate today = 1 then
    if lastReportGeneratedForMonth ≠ lib.getMonth today then
      match (generatePreviousMonthReport config lib env disk now).outcome with
      | .ok _ =>
        { lastReportGeneratedForMonth := lib.getMonth today,
          run := some (generatePreviousMonthReport config lib env disk now) }
      | .error _ =>
        { lastReportGeneratedForMonth := lastReportGeneratedForMonth,
          run := some (generatePreviousMonthReport config lib env disk now) }
    else { lastReportGeneratedForMonth := lastReportGeneratedForMonth, run := none }
  else { lastReportGeneratedForMonth := lastReportGeneratedForMonth, run := none }

/-- A platform in UTC whose `Date` parses no string. -/
def utcLib : DateLib :=
  { localTZA := 0, parse := fun _ => none, ofObject := fun _ => none }

/-- An environment of `generateReport` in which users are not found, every description is
accepted, and the report channel is fetched, is text based and accepts the message. -/
def reportEnvOk : ReportEnv :=
  { fetchUser := fun _ => Except.error JsError.apiError,
    compareNames := fun _ _ => 0,
    embedOk := fun _ => true,
    fetchChannel := Except.ok (some { isTextBased := true }),
    sendOk := true }

/-- A configuration in which 200 Twitch channels `streamer0` to `streamer199` are tracked
for one user, with a report channel. -/
def configManyChannels : ReportConfig :=
  { trackedChannels := some ((List.range 200).map (fun i =>
      { platform := "Twitch", channelId := "streamer" ++ toString i,
        channelName := JsVal.str ("streamer" ++ toString i),
        channelLink := "streamer" ++ toString i, targetUserId := "123456789012345678" })),
    reportChannelId := some "reports" }

/-- The instant at which a stored session started: the date of its `startedAt` when that is
present and not empty; a session without one has no start instant. -/
def startedAtInstant (lib : DateLib) (session : Json) : Option Int :=
  match session.getProp "startedAt" with
  | some v => if v.truthy then lib.ofJson (some v) else none
  | none => none

/-- The session has a start instant `t` with `first ≤ t ≤ last`. -/
def startedWithin (lib : DateLib) (first last : Int) (session : Json) : Bool :=
  match startedAtInstant lib session with
  | some t => decide (first ≤ t ∧ t ≤ last)
  | none => false

/-- The session has a start instant in the local calendar month `month` (0 to 11) of
`year`. -/
def startedInMonth (lib : DateLib) (year month : Int) (session : Json) : Bool :=
  match startedAtInstant lib session with
  | some t => decide (lib.getFullYear t = year ∧ lib.getMonth t = month)
  | none => false

/-- The number of sessions of a log whose start instant `t` satisfies
`first ≤ t ≤ last`. -/
def sessionsWithin (lib : DateLib) (first last : Int) (log : List Json) : Nat :=
  log.countP (startedWithin lib first last)

/-- The number of sessions of a log whose start instant lies in the local calendar month
`month` (0 to 11) of `year`. -/
def sessionsInMonth (lib : DateLib) (year month : Int) (log : List Json) : Nat :=
  log.countP (startedInMonth lib year month)

/-- The first instant of the local calendar month `month` (1 to 12) of `year`: 00:00:00.000
of its first day. -/
def firstInstant (lib : DateLib) (year month : Int) : Int :=
  makeDate (makeDay year (month - 1) 1) (makeTime 0 0 0 0) - lib.localTZA

/-- The last instant of the local calendar month `month` (1 to 12) of `year`: 23:59:59.999
of the day before the first day of the next month. -/
def lastInstant (lib : DateLib) (year month : Int) : Int :=
  makeDate (makeDay year (month - 1 + 1) 0) (makeTime 23 59 59 999) - lib.localTZA

/-- A platform two hours east of UTC whose `Date` parses the two time stamps of the
scenarios. -/
def isoLib : DateLib :=
  { localTZA := 7200000,
    parse := fun s =>
      if s = "2024-05-01T10:00:00Z" then some 1714557600000
      else if s = "2024-04-30T22:30:00Z" then some 1714516200000
      else if s = "2024-04-30T10:00:00Z" then some 1714471200000
      else none,
    ofObject := fun _ => none }

/-- The entry of the Twitch channel `a` registered for user `42`. -/
def entryA : ChannelEntry :=
  { platform := "Twitch", channelId := "a", channelName := JsVal.str "A", channelLink := "a",
    targetUserId := "42" }

/-- A directory in which the log of `entryA` holds three sessions: one of 30 April at noon,
one that started on 1 May at 00:30 local time (30 April 22:30 UTC), and one of 1 May. -/
def diskSpring : Disk :=
  diskWith "data/42/Twitch_a.json"
    [oldRecordA,
     sessionRecord (JsVal.str "https://www.twitch.tv/a") (JsVal.str "2024-04-30T22:30:00Z")
       (JsVal.str "munchy night"),
     sessionRecord (JsVal.str "https://www.twitch.tv/a") (JsVal.str "2024-05-01T10:00:00Z")
       (JsVal.str "munchy time")]

/-- What a later call of `checkAndGenerateReport` meets: the configuration, the outside
world, the activity files and the two clock readings. -/
structure CheckInput where
  config : ReportConfig
  env : ReportEnv
  disk : Disk
  today : Int
  now : Int

/-- A sequence of calls of `checkAndGenerateReport`, each starting from the value of
`lastReportGeneratedForMonth` that the call before left. -/
def runChecks (lib : DateLib) : Int → List CheckInput → List CheckResult
  | _, [] => []
  | lastReportGeneratedForMonth, c :: rest =>
    checkAndGenerateReport c.config lib c.env c.disk lastReportGeneratedForMonth c.today c.now ::
      runChecks lib
        (checkAndGenerateReport c.config lib c.env c.disk lastReportGeneratedForMonth c.today
          c.now).lastReportGeneratedForMonth rest

/-- A configuration in which `entryA` is tracked and a report channel is set. -/
def configReport : ReportConfig :=
  { trackedChannels := some [entryA], reportChannelId := some "reports" }

/-- A configuration in which `entryA` is tracked and no report channel is set. -/
def configNoReportChannel : ReportConfig :=
  { trackedChannels := some [entryA], reportChannelId := none }

/-! ## The timeframe parser (`src/utils/timeframeParser.js`) -/

/-- The object `{ startDate, endDate }` that `parseTimeframe` returns. -/
structure TimeRange where
  startDate : Option Int
  endDate : Option Int
  deriving DecidableEq, Repr

/-- The pattern `\d{4}-\d{2}-\d{2}` matches the whole text. -/
def isDateText : List Char → Bool
  | [y1, y2, y3, y4, s1, m1, m2, s2, d1, d2] =>
    y1.isDigit && y2.isDigit && y3.isDigit && y4.isDigit && s1 == '-' && m1.isDigit &&
      m2.isDigit && s2 == '-' && d1.isDigit && d2.isDigit
  | _ => false

/-- The match of `/^(\d{4}-\d{2}-\d{2})_(\d{4}-\d{2}-\d{2})$/`: its two captures. -/
def customRangeMatch (timeframeString : String) : Option (String × String) :=
  if isDateText (timeframeString.data.take 10) && timeframeString.data.drop 10 != [] &&
      (timeframeString.data.drop 10).take 1 == ['_'] &&
      isDateText (timeframeString.data.drop 11) then
    some (String.mk (timeframeString.data.take 10), String.mk (timeframeString.data.drop 11))
  else none

/-- The match of `/^(\d+)([dmy])$/`: the digits and the unit. -/
def durationMatch (timeframeString : String) : Option (List Char × Char) :=
  match timeframeString.data.reverse with
  | [] => none
  | unit :: digits =>
    if (unit == 'd' || unit == 'm' || unit == 'y') && !digits.isEmpty &&
        digits.all Char.isDigit then
      some (digits.reverse, unit)
    else none

/-- The call `parseInt` on a run of decimal digits. The exact integer is taken; the number
of the source is the nearest double, which differs only beyond 2^53, where every date
computed from it is invalid either way. -/
def parseDigits (digits : List Char) : Int :=
  digits.foldl (fun acc c => 10 * acc + ((c.toNat : Int) - 48)) 0

/-- The function `parseTimeframe`, with `now` the clock reading it takes; `none` is
`null`. -/
def parseTimeframe (lib : DateLib) (now : Int) (timeframeString : String) : Option TimeRange :=
  match customRangeMatch timeframeString with
  | some (startText, endText) =>
    if (lib.parse startText).isNone || (lib.setHours (lib.parse endText) 23 59 59 999).isNone ||
        dateGt (lib.parse startText) (lib.setHours (lib.parse endText) 23 59 59 999) then
      none
    else
      some { startDate := lib.parse startText,
             endDate := lib.setHours (lib.parse endText) 23 59 59 999 }
  | none =>
    match durationMatch timeframeString with
    | none => none
    | some (digits, unit) =>
      some { startDate :=
               lib.setHours
                 (if unit == 'd' then
                    lib.setDate (some now) (lib.getDate now - parseDigits digits)
                  else if unit == 'm' then
                    lib.setMonth (some now) (lib.getMonth now - parseDigits digits)
                  else lib.setFullYear (some now) (lib.getFullYear now - parseDigits digits))
                 0 0 0 0,
             endDate := some now }

/-- A platform in UTC whose `Date` parses the two dates of the scenario. -/
def dayLib : DateLib :=
  { localTZA := 0,
    parse := fun s =>
      if s = "2024-05-01" then some 1714521600000
      else if s = "2024-05-31" then some 1717113600000
      else none,
    ofObject := fun _ => none }

/-- The event that the specification describes for a tracked channel and the snapshot its
status query returned: `streamUrl`, `startedAt`, `title` and `thumbnailUrl` are those of the
snapshot; `platform`, the channel id, the owning user and `channelName` are those of the
tracked channel. -/
def describedEvent (channel : TrackedChannel) (snapshot : StreamDetails) : StreamData :=
  { streamUrl := snapshot.streamUrl,
    startedAt := snapshot.startedAt,
    title := snapshot.title,
    platform := channel.platform,
    streamerChannelId := channel.channelId,
    targetUserId := channel.targetUserId,
    channelName := channel.channelName,
    thumbnailUrl := snapshot.thumbnailUrl }

/-- The list that the specification describes as the return value of a cycle: in
tracked-channel order, the described event of each tracked channel of a supported platform
whose status query (the one made at its position) reported a live stream with a title
passing the keyword filter, and nothing for any other tracked channel. -/
def describedEvents (world : Nat → ChannelEnv) : Nat → List TrackedChannel → List StreamData
  | _, [] => []
  | i, channel :: rest =>
    (if channel.platform = "Twitch" ∨ channel.platform = "YouTube" then
      match (world i).status with
      | .ok (some snapshot) =>
        if snapshot.isLive = true ∧ titleIsMunchy snapshot.title = true then
          [describedEvent channel snapshot]
        else []
      | _ => []
    else []) ++ describedEvents world (i + 1) rest

/-- A platform in UTC whose `Date` parses a time stamp of May 1950 and one of May 2024. -/
def centuryLib : DateLib :=
  { localTZA := 0,
    parse := fun s =>
      if s = "1950-05-10T10:00:00Z" then some (-619970400000)
      else if s = "2024-05-01T10:00:00Z" then some 1714557600000
      else none,
    ofObject := fun _ => none }

/-- A directory in which the log of `entryA` holds one session, of 10 May 1950. -/
def disk1950 : Disk :=
  diskWith "data/42/Twitch_a.json"
    [sessionRecord (JsVal.str "https://www.twitch.tv/a") (JsVal.str "1950-05-10T10:00:00Z")
      (JsVal.str "munchy time")]

/-- A directory in which the log of `entryA` holds a `null` element followed by a session of
1 May 2024. -/
def diskNullFirst : Disk :=
  diskWith "data/42/Twitch_a.json"
    [Json.null,
     sessionRecord (JsVal.str "https://www.twitch.tv/a") (JsVal.str "2024-05-01T10:00:00Z")
       (JsVal.str "munchy time")]

end MediaBot

/-! ## Lemmas on the activity store -/

namespace MediaBot

theorem strictEq_eq_true_iff (p : Option Json) (v : JsVal) :
    strictEq p v = true ↔ p = toStored v := by
  cases v <;> rcases p with _ | j <;> (try cases j) <;> simp [strictEq, toStored]

theorem getProp_sessionRecord_streamUrl (u t ti : JsVal) :
    (sessionRecord u t ti).getProp "streamUrl" = toStored u := by
  cases u <;> cases t <;> cases ti <;>
    simp [sessionRecord, jsonField, Json.getProp, toStored, List.lookup]

theorem getProp_sessionRecord_startedAt (u t ti : JsVal) :
    (sessionRecord u t ti).getProp "startedAt" = toStored t := by
  cases u <;> cases t <;> cases ti <;>
    simp [sessionRecord, jsonField, Json.getProp, toStored, List.lookup]

theorem hasKey_eq_true_iff (u t : JsVal) (s : Json) :
    hasKey u t s = true ↔ keyOf s = (toStored u, toStored t) := by
  simp [hasKey, keyOf, strictEq_eq_true_iff, Prod.ext_iff]

theorem hasKey_sessionRecord (u t ti : JsVal) : hasKey u t (sessionRecord u t ti) = true := by
  rw [hasKey_eq_true_iff, keyOf, getProp_sessionRecord_streamUrl,
    getProp_sessionRecord_startedAt]

theorem sessionRecord_ne_null (u t ti : JsVal) : sessionRecord u t ti ≠ Json.null := by
  simp [sessionRecord]

theorem streamExists_cons (s : Json) (rest : List Json) (u t : JsVal) :
    streamExists (s :: rest) u t =
      if s.isNull then Except.error JsError.typeError
      else if hasKey u t s then Except.ok true else streamExists rest u t := by
  cases s <;> simp [streamExists, hasKey, Json.isNull]

theorem isNull_eq_true_iff (s : Json) : s.isNull = true ↔ s = Json.null := by
  cases s <;> simp [Json.isNull]

theorem streamExists_ok_false (l : List Json) (u t : JsVal)
    (h : streamExists l u t = Except.ok false) :
    ∀ s ∈ l, s ≠ Json.null ∧ hasKey u t s = false := by
  induction l with
  | nil => simp
  | cons a l ih =>
    rw [streamExists_cons] at h
    by_cases ha : a.isNull = true
    · simp [ha] at h
    · by_cases hk : hasKey u t a = true
      · simp [ha, hk] at h
      · simp only [ha, hk, if_false] at h
        intro s hs
        rcases List.mem_cons.1 hs with rfl | hs
        · exact ⟨fun hn => ha ((isNull_eq_true_iff _).2 hn), by simpa using hk⟩
        · exact ih h s hs

theorem streamExists_append (l l2 : List Json) (u t : JsVal)
    (h : streamExists l u t = Except.ok false) :
    streamExists (l ++ l2) u t = streamExists l2 u t := by
  induction l with
  | nil => rfl
  | cons a l ih =>
    rw [streamExists_cons] at h
    by_cases ha : a.isNull = true
    · simp [ha] at h
    · by_cases hk : hasKey u t a = true
      · simp [ha, hk] at h
      · simp only [ha, hk, if_false] at h
        rw [List.cons_append, streamExists_cons]
        simp only [ha, hk, if_false]
        exact ih h

theorem streamExists_ok_true (l : List Json) (u t : JsVal)
    (h : streamExists l u t = Except.ok true) : ∃ s ∈ l, hasKey u t s = true := by
  induction l with
  | nil => simp [streamExists] at h
  | cons a l ih =>
    rw [streamExists_cons] at h
    by_cases ha : a.isNull = true
    · simp [ha] at h
    · by_cases hk : hasKey u t a = true
      · exact ⟨a, List.mem_cons_self _ _, hk⟩
      · simp only [ha, hk, if_false] at h
        obtain ⟨s, hs, hs2⟩ := ih h
        exact ⟨s, List.mem_cons_of_mem _ hs, hs2⟩

theorem readUserActivity_eq (disk : Disk) (userId platform channelId : String) :
    readUserActivity disk userId platform channelId =
      storedLog (disk (logPath userId platform channelId)) := by
  unfold readUserActivity storedLog
  split <;> simp_all

/-- The three outcomes of `saveStreamData`, by the test on the log read from the file:
nothing is done when a key field is empty, when a call fails or when the session is
found; otherwise the record is appended. -/
theorem saveStreamData_eq (env : SaveEnv) (disk : Disk) (d : StreamData) :
    saveStreamData env disk d =
      if d.targetUserId = "" ∨ d.platform = "" ∨ d.streamerChannelId = "" then (false, disk)
      else if env.mkdirOk = false then (false, disk)
      else
        match streamExists
          (storedLog (disk (logPath d.targetUserId d.platform d.streamerChannelId)))
          d.streamUrl d.startedAt with
        | Except.ok false =>
          if env.writeOk = false then (false, disk)
          else (true, Function.update disk
            (logPath d.targetUserId d.platform d.streamerChannelId)
            (FileState.json (Json.arr
              (storedLog (disk (logPath d.targetUserId d.platform d.streamerChannelId)) ++
                [sessionRecord d.streamUrl d.startedAt d.title]))))
        | _ => (false, disk) := by
  have hlog : (match disk (logPath d.targetUserId d.platform d.streamerChannelId) with
      | FileState.json (Json.arr xs) => xs
      | FileState.json _ => []
      | FileState.missing => []
      | FileState.unreadable _ => []
      | FileState.garbage => []) =
      storedLog (disk (logPath d.targetUserId d.platform d.streamerChannelId)) := by
    unfold storedLog
    split <;> simp_all
  unfold saveStreamData saveStreamDataTry
  by_cases h1 : d.targetUserId = "" ∨ d.platform = "" ∨ d.streamerChannelId = ""
  · have : (d.targetUserId == "" || d.platform == "" || d.streamerChannelId == "") = true := by
      simpa [or_assoc] using h1
    simp [this, h1]
  · have : (d.targetUserId == "" || d.platform == "" || d.streamerChannelId == "") = false := by
      push_neg at h1
      obtain ⟨a, b, c⟩ := h1
      simp [a, b, c]
    simp only [this, h1, if_false, Bool.false_eq_true]
    cases hm : env.mkdirOk
    · simp
    · simp only [Bool.not_true, Bool.false_eq_true, if_false, hlog]
      rcases hs : streamExists
          (storedLog (disk (logPath d.targetUserId d.platform d.streamerChannelId)))
          d.streamUrl d.startedAt with e | b
      · simp
      · cases b
        · cases hw : env.writeOk <;> simp
        · simp

theorem saveStreamData_fst_true (env : SaveEnv) (disk : Disk) (d : StreamData)
    (h : (saveStreamData env disk d).1 = true) :
    streamExists (storedLog (disk (logPath d.targetUserId d.platform d.streamerChannelId)))
        d.streamUrl d.startedAt = Except.ok false ∧
      ¬(d.targetUserId = "" ∨ d.platform = "" ∨ d.streamerChannelId = "") ∧
      (saveStreamData env disk d).2 =
        Function.update disk (logPath d.targetUserId d.platform d.streamerChannelId)
          (FileState.json (Json.arr
            (storedLog (disk (logPath d.targetUserId d.platform d.streamerChannelId)) ++
              [sessionRecord d.streamUrl d.startedAt d.title]))) := by
  rw [saveStreamData_eq] at h ⊢
  by_cases h1 : d.targetUserId = "" ∨ d.platform = "" ∨ d.streamerChannelId = ""
  · simp [h1] at h
  · simp only [h1, if_false] at h ⊢
    cases hm : env.mkdirOk
    · simp [hm] at h
    · simp only [hm, Bool.true_eq_false, if_false] at h ⊢
      rcases hs : streamExists
          (storedLog (disk (logPath d.targetUserId d.platform d.streamerChannelId)))
          d.streamUrl d.startedAt with e | b
      · simp [hs] at h
      · cases b
        · simp only [hs] at h ⊢
          cases hw : env.writeOk
          · simp [hw] at h
          · simp
        · simp [hs] at h

theorem saveStreamData_fst_false (env : SaveEnv) (disk : Disk) (d : StreamData)
    (h : (saveStreamData env disk d).1 = false) : (saveStreamData env disk d).2 = disk := by
  rw [saveStreamData_eq] at h ⊢
  by_cases h1 : d.targetUserId = "" ∨ d.platform = "" ∨ d.streamerChannelId = ""
  · simp [h1]
  · simp only [h1, if_false] at h ⊢
    cases hm : env.mkdirOk
    · simp
    · simp only [hm, Bool.true_eq_false, if_false] at h ⊢
      rcases hs : streamExists
          (storedLog (disk (logPath d.targetUserId d.platform d.streamerChannelId)))
          d.streamUrl d.startedAt with e | b
      · simp
      · cases b
        · simp only [hs] at h ⊢
          cases hw : env.writeOk
          · simp
          · simp [hw] at h
        · simp

theorem countP_hasKey_eq_zero (l : List Json) (u t : JsVal)
    (h : ∀ s ∈ l, s ≠ Json.null ∧ hasKey u t s = false) : l.countP (hasKey u t) = 0 := by
  rw [List.countP_eq_zero]
  intro s hs
  simp [(h s hs).2]

end MediaBot

/-! ## The claims -/

namespace MediaBot

/-- A call of `saveStreamData` that follows a call which wrote the same stream data finds
the record: it returns `false` and leaves the directory as it is. -/
theorem saveStreamData_after_save (env1 env2 : SaveEnv) (disk : Disk) (d : StreamData)
    (h : (saveStreamData env1 disk d).1 = true) :
    saveStreamData env2 (saveStreamData env1 disk d).2 d =
      (false, (saveStreamData env1 disk d).2) := by
  obtain ⟨hs, h1, h2⟩ := saveStreamData_fst_true env1 disk d h
  have hlog : storedLog ((saveStreamData env1 disk d).2
      (logPath d.targetUserId d.platform d.streamerChannelId)) =
      storedLog (disk (logPath d.targetUserId d.platform d.streamerChannelId)) ++
        [sessionRecord d.streamUrl d.startedAt d.title] := by
    rw [h2, Function.update_same, storedLog]
  have hex : streamExists (storedLog ((saveStreamData env1 disk d).2
      (logPath d.targetUserId d.platform d.streamerChannelId))) d.streamUrl d.startedAt =
      Except.ok true := by
    rw [hlog, streamExists_append _ _ _ _ hs, streamExists_cons, hasKey_sessionRecord]
    rfl
  rw [saveStreamData_eq env2 (saveStreamData env1 disk d).2 d]
  simp only [h1, if_false, hex]
  split <;> rfl

/-- C1 (idempotent append).  When a call of `saveStreamData` wrote the session (it returned
`true`), a second call with the same stream data, whatever the file system does then,
returns `false` and leaves the whole directory as the first call left it, and the log of the
triple holds exactly one record with the session's (streamUrl, startedAt). -/
theorem saveStreamData_twice (env1 env2 : SaveEnv) (disk : Disk) (d : StreamData)
    (h : (saveStreamData env1 disk d).1 = true) :
    saveStreamData env2 (saveStreamData env1 disk d).2 d =
        (false, (saveStreamData env1 disk d).2) ∧
      (readUserActivity (saveStreamData env1 disk d).2 d.targetUserId d.platform
        d.streamerChannelId).countP (hasKey d.streamUrl d.startedAt) = 1 := by
  obtain ⟨hs, _, h2⟩ := saveStreamData_fst_true env1 disk d h
  refine ⟨saveStreamData_after_save env1 env2 disk d h, ?_⟩
  rw [readUserActivity_eq, h2, Function.update_same, storedLog, List.countP_append,
    countP_hasKey_eq_zero _ _ _ (streamExists_ok_false _ _ _ hs)]
  simp [List.countP_cons, hasKey_sessionRecord]

/-- Witness of C1: a first session saved into an empty directory. -/
theorem saveStreamData_twice_witness :
    (saveStreamData ⟨true, true⟩ (fun _ => FileState.missing)
        ⟨JsVal.str "https://www.twitch.tv/a", JsVal.str "2024-05-01T10:00:00Z",
          JsVal.str "munchy time", "Twitch", "a", "42", "A", JsVal.undefined⟩).1 = true ∧
      (saveStreamData ⟨false, true⟩
        (saveStreamData ⟨true, true⟩ (fun _ => FileState.missing)
          ⟨JsVal.str "https://www.twitch.tv/a", JsVal.str "2024-05-01T10:00:00Z",
            JsVal.str "munchy time", "Twitch", "a", "42", "A", JsVal.undefined⟩).2
        ⟨JsVal.str "https://www.twitch.tv/a", JsVal.str "2024-05-01T10:00:00Z",
          JsVal.str "munchy time", "Twitch", "a", "42", "A", JsVal.undefined⟩).1 = false :=
  ⟨by decide,
    by
      rw [(saveStreamData_twice ⟨true, true⟩ ⟨false, true⟩ (fun _ => FileState.missing)
        ⟨JsVal.str "https://www.twitch.tv/a", JsVal.str "2024-05-01T10:00:00Z",
          JsVal.str "munchy time", "Twitch", "a", "42", "A", JsVal.undefined⟩
        (by decide)).1]⟩

/-- C2 (log invariant).  If the log of a triple has no two records with the same
(streamUrl, startedAt) before a call of `saveStreamData`, it has none after the call, for
every stream data passed and every outcome of the file system. -/
theorem saveStreamData_preserves_NoDupKeys (env : SaveEnv) (disk : Disk) (d : StreamData)
    (userId platform channelId : String)
    (h : NoDupKeys (readUserActivity disk userId platform channelId)) :
    NoDupKeys (readUserActivity (saveStreamData env disk d).2 userId platform channelId) := by
  cases hr : (saveStreamData env disk d).1
  · rw [saveStreamData_fst_false env disk d hr]
    exact h
  · obtain ⟨hs, _, h2⟩ := saveStreamData_fst_true env disk d hr
    rw [readUserActivity_eq] at h ⊢
    rw [h2]
    by_cases hp : logPath userId platform channelId =
        logPath d.targetUserId d.platform d.streamerChannelId
    · rw [hp] at h ⊢
      rw [Function.update_same]
      show NoDupKeys (storedLog (disk (logPath d.targetUserId d.platform d.streamerChannelId))
        ++ [sessionRecord d.streamUrl d.startedAt d.title])
      unfold NoDupKeys at *
      rw [List.pairwise_append]
      refine ⟨h, List.pairwise_singleton _ _, ?_⟩
      intro a ha b hb
      rw [List.mem_singleton] at hb
      subst hb
      have hk := (streamExists_ok_false _ _ _ hs a ha).2
      have hrec := (hasKey_eq_true_iff d.streamUrl d.startedAt
        (sessionRecord d.streamUrl d.startedAt d.title)).1 (hasKey_sessionRecord _ _ _)
      intro heq
      rw [hrec] at heq
      rw [(hasKey_eq_true_iff _ _ _).2 heq] at hk
      exact Bool.noConfusion hk
    · rw [Function.update_noteq hp]
      exact h

/-- Witness of C2: a new session saved into a log of two distinct records. -/
theorem saveStreamData_preserves_NoDupKeys_witness :
    NoDupKeys (readUserActivity
      (fun _ => FileState.json (Json.arr
        [sessionRecord (JsVal.str "u1") (JsVal.str "t1") (JsVal.str "munchy"),
         sessionRecord (JsVal.str "u1") (JsVal.str "t2") (JsVal.str "munchy")]))
      "42" "Twitch" "a") ∧
    NoDupKeys (readUserActivity
      (saveStreamData ⟨true, true⟩
        (fun _ => FileState.json (Json.arr
          [sessionRecord (JsVal.str "u1") (JsVal.str "t1") (JsVal.str "munchy"),
           sessionRecord (JsVal.str "u1") (JsVal.str "t2") (JsVal.str "munchy")]))
        ⟨JsVal.str "u1", JsVal.str "t3", JsVal.str "munchy", "Twitch", "a", "42", "A",
          JsVal.undefined⟩).2
      "42" "Twitch" "a") :=
  have h0 : NoDupKeys (readUserActivity
      (fun _ => FileState.json (Json.arr
        [sessionRecord (JsVal.str "u1") (JsVal.str "t1") (JsVal.str "munchy"),
         sessionRecord (JsVal.str "u1") (JsVal.str "t2") (JsVal.str "munchy")]))
      "42" "Twitch" "a") := by
    simp [NoDupKeys, readUserActivity, keyOf, sessionRecord, jsonField, Json.getProp,
      List.lookup]
  ⟨h0, saveStreamData_preserves_NoDupKeys _ _ _ _ _ _ h0⟩

/-! ## Lemmas on the cooldown map -/

theorem streamIdOf_data (platform channelId : String) :
    (streamIdOf platform channelId).data = platform.data ++ '_' :: channelId.data := by
  simp [streamIdOf, String.data_append]

/-- On the platforms that have a status provider the stream id determines the pair
(platform, channelId). -/
theorem streamIdOf_injective (p1 c1 p2 c2 : String) (h1 : supportedPlatform p1)
    (h2 : supportedPlatform p2) :
    streamIdOf p1 c1 = streamIdOf p2 c2 ↔ p1 = p2 ∧ c1 = c2 := by
  constructor
  · intro h
    have hd := congrArg String.data h
    rw [streamIdOf_data, streamIdOf_data] at hd
    rcases h1 with rfl | rfl <;> rcases h2 with rfl | rfl
    · refine ⟨rfl, String.ext ?_⟩
      simpa using hd
    · simp at hd
    · simp at hd
    · refine ⟨rfl, String.ext ?_⟩
      simpa using hd
  · rintro ⟨rfl, rfl⟩
    rfl

theorem lastAnnouncedTime_eq (m : AnnouncedStreams) (k : String) :
    lastAnnouncedTime m k = (m.get k).getD 0 := by
  unfold lastAnnouncedTime
  cases h : m.get k with
  | none => rfl
  | some t =>
    by_cases ht : t = 0
    · simp [ht]
    · simp [ht]

theorem get_set (m : AnnouncedStreams) (k k2 : String) (v : Int) :
    (m.set k v).get k2 = if k2 = k then some v else m.get k2 := by
  unfold AnnouncedStreams.set AnnouncedStreams.get
  rw [List.lookup_cons]
  by_cases h : k2 = k
  · simp [h]
  · have : (k2 == k) = false := by simpa using h
    simp [h, this]

theorem get_replay (h : TrackerHistory) (platform channelId : String)
    (hsup : ∀ op ∈ h, supportedPlatform op.1.1) (hp : supportedPlatform platform) :
    ((replay h).get (streamIdOf platform channelId)).getD 0 =
      lastNotified h (platform, channelId) := by
  induction h with
  | nil => rfl
  | cons op rest ih =>
    obtain ⟨⟨p, c⟩, t⟩ := op
    have hp2 : supportedPlatform p := hsup ((p, c), t) (List.mem_cons_self _ _)
    have ih2 := ih (fun op hop => hsup op (List.mem_cons_of_mem _ hop))
    simp only [replay, lastNotified, get_set, streamIdOf_injective _ _ _ _ hp hp2]
    by_cases hk : platform = p ∧ channelId = c
    · obtain ⟨rfl, rfl⟩ := hk
      simp
    · have hne : ¬((p, c) = (platform, channelId)) := by
        intro heq
        rw [Prod.mk.injEq] at heq
        exact hk ⟨heq.1.symm, heq.2.symm⟩
      simp only [hk, hne, if_false]
      exact ih2

/-- C3 (notification decision).  With the cooldown map left by any history of
`recordNotified` and `primeWithoutNotifying` operations on tracked identities, the decision
`shouldAnnounce` of a poll cycle is: notify if the cycle is manual, otherwise notify exactly
when `now - lastNotified (platform, channelId) > cooldownMs`, an identity without operation
having last-notified time 0. -/
theorem shouldAnnounce_iff (h : TrackerHistory) (platform channelId : String)
    (isManualCheck : Bool) (now cooldownMs : Int)
    (hsup : ∀ op ∈ h, supportedPlatform op.1.1) (hp : supportedPlatform platform) :
    shouldAnnounce (replay h) (streamIdOf platform channelId) isManualCheck now cooldownMs =
        true ↔
      (isManualCheck = true ∨ now - lastNotified h (platform, channelId) > cooldownMs) := by
  unfold shouldAnnounce
  rw [lastAnnouncedTime_eq, get_replay h platform channelId hsup hp]
  cases isManualCheck
  · by_cases hc : now - lastNotified h (platform, channelId) > cooldownMs
    · simp [hc]
    · simp [hc]
  · simp

/-- Witness of C3: a channel notified at time 1000 is eligible again at 1000000 with a
cooldown of 900000 ms, while another identity on the same channel id is unaffected. -/
theorem shouldAnnounce_iff_witness :
    (∀ op ∈ ([(("Twitch", "a"), 1000), (("YouTube", "a"), 500000)] : TrackerHistory),
        supportedPlatform op.1.1) ∧
      supportedPlatform "Twitch" ∧
      (shouldAnnounce (replay [(("Twitch", "a"), 1000), (("YouTube", "a"), 500000)])
          (streamIdOf "Twitch" "a") false 1000000 900000 = true ↔
        (false = true ∨
          (1000000 : Int) -
            lastNotified [(("Twitch", "a"), 1000), (("YouTube", "a"), 500000)] ("Twitch", "a") >
            900000)) :=
  ⟨by decide, by decide,
    shouldAnnounce_iff [(("Twitch", "a"), 1000), (("YouTube", "a"), 500000)] "Twitch" "a" false
      1000000 900000 (by decide) (by decide)⟩

/-- C4 (priming on restart), evaluated on the code.  The log of the triple holds a record
with the start time of the live session and another stream URL, so it holds no record with
the event's (streamUrl, startedAt); the non-manual cycle nevertheless primes the cooldown
and sends nothing, and `saveStreamData` then adds the event. -/
theorem priming_compares_startedAt_only :
    (readUserActivity diskY "42" "YouTube" "UCaaaaaaaaaaaaaaaaaaaaaa").countP
        (hasKey snapshotY.streamUrl snapshotY.startedAt) = 0 ∧
      (triggerStreamCheckAndSave true (Except.ok configY) false diskY
        (fun _ => workingEnv snapshotY 1714558000000) (fun _ => fsOk) [] []
        ).cycle.announcedStreams.get "YouTube_UCaaaaaaaaaaaaaaaaaaaaaa" = some 1714558000000 ∧
      (triggerStreamCheckAndSave true (Except.ok configY) false diskY
        (fun _ => workingEnv snapshotY 1714558000000) (fun _ => fsOk) [] []).cycle.sent = [] ∧
      (triggerStreamCheckAndSave true (Except.ok configY) false diskY
        (fun _ => workingEnv snapshotY 1714558000000) (fun _ => fsOk) [] []).saveCalls =
        [(mkStreamData channelY snapshotY, true)] := by
  refine ⟨by decide, by decide, by decide, by decide⟩

/-! ## The saving loop -/

theorem saveLoop_calls (saveEnv : Nat → SaveEnv) (l : List StreamData) :
    ∀ (i : Nat) (disk : Disk) (calls : List (StreamData × Bool)),
      (saveLoop saveEnv i l (disk, calls)).2.map Prod.fst =
        calls.map Prod.fst ++ l.filter saveGuard := by
  induction l with
  | nil => intro i disk calls; simp [saveLoop]
  | cons a l ih =>
    intro i disk calls
    by_cases hg : saveGuard a = true
    · simp [saveLoop, hg, ih]
    · simp [saveLoop, hg, ih]

/-- C5, as stated, fails: the cycle returns a candidate event whose snapshot carries no
start time, and `triggerStreamCheckAndSave` makes no `saveStreamData` call for it. -/
theorem trigger_skips_event_without_startedAt :
    (triggerStreamCheckAndSave true (Except.ok configA) false (fun _ => FileState.missing)
        (fun _ => workingEnv snapshotNoStart 1714558000000) (fun _ => fsOk) [] []
        ).cycle.liveMunchyStreams = [mkStreamData channelA snapshotNoStart] ∧
      (triggerStreamCheckAndSave true (Except.ok configA) false (fun _ => FileState.missing)
        (fun _ => workingEnv snapshotNoStart 1714558000000) (fun _ => fsOk) [] []
        ).saveCalls = [] := by
  refine ⟨by decide, by decide⟩

/-- C5, amended.  In every cycle, whatever the sink and the file system do, the
`saveStreamData` calls of `triggerStreamCheckAndSave` are, in order and once each, the
events returned by `checkAllTrackedChannels` that pass the guard
`streamUrl && startedAt && targetUserId`; an event failing the guard is skipped. -/
theorem trigger_saves_guarded_events (client : Bool) (readConfig : Except JsError Config)
    (isManualCheck : Bool) (disk : Disk) (world : Nat → ChannelEnv) (saveEnv : Nat → SaveEnv)
    (announced : AnnouncedStreams) (sent : List Announcement) :
    (triggerStreamCheckAndSave client readConfig isManualCheck disk world saveEnv announced
        sent).saveCalls.map Prod.fst =
      (checkAllTrackedChannels client readConfig isManualCheck disk world announced
        sent).liveMunchyStreams.filter saveGuard := by
  unfold triggerStreamCheckAndSave
  simp [saveLoop_calls]

/-! ## Lemmas on the poll cycle -/

theorem checkAllTrackedChannels_eq (client : Bool) (config : Config) (isManualCheck : Bool)
    (disk : Disk) (world : Nat → ChannelEnv) (announced : AnnouncedStreams)
    (sent : List Announcement) (channels : List TrackedChannel)
    (hcfg : config.trackedChannels = some channels) :
    checkAllTrackedChannels client (Except.ok config) isManualCheck disk world announced sent =
      checkChannels client config isManualCheck disk world 0 channels
        (initialState announced sent) := by
  unfold checkAllTrackedChannels
  simp only [hcfg]
  cases channels with
  | nil => rfl
  | cons a l => rfl

theorem checkChannels_append (client : Bool) (config : Config) (isManualCheck : Bool)
    (disk : Disk) (world : Nat → ChannelEnv) (l1 l2 : List TrackedChannel) :
    ∀ (i : Nat) (st : CycleState),
      checkChannels client config isManualCheck disk world i (l1 ++ l2) st =
        checkChannels client config isManualCheck disk world (i + l1.length) l2
          (checkChannels client config isManualCheck disk world i l1 st) := by
  induction l1 with
  | nil => intro i st; simp [checkChannels]
  | cons a l ih =>
    intro i st
    rw [List.cons_append, checkChannels, checkChannels, ih, List.length_cons]
    congr 1
    omega

theorem announce_eq (client : Bool) (config : Config) (isManualCheck : Bool)
    (env : ChannelEnv) (streamData : StreamData) (streamId : String) (st : CycleState) :
    announce client config isManualCheck env streamData streamId st =
      if delivered client config env then
        { st with
          sent := st.sent ++
            [{ content := if isManualCheck then some "**DEBUG ANNOUNCEMENT:**" else none,
               stream := streamData }],
          announcedStreams :=
            if !isManualCheck then st.announcedStreams.set streamId env.now
            else st.announcedStreams }
      else st := by
  unfold announce delivered
  cases client <;> rcases config.munchyStreamChannelId with _ | id <;> simp
  by_cases hid : id = ""
  · simp [hid]
  · simp only [hid, not_false_eq_true, true_and, if_true]
    rcases env.fetchChannel with e | ch
    · simp
    · rcases ch with _ | ch
      · simp
      · cases ch.isTextBased <;> cases env.embedOk <;> cases env.sendOk <;> simp

/-- The loop body on a channel of a supported platform whose status query returned a live
snapshot passing the keyword filter. -/
theorem checkChannel_candidate (client : Bool) (config : Config) (isManualCheck : Bool)
    (disk : Disk) (env : ChannelEnv) (channel : TrackedChannel) (st : CycleState)
    (streamDetails : StreamDetails) (hp : supportedPlatform channel.platform)
    (hs : env.status = Except.ok (some streamDetails))
    (hl : isLiveMunchy (some streamDetails) = true) :
    checkChannel client config isManualCheck disk env channel st =
      if shouldAnnounce (primed isManualCheck disk env channel streamDetails st).announcedStreams
          (streamIdOf channel.platform channel.channelId) isManualCheck env.now
          (announcementCooldownMs config) then
        announce client config isManualCheck env (mkStreamData channel streamDetails)
          (streamIdOf channel.platform channel.channelId)
          (primed isManualCheck disk env channel streamDetails st)
      else primed isManualCheck disk env channel streamDetails st := by
  have hp2 : (channel.platform == "Twitch" || channel.platform == "YouTube") = true := by
    rcases hp with h | h <;> simp [h]
  unfold checkChannel
  simp only [hp2, hs, hl, if_true]

/-- The loop body leaves the state as it is unless the channel is on a supported platform
and its status query returned a live snapshot passing the keyword filter. -/
theorem checkChannel_not_candidate (client : Bool) (config : Config) (isManualCheck : Bool)
    (disk : Disk) (env : ChannelEnv) (channel : TrackedChannel) (st : CycleState)
    (h : ¬(supportedPlatform channel.platform ∧
      ∃ streamDetails, env.status = Except.ok (some streamDetails) ∧
        isLiveMunchy (some streamDetails) = true)) :
    checkChannel client config isManualCheck disk env channel st = st := by
  unfold checkChannel
  by_cases hp : supportedPlatform channel.platform
  · have hp2 : (channel.platform == "Twitch" || channel.platform == "YouTube") = true := by
      rcases hp with h | h <;> simp [h]
    simp only [hp2, if_true]
    rcases hs : env.status with e | o
    · rfl
    · rcases o with _ | streamDetails
      · rfl
      · have : isLiveMunchy (some streamDetails) ≠ true :=
          fun hl => h ⟨hp, streamDetails, hs, hl⟩
        simp [this]
  · have hp2 : (channel.platform == "Twitch" || channel.platform == "YouTube") = false := by
      unfold supportedPlatform at hp
      push_neg at hp
      simp [hp.1, hp.2]
    simp [hp2]

theorem checkChannel_cases (client : Bool) (config : Config) (isManualCheck : Bool)
    (disk : Disk) (env : ChannelEnv) (channel : TrackedChannel) (st : CycleState) :
    checkChannel client config isManualCheck disk env channel st = st ∨
      ∃ streamDetails, supportedPlatform channel.platform ∧
        env.status = Except.ok (some streamDetails) ∧
        isLiveMunchy (some streamDetails) = true := by
  by_cases h : supportedPlatform channel.platform ∧
      ∃ streamDetails, env.status = Except.ok (some streamDetails) ∧
        isLiveMunchy (some streamDetails) = true
  · obtain ⟨hp, sd, hs, hl⟩ := h
    exact Or.inr ⟨sd, hp, hs, hl⟩
  · exact Or.inl (checkChannel_not_candidate _ _ _ _ _ _ _ h)

theorem alreadyKnownStream_cons (session : Json) (rest : List Json) (startedAt : JsVal) :
    alreadyKnownStream (session :: rest) startedAt =
      if session.isNull then Except.error JsError.typeError
      else if strictEq (session.getProp "startedAt") startedAt then Except.ok (some session)
      else alreadyKnownStream rest startedAt := by
  cases session <;> simp [alreadyKnownStream, Json.isNull]

theorem truthy_of_startedAt (s : Json) (startedAt : JsVal) (ht : startedAt.truthy = true)
    (h : strictEq (s.getProp "startedAt") startedAt = true) : s.truthy = true := by
  cases s <;> cases startedAt <;> simp_all [Json.getProp, strictEq, Json.truthy, JsVal.truthy]

/-- After a session with a start time was appended to a log, the search of the priming block
finds a truthy record. -/
theorem alreadyKnownStream_after_save (old : List Json) (u startedAt ti : JsVal)
    (ht : startedAt.truthy = true) (h : streamExists old u startedAt = Except.ok false) :
    ∃ s, alreadyKnownStream (old ++ [sessionRecord u startedAt ti]) startedAt =
        Except.ok (some s) ∧ s.truthy = true := by
  induction old with
  | nil =>
    refine ⟨sessionRecord u startedAt ti, ?_, rfl⟩
    rw [List.nil_append, alreadyKnownStream_cons, getProp_sessionRecord_startedAt,
      (strictEq_eq_true_iff _ _).2 rfl]
    rfl
  | cons a old ih =>
    rw [streamExists_cons] at h
    by_cases ha : a.isNull = true
    · simp [ha] at h
    · by_cases hk : hasKey u startedAt a = true
      · simp [ha, hk] at h
      · simp only [ha, hk, if_false] at h
        rw [List.cons_append, alreadyKnownStream_cons]
        simp only [ha, if_false]
        by_cases hs : strictEq (a.getProp "startedAt") startedAt = true
        · exact ⟨a, by simp [hs], truthy_of_startedAt a startedAt ht hs⟩
        · simp only [hs, if_false]
          exact ih h

theorem primeCooldown_manual (disk : Disk) (primeClock : Int) (streamData : StreamData)
    (streamId : String) (m : AnnouncedStreams) :
    primeCooldown true disk primeClock streamData streamId m = m := by
  simp [primeCooldown]

theorem primeCooldown_cases (isManualCheck : Bool) (disk : Disk) (primeClock : Int)
    (streamData : StreamData) (streamId : String) (m : AnnouncedStreams) :
    primeCooldown isManualCheck disk primeClock streamData streamId m = m ∨
      (isManualCheck = false ∧
        primeCooldown isManualCheck disk primeClock streamData streamId m =
          m.set streamId primeClock) := by
  unfold primeCooldown
  cases isManualCheck
  · simp only [Bool.not_false, if_true]
    split
    · rename_i session _
      cases session.truthy <;> simp
    · exact Or.inl rfl
    · exact Or.inl rfl
  · exact Or.inl rfl

theorem primeCooldown_known (disk : Disk) (primeClock : Int) (streamData : StreamData)
    (streamId : String) (m : AnnouncedStreams) (s : Json)
    (h : alreadyKnownStream
      (readUserActivity disk streamData.targetUserId streamData.platform
        streamData.streamerChannelId) streamData.startedAt = Except.ok (some s))
    (ht : s.truthy = true) :
    primeCooldown false disk primeClock streamData streamId m = m.set streamId primeClock := by
  simp [primeCooldown, h, ht]

theorem primeCooldown_unknown (disk : Disk) (primeClock : Int) (streamData : StreamData)
    (streamId : String) (m : AnnouncedStreams)
    (h : readUserActivity disk streamData.targetUserId streamData.platform
        streamData.streamerChannelId = []) :
    primeCooldown false disk primeClock streamData streamId m = m := by
  simp [primeCooldown, h, alreadyKnownStream]

theorem shouldAnnounce_of_get (m : AnnouncedStreams) (streamId : String) (t now cooldownMs : Int)
    (h : m.get streamId = some t) :
    shouldAnnounce m streamId false now cooldownMs = decide (now - t > cooldownMs) := by
  unfold shouldAnnounce
  rw [lastAnnouncedTime_eq, h]
  by_cases hc : now - t > cooldownMs
  · simp [hc]
  · simp [hc]

theorem shouldAnnounce_of_get_none (m : AnnouncedStreams) (streamId : String)
    (now cooldownMs : Int) (h : m.get streamId = none) :
    shouldAnnounce m streamId false now cooldownMs = decide (now > cooldownMs) := by
  unfold shouldAnnounce
  rw [lastAnnouncedTime_eq, h]
  by_cases hc : now > cooldownMs
  · simp [hc]
  · simp [hc]

theorem shouldAnnounce_manual (m : AnnouncedStreams) (streamId : String) (now cooldownMs : Int) :
    shouldAnnounce m streamId true now cooldownMs = true := by
  simp [shouldAnnounce]

theorem readUserActivity_mkStreamData_after_save (env : SaveEnv) (disk : Disk)
    (channel : TrackedChannel) (streamDetails : StreamDetails)
    (h : (saveStreamData env disk (mkStreamData channel streamDetails)).1 = true) :
    readUserActivity (saveStreamData env disk (mkStreamData channel streamDetails)).2
        channel.targetUserId channel.platform channel.channelId =
      readUserActivity disk channel.targetUserId channel.platform channel.channelId ++
        [sessionRecord streamDetails.streamUrl streamDetails.startedAt streamDetails.title] := by
  obtain ⟨_, _, h2⟩ := saveStreamData_fst_true env disk _ h
  rw [readUserActivity_eq, readUserActivity_eq, h2]
  simp only [mkStreamData, Function.update_same, storedLog]

/-- C6, as stated, fails.  The cycle at time T = 1714558000000 sends the notification,
records T and persists the session; the non-manual cycle 16 minutes later, with the same
live snapshot and a working sink, sends nothing, although the 15-minute cooldown is over. -/
theorem no_announcement_after_cooldown_when_persisted :
    firstCycleA.cycle.sent = [{ content := none, stream := mkStreamData channelA snapshotA }] ∧
      firstCycleA.cycle.announcedStreams.get "Twitch_a" = some 1714558000000 ∧
      firstCycleA.saveCalls = [(mkStreamData channelA snapshotA, true)] ∧
      announcementCooldownMs configA = 15 * 60 * 1000 ∧
      (triggerStreamCheckAndSave true (Except.ok configA) false firstCycleA.disk
        (fun _ => workingEnv snapshotA (1714558000000 + 16 * 60 * 1000)) (fun _ => fsOk)
        firstCycleA.cycle.announcedStreams firstCycleA.cycle.sent).cycle.sent =
        firstCycleA.cycle.sent := by
  refine ⟨by decide, by decide, by decide, by decide, by decide⟩

/-- C6, amended.  A channel on a supported platform is the tracked channel, its cooldown
entry is T, the cooldown is 15 minutes and its stream is live with a matching title.  Then
(1) a non-manual cycle at T + 10 min sends nothing; (2) when the session was persisted by
`saveStreamData`, a non-manual cycle at T + 16 min sends nothing either, the stored session
priming the cooldown with the time of that cycle; (3) a manual cycle at T + 1 min sends the
notification whenever the sink accepts it. -/
theorem cooldown_scenario (client : Bool) (config : Config) (channel : TrackedChannel)
    (streamDetails : StreamDetails) (T : Int) (announced : AnnouncedStreams)
    (sent : List Announcement)
    (hp : supportedPlatform channel.platform)
    (hcfg : config.trackedChannels = some [channel])
    (hcd : announcementCooldownMs config = 15 * 60 * 1000)
    (hl : isLiveMunchy (some streamDetails) = true)
    (hT : announced.get (streamIdOf channel.platform channel.channelId) = some T) :
    (∀ (disk : Disk) (world : Nat → ChannelEnv) (saveEnv : Nat → SaveEnv),
        (world 0).status = Except.ok (some streamDetails) →
        (world 0).now = T + 10 * 60 * 1000 → T ≤ (world 0).primeClock →
        (triggerStreamCheckAndSave client (Except.ok config) false disk world saveEnv announced
          sent).cycle.sent = sent) ∧
      (∀ (disk : Disk) (env : SaveEnv) (world : Nat → ChannelEnv) (saveEnv : Nat → SaveEnv),
        saveGuard (mkStreamData channel streamDetails) = true →
        (saveStreamData env disk (mkStreamData channel streamDetails)).1 = true →
        (world 0).status = Except.ok (some streamDetails) →
        (world 0).now = T + 16 * 60 * 1000 →
        (world 0).now - (world 0).primeClock ≤ 15 * 60 * 1000 →
        (triggerStreamCheckAndSave client (Except.ok config) false
          (saveStreamData env disk (mkStreamData channel streamDetails)).2 world saveEnv
          announced sent).cycle.sent = sent) ∧
      (∀ (disk : Disk) (world : Nat → ChannelEnv) (saveEnv : Nat → SaveEnv),
        (world 0).status = Except.ok (some streamDetails) →
        (world 0).now = T + 1 * 60 * 1000 →
        delivered client config (world 0) = true →
        (triggerStreamCheckAndSave client (Except.ok config) true disk world saveEnv announced
          sent).cycle.sent =
          sent ++ [{ content := some "**DEBUG ANNOUNCEMENT:**",
                     stream := mkStreamData channel streamDetails }]) := by
  have hcyc : ∀ (manual : Bool) (disk : Disk) (world : Nat → ChannelEnv)
      (saveEnv : Nat → SaveEnv),
      (triggerStreamCheckAndSave client (Except.ok config) manual disk world saveEnv announced
        sent).cycle =
      checkChannel client config manual disk (world 0) channel (initialState announced sent) := by
    intro manual disk world saveEnv
    show checkAllTrackedChannels client (Except.ok config) manual disk world announced sent = _
    rw [checkAllTrackedChannels_eq _ _ _ _ _ _ _ _ hcfg]
    rfl
  refine ⟨?_, ?_, ?_⟩
  · intro disk world saveEnv hs hnow hpc
    rw [hcyc, checkChannel_candidate _ _ _ _ _ _ _ _ hp hs hl]
    have hno : shouldAnnounce
        (primed false disk (world 0) channel streamDetails
          (initialState announced sent)).announcedStreams
        (streamIdOf channel.platform channel.channelId) false (world 0).now
        (announcementCooldownMs config) = false := by
      show shouldAnnounce (primeCooldown false disk (world 0).primeClock
        (mkStreamData channel streamDetails) (streamIdOf channel.platform channel.channelId)
        announced) _ false _ _ = false
      rcases primeCooldown_cases false disk (world 0).primeClock
        (mkStreamData channel streamDetails) (streamIdOf channel.platform channel.channelId)
        announced with h | ⟨_, h⟩
      · rw [h, shouldAnnounce_of_get _ _ _ _ _ hT, hcd, hnow]
        simp
      · rw [h, shouldAnnounce_of_get _ _ (world 0).primeClock _ _ (by simp [get_set]), hcd, hnow]
        simp only [decide_eq_false_iff_not, not_lt]
        omega
    rw [hno]
    rfl
  · intro disk env world saveEnv hg hsave hs _ hpc
    rw [hcyc, checkChannel_candidate _ _ _ _ _ _ _ _ hp hs hl]
    have hno : shouldAnnounce
        (primed false (saveStreamData env disk (mkStreamData channel streamDetails)).2 (world 0)
          channel streamDetails (initialState announced sent)).announcedStreams
        (streamIdOf channel.platform channel.channelId) false (world 0).now
        (announcementCooldownMs config) = false := by
      show shouldAnnounce (primeCooldown false _ (world 0).primeClock
        (mkStreamData channel streamDetails) (streamIdOf channel.platform channel.channelId)
        announced) _ false _ _ = false
      have hst : streamDetails.startedAt.truthy = true := by
        simp only [saveGuard, mkStreamData, Bool.and_eq_true] at hg
        exact hg.1.2
      obtain ⟨hex, _, _⟩ := saveStreamData_fst_true env disk _ hsave
      rw [← readUserActivity_eq] at hex
      obtain ⟨s, hfind, htruthy⟩ :=
        alreadyKnownStream_after_save _ _ _ streamDetails.title hst hex
      have hlog := readUserActivity_mkStreamData_after_save env disk channel streamDetails hsave
      have hfind2 : alreadyKnownStream
          (readUserActivity (saveStreamData env disk (mkStreamData channel streamDetails)).2
            (mkStreamData channel streamDetails).targetUserId
            (mkStreamData channel streamDetails).platform
            (mkStreamData channel streamDetails).streamerChannelId)
          (mkStreamData channel streamDetails).startedAt = Except.ok (some s) := by
        show alreadyKnownStream (readUserActivity _ channel.targetUserId channel.platform
          channel.channelId) streamDetails.startedAt = _
        rw [hlog]
        exact hfind
      rw [primeCooldown_known _ _ _ _ _ s hfind2 htruthy,
        shouldAnnounce_of_get _ _ (world 0).primeClock _ _ (by simp [get_set]), hcd]
      simp only [decide_eq_false_iff_not, not_lt]
      omega
    rw [hno]
    rfl
  · intro disk world saveEnv hs _ hd
    rw [hcyc, checkChannel_candidate _ _ _ _ _ _ _ _ hp hs hl, shouldAnnounce_manual, if_pos rfl,
      announce_eq, if_pos hd]
    rfl

/-- Witness of C6 (amended): `channelA` after its first cycle, polled again at T + 16 min. -/
theorem cooldown_scenario_witness :
    supportedPlatform channelA.platform ∧
      configA.trackedChannels = some [channelA] ∧
      announcementCooldownMs configA = 15 * 60 * 1000 ∧
      isLiveMunchy (some snapshotA) = true ∧
      firstCycleA.cycle.announcedStreams.get (streamIdOf channelA.platform channelA.channelId) =
        some 1714558000000 ∧
      (triggerStreamCheckAndSave true (Except.ok configA) false
        (saveStreamData fsOk (fun _ => FileState.missing) (mkStreamData channelA snapshotA)).2
        (fun _ => workingEnv snapshotA (1714558000000 + 16 * 60 * 1000)) (fun _ => fsOk)
        firstCycleA.cycle.announcedStreams firstCycleA.cycle.sent).cycle.sent =
        firstCycleA.cycle.sent :=
  ⟨by decide, by decide, by decide, by decide, by decide,
    (cooldown_scenario true configA channelA snapshotA 1714558000000
      firstCycleA.cycle.announcedStreams firstCycleA.cycle.sent (by decide) (by decide)
      (by decide) (by decide) (by decide)).2.1 (fun _ => FileState.missing) fsOk
      (fun _ => workingEnv snapshotA (1714558000000 + 16 * 60 * 1000)) (fun _ => fsOk)
      (by decide) (by decide) rfl (by decide) (by decide)⟩

/-- What one iteration can do to the cooldown map: nothing, or one or two `set`s on the
stream id of the channel, which is then on a supported platform. -/
theorem checkChannel_announced_cases (client : Bool) (config : Config) (isManualCheck : Bool)
    (disk : Disk) (env : ChannelEnv) (channel : TrackedChannel) (st : CycleState) :
    (checkChannel client config isManualCheck disk env channel st).announcedStreams =
        st.announcedStreams ∨
      (supportedPlatform channel.platform ∧
        ((∃ v, (checkChannel client config isManualCheck disk env channel st).announcedStreams =
            st.announcedStreams.set (streamIdOf channel.platform channel.channelId) v) ∨
          ∃ v w, (checkChannel client config isManualCheck disk env channel st).announcedStreams =
            (st.announcedStreams.set (streamIdOf channel.platform channel.channelId) v).set
              (streamIdOf channel.platform channel.channelId) w)) := by
  rcases checkChannel_cases client config isManualCheck disk env channel st with h |
    ⟨sd, hp, hs, hl⟩
  · exact Or.inl (by rw [h])
  · rw [checkChannel_candidate _ _ _ _ _ _ _ _ hp hs hl, announce_eq]
    have hprimed : (primed isManualCheck disk env channel sd st).announcedStreams =
        primeCooldown isManualCheck disk env.primeClock (mkStreamData channel sd)
          (streamIdOf channel.platform channel.channelId) st.announcedStreams := rfl
    rcases primeCooldown_cases isManualCheck disk env.primeClock (mkStreamData channel sd)
      (streamIdOf channel.platform channel.channelId) st.announcedStreams with h | ⟨_, h⟩
    · split
      · split
        · cases isManualCheck
          · exact Or.inr ⟨hp, Or.inl ⟨env.now, by simp [hprimed, h]⟩⟩
          · exact Or.inl (by simp [hprimed, h])
        · exact Or.inl (by rw [hprimed, h])
      · exact Or.inl (by rw [hprimed, h])
    · split
      · split
        · cases isManualCheck
          · exact Or.inr ⟨hp, Or.inr ⟨env.primeClock, env.now, by simp [hprimed, h]⟩⟩
          · exact Or.inr ⟨hp, Or.inl ⟨env.primeClock, by simp [hprimed, h]⟩⟩
        · exact Or.inr ⟨hp, Or.inl ⟨env.primeClock, by rw [hprimed, h]⟩⟩
      · exact Or.inr ⟨hp, Or.inl ⟨env.primeClock, by rw [hprimed, h]⟩⟩

/-- An iteration on a channel with another (platform, channelId) leaves the cooldown entry
of a channel on a supported platform as it is. -/
theorem checkChannel_get_other (client : Bool) (config : Config) (isManualCheck : Bool)
    (disk : Disk) (env : ChannelEnv) (channel other : TrackedChannel) (st : CycleState)
    (hp : supportedPlatform channel.platform)
    (hne : ¬(other.platform = channel.platform ∧ other.channelId = channel.channelId)) :
    (checkChannel client config isManualCheck disk env other st).announcedStreams.get
        (streamIdOf channel.platform channel.channelId) =
      st.announcedStreams.get (streamIdOf channel.platform channel.channelId) := by
  rcases checkChannel_announced_cases client config isManualCheck disk env other st with h |
    ⟨hpo, h⟩
  · rw [h]
  · have hk : ¬(streamIdOf channel.platform channel.channelId =
        streamIdOf other.platform other.channelId) := by
      rw [streamIdOf_injective _ _ _ _ hp hpo]
      exact fun hh => hne ⟨hh.1.symm, hh.2.symm⟩
    rcases h with ⟨v, h⟩ | ⟨v, w, h⟩
    · rw [h, get_set, if_neg hk]
    · rw [h, get_set, if_neg hk, get_set, if_neg hk]

theorem checkChannels_get_other (client : Bool) (config : Config) (isManualCheck : Bool)
    (disk : Disk) (world : Nat → ChannelEnv) (channel : TrackedChannel)
    (hp : supportedPlatform channel.platform) (post : List TrackedChannel) :
    ∀ (i : Nat) (st : CycleState),
      (∀ d ∈ post, ¬(d.platform = channel.platform ∧ d.channelId = channel.channelId)) →
      (checkChannels client config isManualCheck disk world i post st).announcedStreams.get
          (streamIdOf channel.platform channel.channelId) =
        st.announcedStreams.get (streamIdOf channel.platform channel.channelId) := by
  induction post with
  | nil => intro i st _; rfl
  | cons d post ih =>
    intro i st h
    rw [checkChannels, ih _ _ (fun e he => h e (List.mem_cons_of_mem _ he)),
      checkChannel_get_other _ _ _ _ _ _ _ _ hp (h d (List.mem_cons_self _ _))]

/-- A manual iteration never touches the cooldown map. -/
theorem checkChannel_manual_announced (client : Bool) (config : Config) (disk : Disk)
    (env : ChannelEnv) (channel : TrackedChannel) (st : CycleState) :
    (checkChannel client config true disk env channel st).announcedStreams =
      st.announcedStreams := by
  rcases checkChannel_cases client config true disk env channel st with h | ⟨sd, hp, hs, hl⟩
  · rw [h]
  · rw [checkChannel_candidate _ _ _ _ _ _ _ _ hp hs hl, announce_eq]
    have hprimed : (primed true disk env channel sd st).announcedStreams =
        st.announcedStreams :=
      primeCooldown_manual disk env.primeClock (mkStreamData channel sd)
        (streamIdOf channel.platform channel.channelId) st.announcedStreams
    split
    · split
      · simpa using hprimed
      · exact hprimed
    · exact hprimed

theorem checkChannels_manual_announced (client : Bool) (config : Config) (disk : Disk)
    (world : Nat → ChannelEnv) (channels : List TrackedChannel) :
    ∀ (i : Nat) (st : CycleState),
      (checkChannels client config true disk world i channels st).announcedStreams =
        st.announcedStreams := by
  induction channels with
  | nil => intro i st; rfl
  | cons d l ih =>
    intro i st
    rw [checkChannels, ih, checkChannel_manual_announced]

/-- When an iteration of a non-manual cycle makes the sink accept a message, the channel is
on a supported platform and its cooldown entry is the time `now` of the iteration. -/
theorem checkChannel_sent_ne (client : Bool) (config : Config) (disk : Disk)
    (env : ChannelEnv) (channel : TrackedChannel) (st : CycleState)
    (h : (checkChannel client config false disk env channel st).sent ≠ st.sent) :
    supportedPlatform channel.platform ∧
      (checkChannel client config false disk env channel st).announcedStreams.get
        (streamIdOf channel.platform channel.channelId) = some env.now := by
  rcases checkChannel_cases client config false disk env channel st with h2 |
    ⟨sd, hp, hs, hl⟩
  · rw [h2] at h
    exact absurd rfl h
  · refine ⟨hp, ?_⟩
    rw [checkChannel_candidate _ _ _ _ _ _ _ _ hp hs hl, announce_eq] at h ⊢
    have hsent : (primed false disk env channel sd st).sent = st.sent := rfl
    split at h
    · split at h
      · rw [if_pos (by assumption), if_pos (by assumption)]
        simp [get_set]
      · exact absurd hsent h
    · exact absurd hsent h

/-- C7, as stated, fails for a manual cycle: the debug announcement of `channelA` is accepted
by the sink, and the channel has no cooldown entry after the cycle, so the entry is not the
time `now` of the cycle. -/
theorem manual_cycle_does_not_record :
    (checkAllTrackedChannels true (Except.ok configA) true (fun _ => FileState.missing)
        (fun _ => workingEnv snapshotA 1714558000000) [] []).sent =
        [{ content := some "**DEBUG ANNOUNCEMENT:**",
           stream := mkStreamData channelA snapshotA }] ∧
      (checkAllTrackedChannels true (Except.ok configA) true (fun _ => FileState.missing)
        (fun _ => workingEnv snapshotA 1714558000000) [] []).announcedStreams.get
        (streamIdOf channelA.platform channelA.channelId) = none ∧
      (checkAllTrackedChannels true (Except.ok configA) true (fun _ => FileState.missing)
        (fun _ => workingEnv snapshotA 1714558000000) [] []).announcedStreams.get
        (streamIdOf channelA.platform channelA.channelId) ≠
        some (workingEnv snapshotA 1714558000000).now := by
  refine ⟨by decide, by decide, by decide⟩

/-- C7, amended.  In a non-manual cycle in which the sink accepts the message built for a
tracked channel, and no later entry of the tracked list has the same
(platform, channelId), the cooldown entry of the channel after the cycle is the time `now`
read for that channel; a manual cycle leaves the cooldown map as it was. -/
theorem cooldown_recorded_on_success (client : Bool) (config : Config) (disk : Disk)
    (world : Nat → ChannelEnv) (pre post : List TrackedChannel) (channel : TrackedChannel)
    (announced : AnnouncedStreams) (sent : List Announcement)
    (hcfg : config.trackedChannels = some (pre ++ channel :: post)) :
    ((checkChannel client config false disk (world pre.length) channel
          (checkChannels client config false disk world 0 pre
            (initialState announced sent))).sent ≠
        (checkChannels client config false disk world 0 pre
          (initialState announced sent)).sent →
      (∀ d ∈ post, ¬(d.platform = channel.platform ∧ d.channelId = channel.channelId)) →
      (checkAllTrackedChannels client (Except.ok config) false disk world announced
        sent).announcedStreams.get (streamIdOf channel.platform channel.channelId) =
        some (world pre.length).now) ∧
    (checkAllTrackedChannels client (Except.ok config) true disk world announced
      sent).announcedStreams = announced := by
  constructor
  · intro hsent hpost
    obtain ⟨hp, hget⟩ := checkChannel_sent_ne _ _ _ _ _ _ hsent
    rw [checkAllTrackedChannels_eq _ _ _ _ _ _ _ _ hcfg, checkChannels_append, checkChannels,
      checkChannels_get_other _ _ _ _ _ _ hp post _ _ hpost]
    simpa using hget
  · rw [checkAllTrackedChannels_eq _ _ _ _ _ _ _ _ hcfg, checkChannels_manual_announced]
    rfl

/-- Witness of C7 (amended): the first non-manual cycle of `channelA`. -/
theorem cooldown_recorded_on_success_witness :
    configA.trackedChannels = some ([] ++ channelA :: []) ∧
      (checkAllTrackedChannels true (Except.ok configA) false (fun _ => FileState.missing)
        (fun _ => workingEnv snapshotA 1714558000000) [] []).announcedStreams.get
        (streamIdOf channelA.platform channelA.channelId) = some 1714558000000 :=
  ⟨by decide,
    (cooldown_recorded_on_success true configA (fun _ => FileState.missing)
      (fun _ => workingEnv snapshotA 1714558000000) [] [] channelA [] [] (by decide)).1
      (by decide) (by simp)⟩

theorem checkChannel_live_candidate (client : Bool) (config : Config) (isManualCheck : Bool)
    (disk : Disk) (env : ChannelEnv) (channel : TrackedChannel) (st : CycleState)
    (streamDetails : StreamDetails) (hp : supportedPlatform channel.platform)
    (hs : env.status = Except.ok (some streamDetails))
    (hl : isLiveMunchy (some streamDetails) = true) :
    (checkChannel client config isManualCheck disk env channel st).liveMunchyStreams =
      st.liveMunchyStreams ++ [mkStreamData channel streamDetails] := by
  rw [checkChannel_candidate _ _ _ _ _ _ _ _ hp hs hl, announce_eq]
  split
  · split <;> rfl
  · rfl

theorem checkChannel_live_mono (client : Bool) (config : Config) (isManualCheck : Bool)
    (disk : Disk) (env : ChannelEnv) (channel : TrackedChannel) (st : CycleState)
    (d : StreamData) (h : d ∈ st.liveMunchyStreams) :
    d ∈ (checkChannel client config isManualCheck disk env channel st).liveMunchyStreams := by
  rcases checkChannel_cases client config isManualCheck disk env channel st with h2 |
    ⟨sd, hp, hs, hl⟩
  · rw [h2]
    exact h
  · rw [checkChannel_live_candidate _ _ _ _ _ _ _ _ hp hs hl]
    exact List.mem_append_left _ h

theorem checkChannels_live_mono (client : Bool) (config : Config) (isManualCheck : Bool)
    (disk : Disk) (world : Nat → ChannelEnv) (d : StreamData) (channels : List TrackedChannel) :
    ∀ (i : Nat) (st : CycleState), d ∈ st.liveMunchyStreams →
      d ∈ (checkChannels client config isManualCheck disk world i channels st
        ).liveMunchyStreams := by
  induction channels with
  | nil => intro i st h; exact h
  | cons c l ih =>
    intro i st h
    rw [checkChannels]
    exact ih _ _ (checkChannel_live_mono _ _ _ _ _ _ _ _ h)

/-- C8 (failed notification).  In every cycle, manual or not, when the announcement of a
candidate event is attempted and the message does not reach the sink (no client or no sink
id, the fetch throws or gives no text channel, the embed is rejected, or `send` rejects),
the cooldown map after the iteration is the map the announcement decision was taken on and
the sink history is unchanged; the cycle returns its list, which contains the event, and
`triggerStreamCheckAndSave` passes the event to `saveStreamData` when it passes the guard. -/
theorem failed_delivery_keeps_cooldown (client : Bool) (config : Config)
    (isManualCheck : Bool) (disk : Disk) (world : Nat → ChannelEnv) (saveEnv : Nat → SaveEnv)
    (pre post : List TrackedChannel) (channel : TrackedChannel) (streamDetails : StreamDetails)
    (announced : AnnouncedStreams) (sent : List Announcement)
    (hcfg : config.trackedChannels = some (pre ++ channel :: post))
    (hp : supportedPlatform channel.platform)
    (hs : (world pre.length).status = Except.ok (some streamDetails))
    (hl : isLiveMunchy (some streamDetails) = true)
    (hattempt : shouldAnnounce
      (primed isManualCheck disk (world pre.length) channel streamDetails
        (checkChannels client config isManualCheck disk world 0 pre
          (initialState announced sent))).announcedStreams
      (streamIdOf channel.platform channel.channelId) isManualCheck (world pre.length).now
      (announcementCooldownMs config) = true)
    (hfail : delivered client config (world pre.length) = false) :
    (checkChannel client config isManualCheck disk (world pre.length) channel
        (checkChannels client config isManualCheck disk world 0 pre
          (initialState announced sent))).announcedStreams =
      (primed isManualCheck disk (world pre.length) channel streamDetails
        (checkChannels client config isManualCheck disk world 0 pre
          (initialState announced sent))).announcedStreams ∧
    (checkChannel client config isManualCheck disk (world pre.length) channel
        (checkChannels client config isManualCheck disk world 0 pre
          (initialState announced sent))).sent =
      (checkChannels client config isManualCheck disk world 0 pre
        (initialState announced sent)).sent ∧
    mkStreamData channel streamDetails ∈
      (checkAllTrackedChannels client (Except.ok config) isManualCheck disk world announced
        sent).liveMunchyStreams ∧
    (saveGuard (mkStreamData channel streamDetails) = true →
      mkStreamData channel streamDetails ∈
        (triggerStreamCheckAndSave client (Except.ok config) isManualCheck disk world saveEnv
          announced sent).saveCalls.map Prod.fst) := by
  have hstep : checkChannel client config isManualCheck disk (world pre.length) channel
      (checkChannels client config isManualCheck disk world 0 pre
        (initialState announced sent)) =
      primed isManualCheck disk (world pre.length) channel streamDetails
        (checkChannels client config isManualCheck disk world 0 pre
          (initialState announced sent)) := by
    rw [checkChannel_candidate _ _ _ _ _ _ _ _ hp hs hl, if_pos hattempt, announce_eq, hfail]
    rfl
  have hmem : mkStreamData channel streamDetails ∈
      (checkAllTrackedChannels client (Except.ok config) isManualCheck disk world announced
        sent).liveMunchyStreams := by
    rw [checkAllTrackedChannels_eq _ _ _ _ _ _ _ _ hcfg, checkChannels_append, checkChannels]
    apply checkChannels_live_mono
    rw [Nat.zero_add, checkChannel_live_candidate _ _ _ _ _ _ _ _ hp hs hl]
    exact List.mem_append_right _ (List.mem_singleton_self _)
  refine ⟨by rw [hstep], by rw [hstep]; rfl, hmem, ?_⟩
  intro hg
  unfold triggerStreamCheckAndSave
  simp only [saveLoop_calls, List.map_nil, List.nil_append]
  exact List.mem_filter.2 ⟨hmem, hg⟩

/-- Witness of C8: the first cycle of `channelA` with a sink that rejects the message. -/
theorem failed_delivery_keeps_cooldown_witness :
    configA.trackedChannels = some ([] ++ channelA :: []) ∧
      delivered true configA (sendFailsEnv snapshotA 1714558000000) = false ∧
      (checkAllTrackedChannels true (Except.ok configA) false (fun _ => FileState.missing)
        (fun _ => sendFailsEnv snapshotA 1714558000000) [] []).announcedStreams = [] ∧
      mkStreamData channelA snapshotA ∈
        (checkAllTrackedChannels true (Except.ok configA) false (fun _ => FileState.missing)
          (fun _ => sendFailsEnv snapshotA 1714558000000) [] []).liveMunchyStreams :=
  ⟨by decide, by decide, by decide,
    (failed_delivery_keeps_cooldown true configA false (fun _ => FileState.missing)
      (fun _ => sendFailsEnv snapshotA 1714558000000) (fun _ => fsOk) [] [] channelA snapshotA
      [] [] (by decide) (by decide) rfl (by decide) (by decide) (by decide)).2.2.1⟩

/-- The state after an iteration that announces a candidate event in a non-manual cycle. -/
theorem checkChannel_announces (client : Bool) (config : Config) (disk : Disk)
    (env : ChannelEnv) (channel : TrackedChannel) (st : CycleState)
    (streamDetails : StreamDetails) (hp : supportedPlatform channel.platform)
    (hs : env.status = Except.ok (some streamDetails))
    (hl : isLiveMunchy (some streamDetails) = true)
    (hlog : readUserActivity disk channel.targetUserId channel.platform channel.channelId = [])
    (hnone : st.announcedStreams.get (streamIdOf channel.platform channel.channelId) = none)
    (hclock : announcementCooldownMs config < env.now)
    (hd : delivered client config env = true) :
    checkChannel client config false disk env channel st =
      { liveMunchyStreams := st.liveMunchyStreams ++ [mkStreamData channel streamDetails],
        announcedStreams :=
          st.announcedStreams.set (streamIdOf channel.platform channel.channelId) env.now,
        sent := st.sent ++
          [{ content := none, stream := mkStreamData channel streamDetails }] } := by
  have hprimed : primed false disk env channel streamDetails st =
      { st with
        liveMunchyStreams := st.liveMunchyStreams ++ [mkStreamData channel streamDetails] } := by
    unfold primed
    rw [primeCooldown_unknown disk env.primeClock (mkStreamData channel streamDetails)
      (streamIdOf channel.platform channel.channelId) st.announcedStreams hlog]
  rw [checkChannel_candidate _ _ _ _ _ _ _ _ hp hs hl, hprimed,
    shouldAnnounce_of_get_none _ _ _ _ hnone, decide_eq_true (by omega), if_pos rfl,
    announce_eq, if_pos hd]
  rfl

/-- The state after an iteration of a non-manual cycle on a candidate event whose session is
found in the log, the two clock readings being less than a cooldown apart. -/
theorem checkChannel_primes (client : Bool) (config : Config) (disk : Disk)
    (env : ChannelEnv) (channel : TrackedChannel) (st : CycleState)
    (streamDetails : StreamDetails) (s : Json) (hp : supportedPlatform channel.platform)
    (hs : env.status = Except.ok (some streamDetails))
    (hl : isLiveMunchy (some streamDetails) = true)
    (hfind : alreadyKnownStream
      (readUserActivity disk channel.targetUserId channel.platform channel.channelId)
      streamDetails.startedAt = Except.ok (some s))
    (ht : s.truthy = true)
    (hclock : env.now - env.primeClock ≤ announcementCooldownMs config) :
    checkChannel client config false disk env channel st =
      { liveMunchyStreams := st.liveMunchyStreams ++ [mkStreamData channel streamDetails],
        announcedStreams :=
          st.announcedStreams.set (streamIdOf channel.platform channel.channelId) env.primeClock,
        sent := st.sent } := by
  have hprimed : primed false disk env channel streamDetails st =
      { liveMunchyStreams := st.liveMunchyStreams ++ [mkStreamData channel streamDetails],
        announcedStreams :=
          st.announcedStreams.set (streamIdOf channel.platform channel.channelId) env.primeClock,
        sent := st.sent } := by
    unfold primed
    rw [primeCooldown_known disk env.primeClock (mkStreamData channel streamDetails)
      (streamIdOf channel.platform channel.channelId) st.announcedStreams s hfind ht]
  rw [checkChannel_candidate _ _ _ _ _ _ _ _ hp hs hl, hprimed,
    shouldAnnounce_of_get _ _ env.primeClock _ _ (by simp [get_set]),
    decide_eq_false (by omega)]
  rfl

theorem supportedPlatform_ne_empty (platform : String) (hp : supportedPlatform platform) :
    platform ≠ "" := by
  rcases hp with h | h <;> rw [h] <;> decide

theorem saveLoop_single (saveEnv : Nat → SaveEnv) (disk : Disk) (d : StreamData)
    (hg : saveGuard d = true) :
    saveLoop saveEnv 0 [d] (disk, []) =
      ((saveStreamData (saveEnv 0) disk d).2, [(d, (saveStreamData (saveEnv 0) disk d).1)]) := by
  simp [saveLoop, hg]

/-- Saving into an empty log with a working file system appends the record. -/
theorem saveStreamData_empty_log (disk : Disk) (d : StreamData)
    (h1 : d.targetUserId ≠ "") (h2 : d.platform ≠ "") (h3 : d.streamerChannelId ≠ "")
    (hlog : readUserActivity disk d.targetUserId d.platform d.streamerChannelId = []) :
    saveStreamData { mkdirOk := true, writeOk := true } disk d =
      (true, Function.update disk (logPath d.targetUserId d.platform d.streamerChannelId)
        (FileState.json (Json.arr [sessionRecord d.streamUrl d.startedAt d.title]))) := by
  rw [readUserActivity_eq] at hlog
  rw [saveStreamData_eq, hlog]
  simp [h1, h2, h3, streamExists]

/-- C9 (first sight, then one minute later).  A channel on a supported platform is the
tracked channel; its snapshot is live with a title passing the filter and carries a stream
URL and a start time; its log is empty, it has no cooldown entry, the sink and the file
system work, and the clock is past the cooldown window.  The first non-manual
`triggerStreamCheckAndSave` sends exactly one notification, creates the cooldown entry and
appends exactly one record (`saveStreamData` returns `true`); a second non-manual run one
minute later with the same snapshot, the cooldown being at least one minute, sends nothing,
and its `saveStreamData` call returns `false` and leaves the directory unchanged. -/
theorem first_sight_then_repeat (client : Bool) (config : Config) (channel : TrackedChannel)
    (streamDetails : StreamDetails) (disk : Disk) (world1 world2 : Nat → ChannelEnv)
    (saveEnv1 saveEnv2 : Nat → SaveEnv) (announced : AnnouncedStreams)
    (sent : List Announcement)
    (hp : supportedPlatform channel.platform)
    (hcid : channel.channelId ≠ "") (huid : channel.targetUserId ≠ "")
    (hcfg : config.trackedChannels = some [channel])
    (hl : isLiveMunchy (some streamDetails) = true)
    (hurl : streamDetails.streamUrl.truthy = true)
    (hst : streamDetails.startedAt.truthy = true)
    (hlog : readUserActivity disk channel.targetUserId channel.platform channel.channelId = [])
    (hnone : announced.get (streamIdOf channel.platform channel.channelId) = none)
    (hs1 : (world1 0).status = Except.ok (some streamDetails))
    (hd1 : delivered client config (world1 0) = true)
    (hfs1 : saveEnv1 0 = { mkdirOk := true, writeOk := true })
    (hclock : announcementCooldownMs config < (world1 0).now)
    (hs2 : (world2 0).status = Except.ok (some streamDetails))
    (hnow2 : (world2 0).now = (world1 0).now + 1 * 60 * 1000)
    (hpc2 : (world1 0).now ≤ (world2 0).primeClock)
    (hcd : 1 * 60 * 1000 ≤ announcementCooldownMs config) :
    (triggerStreamCheckAndSave client (Except.ok config) false disk world1 saveEnv1 announced
        sent).cycle.sent =
        sent ++ [{ content := none, stream := mkStreamData channel streamDetails }] ∧
      (triggerStreamCheckAndSave client (Except.ok config) false disk world1 saveEnv1 announced
        sent).cycle.announcedStreams.get (streamIdOf channel.platform channel.channelId) =
        some (world1 0).now ∧
      (triggerStreamCheckAndSave client (Except.ok config) false disk world1 saveEnv1 announced
        sent).saveCalls = [(mkStreamData channel streamDetails, true)] ∧
      readUserActivity
        (triggerStreamCheckAndSave client (Except.ok config) false disk world1 saveEnv1
          announced sent).disk channel.targetUserId channel.platform channel.channelId =
        [sessionRecord streamDetails.streamUrl streamDetails.startedAt streamDetails.title] ∧
      (triggerStreamCheckAndSave client (Except.ok config) false
        (triggerStreamCheckAndSave client (Except.ok config) false disk world1 saveEnv1
          announced sent).disk world2 saveEnv2
        (triggerStreamCheckAndSave client (Except.ok config) false disk world1 saveEnv1
          announced sent).cycle.announcedStreams
        (triggerStreamCheckAndSave client (Except.ok config) false disk world1 saveEnv1
          announced sent).cycle.sent).cycle.sent =
        sent ++ [{ content := none, stream := mkStreamData channel streamDetails }] ∧
      (triggerStreamCheckAndSave client (Except.ok config) false
        (triggerStreamCheckAndSave client (Except.ok config) false disk world1 saveEnv1
          announced sent).disk world2 saveEnv2
        (triggerStreamCheckAndSave client (Except.ok config) false disk world1 saveEnv1
          announced sent).cycle.announcedStreams
        (triggerStreamCheckAndSave client (Except.ok config) false disk world1 saveEnv1
          announced sent).cycle.sent).saveCalls =
        [(mkStreamData channel streamDetails, false)] ∧
      (triggerStreamCheckAndSave client (Except.ok config) false
        (triggerStreamCheckAndSave client (Except.ok config) false disk world1 saveEnv1
          announced sent).disk world2 saveEnv2
        (triggerStreamCheckAndSave client (Except.ok config) false disk world1 saveEnv1
          announced sent).cycle.announcedStreams
        (triggerStreamCheckAndSave client (Except.ok config) false disk world1 saveEnv1
          announced sent).cycle.sent).disk =
        (triggerStreamCheckAndSave client (Except.ok config) false disk world1 saveEnv1
          announced sent).disk := by
  have hg : saveGuard (mkStreamData channel streamDetails) = true := by
    simp [saveGuard, mkStreamData, hurl, hst, huid]
  -- the first run
  have hc1 : checkAllTrackedChannels client (Except.ok config) false disk world1 announced sent =
      { liveMunchyStreams := [mkStreamData channel streamDetails],
        announcedStreams :=
          announced.set (streamIdOf channel.platform channel.channelId) (world1 0).now,
        sent := sent ++ [{ content := none, stream := mkStreamData channel streamDetails }] } := by
    rw [checkAllTrackedChannels_eq _ _ _ _ _ _ _ _ hcfg, checkChannels, checkChannels,
      checkChannel_announces client config disk (world1 0) channel (initialState announced sent)
        streamDetails hp hs1 hl hlog hnone hclock hd1]
    rfl
  have hsave1 : saveStreamData (saveEnv1 0) disk (mkStreamData channel streamDetails) =
      (true, Function.update disk
        (logPath channel.targetUserId channel.platform channel.channelId)
        (FileState.json (Json.arr
          [sessionRecord streamDetails.streamUrl streamDetails.startedAt
            streamDetails.title]))) := by
    rw [hfs1]
    exact saveStreamData_empty_log disk (mkStreamData channel streamDetails) huid
      (supportedPlatform_ne_empty _ hp) hcid hlog
  have hr1 : triggerStreamCheckAndSave client (Except.ok config) false disk world1 saveEnv1
      announced sent =
      { cycle := checkAllTrackedChannels client (Except.ok config) false disk world1 announced
          sent,
        disk := (saveStreamData (saveEnv1 0) disk (mkStreamData channel streamDetails)).2,
        saveCalls := [(mkStreamData channel streamDetails, true)] } := by
    unfold triggerStreamCheckAndSave
    simp only [hc1, saveLoop_single _ _ _ hg, hsave1]
  have hlog1 : readUserActivity
      (saveStreamData (saveEnv1 0) disk (mkStreamData channel streamDetails)).2
      channel.targetUserId channel.platform channel.channelId =
      [sessionRecord streamDetails.streamUrl streamDetails.startedAt streamDetails.title] := by
    rw [readUserActivity_eq, hsave1]
    simp only [Function.update_same, storedLog]
  -- the second run
  have hfind : alreadyKnownStream
      (readUserActivity (saveStreamData (saveEnv1 0) disk (mkStreamData channel streamDetails)).2
        channel.targetUserId channel.platform channel.channelId)
      streamDetails.startedAt =
      Except.ok (some (sessionRecord streamDetails.streamUrl streamDetails.startedAt
        streamDetails.title)) := by
    rw [hlog1, alreadyKnownStream_cons, getProp_sessionRecord_startedAt,
      (strictEq_eq_true_iff _ _).2 rfl]
    rfl
  have hc2 : (checkAllTrackedChannels client (Except.ok config) false
      (saveStreamData (saveEnv1 0) disk (mkStreamData channel streamDetails)).2 world2
      (announced.set (streamIdOf channel.platform channel.channelId) (world1 0).now)
      (sent ++ [{ content := none, stream := mkStreamData channel streamDetails }])) =
      { liveMunchyStreams := [mkStreamData channel streamDetails],
        announcedStreams :=
          (announced.set (streamIdOf channel.platform channel.channelId) (world1 0).now).set
            (streamIdOf channel.platform channel.channelId) (world2 0).primeClock,
        sent := sent ++ [{ content := none, stream := mkStreamData channel streamDetails }] } := by
    rw [checkAllTrackedChannels_eq _ _ _ _ _ _ _ _ hcfg, checkChannels, checkChannels,
      checkChannel_primes client config _ (world2 0) channel _ streamDetails _ hp hs2 hl hfind rfl
        (by omega)]
    rfl
  have hsave2 : saveStreamData (saveEnv2 0)
      (saveStreamData (saveEnv1 0) disk (mkStreamData channel streamDetails)).2
      (mkStreamData channel streamDetails) =
      (false, (saveStreamData (saveEnv1 0) disk (mkStreamData channel streamDetails)).2) :=
    saveStreamData_after_save _ _ _ _ (by rw [hsave1])
  have hr2 : triggerStreamCheckAndSave client (Except.ok config) false
      (saveStreamData (saveEnv1 0) disk (mkStreamData channel streamDetails)).2 world2 saveEnv2
      (announced.set (streamIdOf channel.platform channel.channelId) (world1 0).now)
      (sent ++ [{ content := none, stream := mkStreamData channel streamDetails }]) =
      { cycle := checkAllTrackedChannels client (Except.ok config) false
          (saveStreamData (saveEnv1 0) disk (mkStreamData channel streamDetails)).2 world2
          (announced.set (streamIdOf channel.platform channel.channelId) (world1 0).now)
          (sent ++ [{ content := none, stream := mkStreamData channel streamDetails }]),
        disk := (saveStreamData (saveEnv1 0) disk (mkStreamData channel streamDetails)).2,
        saveCalls := [(mkStreamData channel streamDetails, false)] } := by
    unfold triggerStreamCheckAndSave
    simp only [hc2, saveLoop_single _ _ _ hg, hsave2]
  rw [hr1, hc1]
  refine ⟨rfl, by simp [get_set], rfl, hlog1, ?_, ?_, ?_⟩
  · show (triggerStreamCheckAndSave client (Except.ok config) false
      (saveStreamData (saveEnv1 0) disk (mkStreamData channel streamDetails)).2 world2 saveEnv2
      (announced.set (streamIdOf channel.platform channel.channelId) (world1 0).now)
      (sent ++ [{ content := none, stream := mkStreamData channel streamDetails }])).cycle.sent = _
    rw [hr2, hc2]
  · show (triggerStreamCheckAndSave client (Except.ok config) false
      (saveStreamData (saveEnv1 0) disk (mkStreamData channel streamDetails)).2 world2 saveEnv2
      (announced.set (streamIdOf channel.platform channel.channelId) (world1 0).now)
      (sent ++ [{ content := none, stream := mkStreamData channel streamDetails }])).saveCalls = _
    rw [hr2]
  · show (triggerStreamCheckAndSave client (Except.ok config) false
      (saveStreamData (saveEnv1 0) disk (mkStreamData channel streamDetails)).2 world2 saveEnv2
      (announced.set (streamIdOf channel.platform channel.channelId) (world1 0).now)
      (sent ++ [{ content := none, stream := mkStreamData channel streamDetails }])).disk = _
    rw [hr2]

/-- Witness of C9: `channelA` seen for the first time, and polled again a minute later. -/
theorem first_sight_then_repeat_witness :
    supportedPlatform channelA.platform ∧
      isLiveMunchy (some snapshotA) = true ∧
      delivered true configA (workingEnv snapshotA 1714558000000) = true ∧
      firstCycleA.saveCalls = [(mkStreamData channelA snapshotA, true)] ∧
      (triggerStreamCheckAndSave true (Except.ok configA) false firstCycleA.disk
        (fun _ => workingEnv snapshotA (1714558000000 + 1 * 60 * 1000)) (fun _ => fsOk)
        firstCycleA.cycle.announcedStreams firstCycleA.cycle.sent).saveCalls =
        [(mkStreamData channelA snapshotA, false)] :=
  ⟨by decide, by decide, by decide,
    (first_sight_then_repeat true configA channelA snapshotA (fun _ => FileState.missing)
      (fun _ => workingEnv snapshotA 1714558000000)
      (fun _ => workingEnv snapshotA (1714558000000 + 1 * 60 * 1000)) (fun _ => fsOk)
      (fun _ => fsOk) [] [] (by decide) (by decide) (by decide) (by decide) (by decide)
      (by decide) (by decide) rfl (by decide) rfl (by decide) rfl (by decide) rfl (by decide)
      (by decide) (by decide)).2.2.1,
    (first_sight_then_repeat true configA channelA snapshotA (fun _ => FileState.missing)
      (fun _ => workingEnv snapshotA 1714558000000)
      (fun _ => workingEnv snapshotA (1714558000000 + 1 * 60 * 1000)) (fun _ => fsOk)
      (fun _ => fsOk) [] [] (by decide) (by decide) (by decide) (by decide) (by decide)
      (by decide) (by decide) rfl (by decide) rfl (by decide) rfl (by decide) rfl (by decide)
      (by decide) (by decide)).2.2.2.2.2.1⟩

/-! ## The keyword filter -/

theorem isPrefixOf_eq_true_iff (pat : List Char) :
    ∀ cs : List Char, pat.isPrefixOf cs = true ↔ ∃ post, cs = pat ++ post := by
  induction pat with
  | nil => intro cs; simp
  | cons p pat ih =>
    intro cs
    cases cs with
    | nil => simp
    | cons c cs =>
      simp only [List.isPrefixOf, Bool.and_eq_true, beq_iff_eq, ih, List.cons_append,
        List.cons.injEq]
      constructor
      · rintro ⟨rfl, post, rfl⟩
        exact ⟨post, rfl, rfl⟩
      · rintro ⟨post, rfl, rfl⟩
        exact ⟨rfl, post, rfl⟩

/-- The method `includes` holds exactly when the pattern is a contiguous part of the text. -/
theorem includes_eq_true_iff (pat : List Char) :
    ∀ cs : List Char, includes cs pat = true ↔ ∃ pre post, cs = pre ++ pat ++ post := by
  intro cs
  induction cs with
  | nil =>
    simp only [includes, List.isEmpty_iff]
    constructor
    · rintro rfl
      exact ⟨[], [], rfl⟩
    · rintro ⟨pre, post, h⟩
      have h2 := congrArg List.length h
      simp only [List.length_nil, List.length_append] at h2
      exact List.eq_nil_of_length_eq_zero (by omega)
  | cons c cs ih =>
    simp only [includes, Bool.or_eq_true, isPrefixOf_eq_true_iff, ih]
    constructor
    · rintro (⟨post, h⟩ | ⟨pre, post, h⟩)
      · exact ⟨[], post, by simpa using h⟩
      · exact ⟨c :: pre, post, by simp [h]⟩
    · rintro ⟨pre, post, h⟩
      cases pre with
      | nil => exact Or.inl ⟨post, by simpa using h⟩
      | cons a pre =>
        simp only [List.cons_append, List.cons.injEq] at h
        exact Or.inr ⟨pre, post, h.2⟩

theorem titleIsMunchy_eq_true_iff (title : JsVal) :
    titleIsMunchy title = true ↔
      ∃ t pre post, title = JsVal.str t ∧
        toLowerCase t.data = pre ++ "munchy".data ++ post := by
  cases title with
  | undefined => simp [titleIsMunchy]
  | null => simp [titleIsMunchy]
  | str t =>
    simp only [titleIsMunchy, Bool.and_eq_true, includes_eq_true_iff, JsVal.str.injEq,
      exists_and_left, exists_eq_left']
    constructor
    · rintro ⟨_, h⟩
      exact h
    · rintro ⟨pre, post, h⟩
      refine ⟨?_, pre, post, h⟩
      have hne : t.data ≠ [] := by
        intro h0
        rw [h0] at h
        have h2 := congrArg List.length h
        simp [toLowerCase] at h2
        omega
      simp only [bne_iff_ne, ne_eq]
      intro ht
      exact hne (by rw [ht])

theorem titleIsMunchy_congr (t1 t2 : String)
    (hlow : toLowerCase t1.data = toLowerCase t2.data) :
    titleIsMunchy (JsVal.str t1) = titleIsMunchy (JsVal.str t2) := by
  have hemp : (t1 != "") = (t2 != "") := by
    have hlen := congrArg List.length hlow
    simp only [toLowerCase, List.length_map] at hlen
    have h1 : t1 = "" ↔ t2 = "" := by
      constructor
      · intro h
        rw [h] at hlen
        exact String.ext (List.eq_nil_of_length_eq_zero hlen.symm)
      · intro h
        rw [h] at hlen
        exact String.ext (List.eq_nil_of_length_eq_zero hlen)
    by_cases h : t1 = ""
    · rw [h, h1.1 h]
    · rw [bne_iff_ne.2 h, bne_iff_ne.2 (fun h2 => h (h1.2 h2))]
  simp only [titleIsMunchy, hlow, hemp]

theorem toNat_ofNat_of_lt (m : Nat) (h : m < 55296) : (Char.ofNat m).toNat = m := by
  have hv : m.isValidChar := Or.inl h
  simp [Char.ofNat, hv, Char.ofNatAux, Char.toNat, UInt32.toNat]

theorem toLower_toUpper (c : Char) : c.toUpper.toLower = c.toLower := by
  unfold Char.toUpper Char.toLower
  simp only []
  by_cases h : c.toNat ≥ 97 ∧ c.toNat ≤ 122
  · have h1 : ¬(c.toNat ≥ 65 ∧ c.toNat ≤ 90) := by omega
    have h2 : c.toNat - 32 ≥ 65 ∧ c.toNat - 32 ≤ 90 := by omega
    have h3 : c.toNat - 32 + 32 = c.toNat := by omega
    rw [if_pos h, if_neg h1, toNat_ofNat_of_lt _ (by omega), if_pos h2, h3, Char.ofNat_toNat]
  · rw [if_neg h]

theorem toLower_toLower (c : Char) : c.toLower.toLower = c.toLower := by
  unfold Char.toLower
  simp only []
  by_cases h : c.toNat ≥ 65 ∧ c.toNat ≤ 90
  · have h2 : ¬(c.toNat + 32 ≥ 65 ∧ c.toNat + 32 ≤ 90) := by omega
    rw [if_pos h, toNat_ofNat_of_lt _ (by omega), if_neg h2]
  · rw [if_neg h, if_neg h]

/-- C10 (keyword filter).  For a channel on a supported platform whose status query
returned a snapshot: (1) the snapshot becomes a candidate event, appended to the returned
list, when it is live and its title is a string whose lower-cased form contains "munchy";
(2) otherwise the iteration does nothing; (3) two snapshots with the same liveness whose
titles have the same lower-cased form get the same decision, so the decision on a title is
the decision on the title in capitals and on the title in small letters; (4) "MUNCHY Monday"
and "munchy monday" pass and "Munch Madness" does not; (5) a snapshot that is not live
never becomes a candidate. -/
theorem keyword_filter :
    (∀ (client : Bool) (config : Config) (isManualCheck : Bool) (disk : Disk)
        (env : ChannelEnv) (channel : TrackedChannel) (st : CycleState)
        (streamDetails : StreamDetails),
        supportedPlatform channel.platform →
        env.status = Except.ok (some streamDetails) →
        (streamDetails.isLive = true ∧
          ∃ t pre post, streamDetails.title = JsVal.str t ∧
            toLowerCase t.data = pre ++ "munchy".data ++ post) →
        (checkChannel client config isManualCheck disk env channel st).liveMunchyStreams =
          st.liveMunchyStreams ++ [mkStreamData channel streamDetails]) ∧
      (∀ (client : Bool) (config : Config) (isManualCheck : Bool) (disk : Disk)
        (env : ChannelEnv) (channel : TrackedChannel) (st : CycleState)
        (streamDetails : StreamDetails),
        env.status = Except.ok (some streamDetails) →
        ¬(streamDetails.isLive = true ∧
          ∃ t pre post, streamDetails.title = JsVal.str t ∧
            toLowerCase t.data = pre ++ "munchy".data ++ post) →
        checkChannel client config isManualCheck disk env channel st = st) ∧
      (∀ (a b : StreamDetails) (t1 t2 : String),
        a.isLive = b.isLive → a.title = JsVal.str t1 → b.title = JsVal.str t2 →
        toLowerCase t1.data = toLowerCase t2.data →
        isLiveMunchy (some a) = isLiveMunchy (some b)) ∧
      (∀ t : String,
        titleIsMunchy (JsVal.str (String.mk (t.data.map Char.toUpper))) =
            titleIsMunchy (JsVal.str t) ∧
          titleIsMunchy (JsVal.str (String.mk (t.data.map Char.toLower))) =
            titleIsMunchy (JsVal.str t)) ∧
      (titleIsMunchy (JsVal.str "MUNCHY Monday") = true ∧
        titleIsMunchy (JsVal.str "munchy monday") = true ∧
        titleIsMunchy (JsVal.str "Munch Madness") = false) ∧
      (∀ (client : Bool) (config : Config) (isManualCheck : Bool) (disk : Disk)
        (env : ChannelEnv) (channel : TrackedChannel) (st : CycleState)
        (streamDetails : StreamDetails),
        env.status = Except.ok (some streamDetails) → streamDetails.isLive = false →
        checkChannel client config isManualCheck disk env channel st = st) := by
  have hiff : ∀ sd : StreamDetails, isLiveMunchy (some sd) = true ↔
      (sd.isLive = true ∧ ∃ t pre post, sd.title = JsVal.str t ∧
        toLowerCase t.data = pre ++ "munchy".data ++ post) := by
    intro sd
    simp only [isLiveMunchy, Bool.and_eq_true, titleIsMunchy_eq_true_iff]
  have hnot : ∀ (client : Bool) (config : Config) (isManualCheck : Bool) (disk : Disk)
      (env : ChannelEnv) (channel : TrackedChannel) (st : CycleState) (sd : StreamDetails),
      env.status = Except.ok (some sd) → ¬(isLiveMunchy (some sd) = true) →
      checkChannel client config isManualCheck disk env channel st = st := by
    intro client config isManualCheck disk env channel st sd hs hn
    apply checkChannel_not_candidate
    rintro ⟨_, sd2, hs2, hl2⟩
    rw [hs] at hs2
    cases hs2
    exact hn hl2
  refine ⟨?_, ?_, ?_, ?_, ⟨by decide, by decide, by decide⟩, ?_⟩
  · intro client config isManualCheck disk env channel st sd hp hs h
    exact checkChannel_live_candidate _ _ _ _ _ _ _ _ hp hs ((hiff sd).2 h)
  · intro client config isManualCheck disk env channel st sd hs h
    exact hnot _ _ _ _ _ _ _ sd hs (fun hl => h ((hiff sd).1 hl))
  · intro a b t1 t2 hlive ha hb hlow
    simp only [isLiveMunchy, ha, hb, hlive, titleIsMunchy_congr t1 t2 hlow]
  · intro t
    constructor
    · apply titleIsMunchy_congr
      simp [toLowerCase, toLower_toUpper]
    · apply titleIsMunchy_congr
      simp [toLowerCase, toLower_toLower]
  · intro client config isManualCheck disk env channel st sd hs h
    exact hnot _ _ _ _ _ _ _ sd hs (by simp [isLiveMunchy, h])

/-- Witness of C10: the live snapshot "munchy time" of `channelA` becomes the event. -/
theorem keyword_filter_witness :
    supportedPlatform channelA.platform ∧
      (snapshotA.isLive = true ∧
        ∃ t pre post, snapshotA.title = JsVal.str t ∧
          toLowerCase t.data = pre ++ "munchy".data ++ post) ∧
      (checkChannel true configA false (fun _ => FileState.missing)
        (workingEnv snapshotA 1714558000000) channelA (initialState [] [])).liveMunchyStreams =
        (initialState [] []).liveMunchyStreams ++ [mkStreamData channelA snapshotA] :=
  ⟨by decide, ⟨by decide, "munchy time", [], " time".data, rfl, by decide⟩,
    keyword_filter.1 true configA false (fun _ => FileState.missing)
      (workingEnv snapshotA 1714558000000) channelA (initialState [] []) snapshotA (by decide) rfl
      ⟨by decide, "munchy time", [], " time".data, rfl, by decide⟩⟩

/-! ## The returned list and local failures -/

theorem checkChannel_live_expected (client : Bool) (config : Config) (isManualCheck : Bool)
    (disk : Disk) (world : Nat → ChannelEnv) (i : Nat) (channel : TrackedChannel)
    (rest : List TrackedChannel) (st : CycleState) :
    (checkChannel client config isManualCheck disk (world i) channel st).liveMunchyStreams ++
        expectedEvents world (i + 1) rest =
      st.liveMunchyStreams ++ expectedEvents world i (channel :: rest) := by
  rw [expectedEvents, ← List.append_assoc]
  congr 1
  rcases checkChannel_cases client config isManualCheck disk (world i) channel st with h |
    ⟨sd, hp, hs, hl⟩
  · by_cases hc : supportedPlatform channel.platform ∧
        ∃ sd, (world i).status = Except.ok (some sd) ∧ isLiveMunchy (some sd) = true
    · obtain ⟨hp, sd, hs, hl⟩ := hc
      have hp2 : channel.platform = "Twitch" ∨ channel.platform = "YouTube" := hp
      have hl2 : sd.isLive = true ∧ titleIsMunchy sd.title = true := by
        simpa [isLiveMunchy] using hl
      rw [checkChannel_live_candidate _ _ _ _ _ _ _ _ hp hs hl]
      simp only [hp2, hs, hl2, and_self, if_true]
    · rw [h]
      by_cases hp : channel.platform = "Twitch" ∨ channel.platform = "YouTube"
      · simp only [hp, if_true]
        rcases hs : (world i).status with e | o
        · simp
        · rcases o with _ | sd
          · simp
          · have hl : ¬(sd.isLive = true ∧ titleIsMunchy sd.title = true) := by
              intro hl
              exact hc ⟨hp, sd, hs, by simpa [isLiveMunchy] using hl⟩
            simp only [hl, if_false, List.append_nil]
      · simp only [hp, if_false, List.append_nil]
  · have hp2 : channel.platform = "Twitch" ∨ channel.platform = "YouTube" := hp
    have hl2 : sd.isLive = true ∧ titleIsMunchy sd.title = true := by
      simpa [isLiveMunchy] using hl
    rw [checkChannel_live_candidate _ _ _ _ _ _ _ _ hp hs hl]
    simp only [hp2, hs, hl2, and_self, if_true]

theorem checkChannels_live_expected (client : Bool) (config : Config) (isManualCheck : Bool)
    (disk : Disk) (world : Nat → ChannelEnv) (channels : List TrackedChannel) :
    ∀ (i : Nat) (st : CycleState),
      (checkChannels client config isManualCheck disk world i channels st).liveMunchyStreams =
        st.liveMunchyStreams ++ expectedEvents world i channels := by
  induction channels with
  | nil => intro i st; simp [checkChannels, expectedEvents]
  | cons c l ih =>
    intro i st
    rw [checkChannels, ih, checkChannel_live_expected]

theorem expectedEvents_length (world : Nat → ChannelEnv) (channels : List TrackedChannel) :
    ∀ i : Nat, (expectedEvents world i channels).length ≤ channels.length := by
  induction channels with
  | nil => intro i; simp [expectedEvents]
  | cons c l ih =>
    intro i
    rw [expectedEvents, List.length_append, List.length_cons]
    have h := ih (i + 1)
    have h1 : (if c.platform = "Twitch" ∨ c.platform = "YouTube" then
        match (world i).status with
        | Except.ok (some streamDetails) =>
          if streamDetails.isLive = true ∧ titleIsMunchy streamDetails.title = true then
            [mkStreamData c streamDetails]
          else []
        | _ => []
      else []).length ≤ 1 := by
      split
      · split
        · split <;> simp
        · simp
      · simp
    omega

theorem expectedEvents_mem (world : Nat → ChannelEnv) (channels : List TrackedChannel) :
    ∀ (i : Nat) (e : StreamData), e ∈ expectedEvents world i channels →
      ∃ channel ∈ channels, ∃ streamDetails : StreamDetails,
        e = mkStreamData channel streamDetails := by
  induction channels with
  | nil => intro i e h; simp [expectedEvents] at h
  | cons c l ih =>
    intro i e h
    rw [expectedEvents, List.mem_append] at h
    rcases h with h | h
    · split at h
      · split at h
        · rename_i sd _
          split at h
          · rw [List.mem_singleton] at h
            exact ⟨c, List.mem_cons_self _ _, sd, h⟩
          · simp at h
        · simp at h
      · simp at h
    · obtain ⟨c2, hc2, sd, he⟩ := ih (i + 1) e h
      exact ⟨c2, List.mem_cons_of_mem _ hc2, sd, he⟩

theorem expectedEvents_eq_describedEvents (world : Nat → ChannelEnv)
    (channels : List TrackedChannel) :
    ∀ i : Nat, expectedEvents world i channels = describedEvents world i channels := by
  induction channels with
  | nil => intro i; rfl
  | cons c l ih =>
    intro i
    rw [expectedEvents, describedEvents, ih]
    rfl

/-- Every described event stems from the tracked channel at some position and from the
snapshot that the status query made at that position returned. -/
theorem describedEvents_mem (world : Nat → ChannelEnv) (channels : List TrackedChannel) :
    ∀ (i : Nat) (e : StreamData), e ∈ describedEvents world i channels →
      ∃ (k : Nat) (channel : TrackedChannel) (snapshot : StreamDetails),
        channels[k]? = some channel ∧
        (channel.platform = "Twitch" ∨ channel.platform = "YouTube") ∧
        (world (i + k)).status = Except.ok (some snapshot) ∧
        snapshot.isLive = true ∧ titleIsMunchy snapshot.title = true ∧
        e = describedEvent channel snapshot := by
  induction channels with
  | nil => intro i e h; simp [describedEvents] at h
  | cons c l ih =>
    intro i e h
    rw [describedEvents, List.mem_append] at h
    rcases h with h | h
    · split at h
      · rename_i hp
        split at h
        · rename_i sd hs
          split at h
          · rename_i hl
            rw [List.mem_singleton] at h
            exact ⟨0, c, sd, List.getElem?_cons_zero, hp, hs, hl.1, hl.2, h⟩
          · simp at h
        · simp at h
      · simp at h
    · obtain ⟨k, c2, sd, hk, hp, hs, hl1, hl2, he⟩ := ih (i + 1) e h
      refine ⟨k + 1, c2, sd, ?_, hp, ?_, hl1, hl2, he⟩
      · rw [List.getElem?_cons_succ]
        exact hk
      · have hidx : i + (k + 1) = i + 1 + k := by omega
        rw [hidx]
        exact hs

theorem describedEvents_length (world : Nat → ChannelEnv) (channels : List TrackedChannel) :
    ∀ i : Nat, (describedEvents world i channels).length ≤ channels.length := by
  intro i
  rw [← expectedEvents_eq_describedEvents]
  exact expectedEvents_length world channels i

/-- C11 (returned list).  The list returned by `checkAllTrackedChannels` is the list the
specification describes: in tracked-channel order, one event for each tracked channel whose
status query reported a live stream with a title passing the keyword filter, and nothing
else, each event with `streamUrl`, `startedAt`, `title` and `thumbnailUrl` of that snapshot
and `platform`, channel id, owning user and `channelName` of that tracked channel. It is
never longer than the tracked list, and every returned event comes from the tracked channel
at some position `k` and from the snapshot returned by the status query made at position
`k`, field by field. -/
theorem returned_events (client : Bool) (config : Config) (isManualCheck : Bool)
    (disk : Disk) (world : Nat → ChannelEnv) (announced : AnnouncedStreams)
    (sent : List Announcement) (channels : List TrackedChannel)
    (hcfg : config.trackedChannels = some channels) :
    (checkAllTrackedChannels client (Except.ok config) isManualCheck disk world announced
        sent).liveMunchyStreams = describedEvents world 0 channels ∧
      (checkAllTrackedChannels client (Except.ok config) isManualCheck disk world announced
        sent).liveMunchyStreams.length ≤ channels.length ∧
      ∀ e ∈ (checkAllTrackedChannels client (Except.ok config) isManualCheck disk world
          announced sent).liveMunchyStreams,
        ∃ (k : Nat) (channel : TrackedChannel) (snapshot : StreamDetails),
          channels[k]? = some channel ∧
          (world k).status = Except.ok (some snapshot) ∧
          snapshot.isLive = true ∧ titleIsMunchy snapshot.title = true ∧
          e.streamUrl = snapshot.streamUrl ∧ e.startedAt = snapshot.startedAt ∧
          e.title = snapshot.title ∧ e.thumbnailUrl = snapshot.thumbnailUrl ∧
          e.platform = channel.platform ∧ e.streamerChannelId = channel.channelId ∧
          e.targetUserId = channel.targetUserId ∧ e.channelName = channel.channelName := by
  have h : (checkAllTrackedChannels client (Except.ok config) isManualCheck disk world
      announced sent).liveMunchyStreams = describedEvents world 0 channels := by
    rw [checkAllTrackedChannels_eq _ _ _ _ _ _ _ _ hcfg, checkChannels_live_expected,
      expectedEvents_eq_describedEvents]
    rfl
  refine ⟨h, ?_, ?_⟩
  · rw [h]
    exact describedEvents_length world channels 0
  · intro e he
    rw [h] at he
    obtain ⟨k, c, sd, hk, _, hs, hl1, hl2, rfl⟩ := describedEvents_mem world channels 0 e he
    rw [Nat.zero_add] at hs
    exact ⟨k, c, sd, hk, hs, hl1, hl2, rfl, rfl, rfl, rfl, rfl, rfl, rfl, rfl⟩

/-- Witness of C11: a list of an unsupported entry and `channelA`, which is live. -/
theorem returned_events_witness :
    ({ trackedChannels := some [channelKick, channelA], announcementCooldownMinutes := none,
        munchyStreamChannelId := some "sink" } : Config).trackedChannels =
      some [channelKick, channelA] ∧
    (checkAllTrackedChannels true
      (Except.ok { trackedChannels := some [channelKick, channelA],
                   announcementCooldownMinutes := none,
                   munchyStreamChannelId := some "sink" })
      false (fun _ => FileState.missing) (fun _ => workingEnv snapshotA 1714558000000) []
      []).liveMunchyStreams =
        [{ streamUrl := JsVal.str "https://www.twitch.tv/a",
           startedAt := JsVal.str "2024-05-01T10:00:00Z",
           title := JsVal.str "munchy time",
           platform := "Twitch",
           streamerChannelId := "a",
           targetUserId := "42",
           channelName := "A",
           thumbnailUrl := JsVal.undefined }] :=
  ⟨rfl,
    (returned_events true
      { trackedChannels := some [channelKick, channelA], announcementCooldownMinutes := none,
        munchyStreamChannelId := some "sink" }
      false (fun _ => FileState.missing) (fun _ => workingEnv snapshotA 1714558000000) [] []
      [channelKick, channelA] rfl).1.trans (by decide)⟩

theorem checkChannel_config_congr (client : Bool) (config config2 : Config)
    (isManualCheck : Bool) (disk : Disk) (env : ChannelEnv) (channel : TrackedChannel)
    (st : CycleState)
    (h1 : config2.announcementCooldownMinutes = config.announcementCooldownMinutes)
    (h2 : config2.munchyStreamChannelId = config.munchyStreamChannelId) :
    checkChannel client config2 isManualCheck disk env channel st =
      checkChannel client config isManualCheck disk env channel st := by
  unfold checkChannel announce announcementCooldownMs
  rw [h1, h2]

theorem checkChannels_config_congr (client : Bool) (config config2 : Config)
    (isManualCheck : Bool) (disk : Disk) (world : Nat → ChannelEnv)
    (h1 : config2.announcementCooldownMinutes = config.announcementCooldownMinutes)
    (h2 : config2.munchyStreamChannelId = config.munchyStreamChannelId)
    (channels : List TrackedChannel) :
    ∀ (i : Nat) (st : CycleState),
      checkChannels client config2 isManualCheck disk world i channels st =
        checkChannels client config isManualCheck disk world i channels st := by
  induction channels with
  | nil => intro i st; rfl
  | cons c l ih =>
    intro i st
    rw [checkChannels, checkChannels, ih, checkChannel_config_congr _ _ _ _ _ _ _ _ h1 h2]

/-- The loop meets the environments of the positions it visits only. -/
theorem checkChannels_world_congr (client : Bool) (config : Config) (isManualCheck : Bool)
    (disk : Disk) (world world2 : Nat → ChannelEnv) (d : Nat)
    (channels : List TrackedChannel) :
    ∀ (i : Nat) (st : CycleState),
      (∀ j, i ≤ j → j < i + channels.length → world2 j = world (j + d)) →
      checkChannels client config isManualCheck disk world2 i channels st =
        checkChannels client config isManualCheck disk world (i + d) channels st := by
  induction channels with
  | nil => intro i st _; rfl
  | cons c l ih =>
    intro i st h
    rw [checkChannels, checkChannels, h i (Nat.le_refl _) (by simp)]
    have := ih (i + 1) (checkChannel client config isManualCheck disk (world (i + d)) c st)
      (fun j hj1 hj2 => h j (by omega) (by simp only [List.length_cons]; omega))
    rw [this]
    congr 1
    omega

/-- An entry with an unsupported platform value, or whose status query throws, is a step
that changes nothing. -/
theorem checkChannel_local_failure (client : Bool) (config : Config) (isManualCheck : Bool)
    (disk : Disk) (env : ChannelEnv) (channel : TrackedChannel) (st : CycleState)
    (h : ¬supportedPlatform channel.platform ∨ ∃ e, env.status = Except.error e) :
    checkChannel client config isManualCheck disk env channel st = st := by
  apply checkChannel_not_candidate
  rintro ⟨hp, sd, hs, _⟩
  rcases h with h | ⟨e, he⟩
  · exact h hp
  · rw [he] at hs
    cases hs

/-- C12 (local failures).  When one entry of the tracked list has an unsupported platform
value, or its status query throws, the cycle returns, and the events returned, the messages
accepted by the sink and the cooldown map after the cycle are those of the cycle run on the
list without that entry, the other entries meeting the same environments. -/
theorem local_failure_is_skipped (client : Bool) (config : Config) (isManualCheck : Bool)
    (disk : Disk) (world : Nat → ChannelEnv) (pre post : List TrackedChannel)
    (channel : TrackedChannel) (announced : AnnouncedStreams) (sent : List Announcement)
    (hcfg : config.trackedChannels = some (pre ++ channel :: post))
    (hfail : ¬supportedPlatform channel.platform ∨
      ∃ e, (world pre.length).status = Except.error e) :
    checkAllTrackedChannels client (Except.ok config) isManualCheck disk world announced sent =
      checkAllTrackedChannels client
        (Except.ok { config with trackedChannels := some (pre ++ post) }) isManualCheck disk
        (skipAt world pre.length) announced sent := by
  rw [checkAllTrackedChannels_eq _ _ _ _ _ _ _ _ hcfg,
    checkAllTrackedChannels_eq client { config with trackedChannels := some (pre ++ post) }
      isManualCheck disk (skipAt world pre.length) announced sent (pre ++ post) rfl,
    checkChannels_config_congr client config { config with trackedChannels := some (pre ++ post) }
      isManualCheck disk (skipAt world pre.length) rfl rfl,
    checkChannels_append, checkChannels_append, checkChannels,
    checkChannel_local_failure _ _ _ _ _ _ _ (by simpa using hfail)]
  have hpre : checkChannels client config isManualCheck disk (skipAt world pre.length) 0 pre
      (initialState announced sent) =
      checkChannels client config isManualCheck disk world (0 + 0) pre
        (initialState announced sent) := by
    apply checkChannels_world_congr
    intro j _ hj
    simp only [skipAt, Nat.add_zero]
    rw [if_pos (by omega)]
  have hpost : ∀ st, checkChannels client config isManualCheck disk (skipAt world pre.length)
      (0 + pre.length) post st =
      checkChannels client config isManualCheck disk world (0 + pre.length + 1) post st := by
    intro st
    apply checkChannels_world_congr
    intro j hj _
    simp only [skipAt]
    rw [if_neg (by omega)]
  rw [hpre, hpost]

/-- Witness of C12: an unsupported entry in front of `channelA`. -/
theorem local_failure_is_skipped_witness :
    ({ trackedChannels := some [channelKick, channelA], announcementCooldownMinutes := none,
        munchyStreamChannelId := some "sink" } : Config).trackedChannels =
      some ([] ++ channelKick :: [channelA]) ∧
    ¬supportedPlatform channelKick.platform ∧
    checkAllTrackedChannels true
      (Except.ok { trackedChannels := some [channelKick, channelA],
                   announcementCooldownMinutes := none,
                   munchyStreamChannelId := some "sink" })
      false (fun _ => FileState.missing) (fun _ => workingEnv snapshotA 1714558000000) [] [] =
    checkAllTrackedChannels true (Except.ok configA) false (fun _ => FileState.missing)
      (skipAt (fun _ => workingEnv snapshotA 1714558000000) 0) [] [] :=
  ⟨rfl, by decide,
    local_failure_is_skipped true
      { trackedChannels := some [channelKick, channelA], announcementCooldownMinutes := none,
        munchyStreamChannelId := some "sink" }
      false (fun _ => FileState.missing) (fun _ => workingEnv snapshotA 1714558000000) []
      [channelA] channelKick [] [] rfl (Or.inl (by decide))⟩

/-! ## Append-only log, failures and reads -/

/-- C13, as stated, fails.  The log file of `channelA` holds one record and its read fails
with an error other than not-found: `saveStreamData` starts from an empty array and its
write replaces the file, so the record stored before is not in the log after the call. -/
theorem read_failure_restarts_log :
    durableRecords (diskUnreadableA "data/42/Twitch_a.json") = [oldRecordA] ∧
      (saveStreamData fsOk diskUnreadableA (mkStreamData channelA snapshotA)).1 = true ∧
      durableRecords
        ((saveStreamData fsOk diskUnreadableA (mkStreamData channelA snapshotA)).2
          "data/42/Twitch_a.json") =
        [sessionRecord snapshotA.streamUrl snapshotA.startedAt snapshotA.title] ∧
      ¬∃ added, durableRecords
        ((saveStreamData fsOk diskUnreadableA (mkStreamData channelA snapshotA)).2
          "data/42/Twitch_a.json") =
        durableRecords (diskUnreadableA "data/42/Twitch_a.json") ++ added := by
  have h1 : durableRecords (diskUnreadableA "data/42/Twitch_a.json") = [oldRecordA] := rfl
  have h2 : (saveStreamData fsOk diskUnreadableA (mkStreamData channelA snapshotA)).1 = true := by
    decide
  have h3 : durableRecords
      ((saveStreamData fsOk diskUnreadableA (mkStreamData channelA snapshotA)).2
        "data/42/Twitch_a.json") =
      [sessionRecord snapshotA.streamUrl snapshotA.startedAt snapshotA.title] := by
    rw [(saveStreamData_fst_true _ _ _ h2).2.2]
    rfl
  refine ⟨h1, h2, h3, ?_⟩
  rintro ⟨added, h⟩
  rw [h3, h1] at h
  simp [oldRecordA, sessionRecord, jsonField, snapshotA, liveSnapshot] at h

/-- C13, amended.  For every file that is not in the read-error state, every call of
`saveStreamData` leaves the records of every log as they are or appends the one record
`{streamUrl, startedAt, title}` of the session at the end of the log of its triple, when it
returns `true`; for a file whose read fails with an error other than not-found, a call that
returns `true` leaves the one-record log of the session in it. -/
theorem append_only_when_read (env : SaveEnv) (disk : Disk) (d : StreamData) (path : String) :
    ((∀ v, disk path ≠ FileState.unreadable v) →
      durableRecords ((saveStreamData env disk d).2 path) = durableRecords (disk path) ∨
        ((saveStreamData env disk d).1 = true ∧
          path = logPath d.targetUserId d.platform d.streamerChannelId ∧
          durableRecords ((saveStreamData env disk d).2 path) =
            durableRecords (disk path) ++ [sessionRecord d.streamUrl d.startedAt d.title])) ∧
    (∀ v, disk path = FileState.unreadable v →
      path = logPath d.targetUserId d.platform d.streamerChannelId →
      (saveStreamData env disk d).1 = true →
      durableRecords ((saveStreamData env disk d).2 path) =
        [sessionRecord d.streamUrl d.startedAt d.title]) := by
  constructor
  · intro hread
    cases hr : (saveStreamData env disk d).1
    · rw [saveStreamData_fst_false env disk d hr]
      exact Or.inl rfl
    · obtain ⟨_, _, h2⟩ := saveStreamData_fst_true env disk d hr
      by_cases hp : path = logPath d.targetUserId d.platform d.streamerChannelId
      · refine Or.inr ⟨rfl, hp, ?_⟩
        rw [h2, hp, Function.update_same]
        rw [hp] at hread
        rcases hf : disk (logPath d.targetUserId d.platform d.streamerChannelId) with
          _ | v | _ | v
        · rfl
        · exact absurd hf (hread v)
        · rfl
        · cases v <;> rfl
      · rw [h2, Function.update_noteq hp]
        exact Or.inl rfl
  · intro v hv hp hr
    obtain ⟨_, _, h2⟩ := saveStreamData_fst_true env disk d hr
    rw [h2, hp, Function.update_same]
    rw [hp] at hv
    rw [hv]
    rfl

/-- Witness of C13 (amended): a second session appended to the readable log of `channelA`. -/
theorem append_only_when_read_witness :
    (∀ v, diskWith "data/42/Twitch_a.json" [oldRecordA] "data/42/Twitch_a.json" ≠
        FileState.unreadable v) ∧
      (durableRecords
          ((saveStreamData fsOk (diskWith "data/42/Twitch_a.json" [oldRecordA])
            (mkStreamData channelA snapshotA)).2 "data/42/Twitch_a.json") =
          durableRecords (diskWith "data/42/Twitch_a.json" [oldRecordA] "data/42/Twitch_a.json") ∨
        ((saveStreamData fsOk (diskWith "data/42/Twitch_a.json" [oldRecordA])
            (mkStreamData channelA snapshotA)).1 = true ∧
          "data/42/Twitch_a.json" =
            logPath (mkStreamData channelA snapshotA).targetUserId
              (mkStreamData channelA snapshotA).platform
              (mkStreamData channelA snapshotA).streamerChannelId ∧
          durableRecords
            ((saveStreamData fsOk (diskWith "data/42/Twitch_a.json" [oldRecordA])
              (mkStreamData channelA snapshotA)).2 "data/42/Twitch_a.json") =
            durableRecords
                (diskWith "data/42/Twitch_a.json" [oldRecordA] "data/42/Twitch_a.json") ++
              [sessionRecord (mkStreamData channelA snapshotA).streamUrl
                (mkStreamData channelA snapshotA).startedAt
                (mkStreamData channelA snapshotA).title])) :=
  have h0 : ∀ v, diskWith "data/42/Twitch_a.json" [oldRecordA] "data/42/Twitch_a.json" ≠
      FileState.unreadable v := by
    intro v h
    simp [diskWith] at h
  ⟨h0, (append_only_when_read fsOk (diskWith "data/42/Twitch_a.json" [oldRecordA])
    (mkStreamData channelA snapshotA) "data/42/Twitch_a.json").1 h0⟩

/-- C14 (failed append).  `saveStreamData` returns for every input: an error thrown in its
body is caught and gives `false`.  It returns `false` when a key field (`targetUserId`,
`platform`, `streamerChannelId`) is missing, when `mkdir` fails and when `writeFile` fails;
and whenever it returns `false` the whole directory, so the log of the triple, is as it was
before the call (a failed `writeFile` leaving the file untouched). -/
theorem saveStreamData_failure (env : SaveEnv) (disk : Disk) (d : StreamData) :
    (∀ e, saveStreamDataTry env disk d = Except.error e →
        saveStreamData env disk d = (false, disk)) ∧
      (d.targetUserId = "" ∨ d.platform = "" ∨ d.streamerChannelId = "" →
        saveStreamData env disk d = (false, disk)) ∧
      (env.mkdirOk = false → saveStreamData env disk d = (false, disk)) ∧
      (env.writeOk = false → saveStreamData env disk d = (false, disk)) ∧
      ((saveStreamData env disk d).1 = false → (saveStreamData env disk d).2 = disk) := by
  refine ⟨?_, ?_, ?_, ?_, saveStreamData_fst_false env disk d⟩
  · intro e he
    simp [saveStreamData, he]
  · intro h
    rw [saveStreamData_eq, if_pos h]
  · intro h
    rw [saveStreamData_eq]
    split
    · rfl
    · rfl
  · intro h
    rw [saveStreamData_eq]
    split
    · rfl
    · split
      · rfl
      · split <;> rfl

/-- Witness of C14: a write failure on the first save of `channelA`. -/
theorem saveStreamData_failure_witness :
    ({ mkdirOk := true, writeOk := false } : SaveEnv).writeOk = false ∧
      (saveStreamData { mkdirOk := true, writeOk := false } (fun _ => FileState.missing)
        (mkStreamData channelA snapshotA)).1 = false :=
  ⟨rfl,
    congrArg Prod.fst
      ((saveStreamData_failure { mkdirOk := true, writeOk := false }
        (fun _ => FileState.missing) (mkStreamData channelA snapshotA)).2.2.2.1 rfl)⟩

/-- C15 (defensive read).  `readUserActivity` returns for every triple of strings: the
empty sequence when the log file does not exist, when reading it fails, when its content is
not JSON and when it is JSON that is not an array; otherwise the stored records in stored
order, which is insertion order: after a `saveStreamData` call that returned `true` the
read gives the records read before followed by the new record. -/
theorem readUserActivity_cases (disk : Disk) (userId platform channelId : String) :
    (disk (logPath userId platform channelId) = FileState.missing →
        readUserActivity disk userId platform channelId = []) ∧
      (∀ v, disk (logPath userId platform channelId) = FileState.unreadable v →
        readUserActivity disk userId platform channelId = []) ∧
      (disk (logPath userId platform channelId) = FileState.garbage →
        readUserActivity disk userId platform channelId = []) ∧
      (∀ v, disk (logPath userId platform channelId) = FileState.json v →
        (∀ xs, v ≠ Json.arr xs) → readUserActivity disk userId platform channelId = []) ∧
      (∀ xs, disk (logPath userId platform channelId) = FileState.json (Json.arr xs) →
        readUserActivity disk userId platform channelId = xs) ∧
      (∀ (env : SaveEnv) (d : StreamData), (saveStreamData env disk d).1 = true →
        readUserActivity (saveStreamData env disk d).2 d.targetUserId d.platform
            d.streamerChannelId =
          readUserActivity disk d.targetUserId d.platform d.streamerChannelId ++
            [sessionRecord d.streamUrl d.startedAt d.title]) := by
  refine ⟨?_, ?_, ?_, ?_, ?_, ?_⟩
  · intro h
    simp [readUserActivity, h]
  · intro v h
    simp [readUserActivity, h]
  · intro h
    simp [readUserActivity, h]
  · intro v h hv
    cases v with
    | arr xs => exact absurd rfl (hv xs)
    | null => simp [readUserActivity, h]
    | bool b => simp [readUserActivity, h]
    | num n => simp [readUserActivity, h]
    | str s => simp [readUserActivity, h]
    | obj kvs => simp [readUserActivity, h]
  · intro xs h
    simp [readUserActivity, h]
  · intro env d h
    obtain ⟨_, _, h2⟩ := saveStreamData_fst_true env disk d h
    rw [readUserActivity_eq, readUserActivity_eq, h2, Function.update_same]
    rfl

/-- Witness of C15: reading a log whose read fails gives the empty sequence. -/
theorem readUserActivity_cases_witness :
    diskUnreadableA (logPath "42" "Twitch" "a") = FileState.unreadable (Json.arr [oldRecordA]) ∧
      readUserActivity diskUnreadableA "42" "Twitch" "a" = [] :=
  ⟨rfl, (readUserActivity_cases diskUnreadableA "42" "Twitch" "a").2.1 _ rfl⟩

/-- C16 (identity key).  When the log of the triple holds a record with the `streamUrl` and
`startedAt` of the stream data, whatever its title, `saveStreamData` returns `false` and
leaves the directory, so the stored record and its title, unchanged.  When the key fields
are present, the file system works and no stored record has both the `streamUrl` and the
`startedAt` of the stream data, the session is added at the end of the log. -/
theorem identity_is_the_pair (env : SaveEnv) (disk : Disk) (d : StreamData) :
    ((∃ s ∈ readUserActivity disk d.targetUserId d.platform d.streamerChannelId,
          hasKey d.streamUrl d.startedAt s = true) →
        saveStreamData env disk d = (false, disk)) ∧
      (d.targetUserId ≠ "" → d.platform ≠ "" → d.streamerChannelId ≠ "" →
        env.mkdirOk = true → env.writeOk = true →
        (∀ s ∈ readUserActivity disk d.targetUserId d.platform d.streamerChannelId,
          s.isNull = false ∧ hasKey d.streamUrl d.startedAt s = false) →
        (saveStreamData env disk d).1 = true ∧
          readUserActivity (saveStreamData env disk d).2 d.targetUserId d.platform
              d.streamerChannelId =
            readUserActivity disk d.targetUserId d.platform d.streamerChannelId ++
              [sessionRecord d.streamUrl d.startedAt d.title]) := by
  constructor
  · rintro ⟨s, hs, hk⟩
    have h1 : (saveStreamData env disk d).1 = false := by
      cases hr : (saveStreamData env disk d).1
      · rfl
      · obtain ⟨hex, _, _⟩ := saveStreamData_fst_true env disk d hr
        rw [← readUserActivity_eq] at hex
        have := (streamExists_ok_false _ _ _ hex s hs).2
        rw [hk] at this
        exact absurd this (by decide)
    exact Prod.ext h1 (saveStreamData_fst_false env disk d h1)
  · intro h1 h2 h3 hm hw hall
    have hex : streamExists
        (storedLog (disk (logPath d.targetUserId d.platform d.streamerChannelId)))
        d.streamUrl d.startedAt = Except.ok false := by
      rw [← readUserActivity_eq]
      generalize readUserActivity disk d.targetUserId d.platform d.streamerChannelId = l at hall
      induction l with
      | nil => rfl
      | cons a l ih =>
        rw [streamExists_cons, (hall a (List.mem_cons_self _ _)).1,
          (hall a (List.mem_cons_self _ _)).2]
        simp only [Bool.false_eq_true, if_false]
        exact ih (fun s hs => hall s (List.mem_cons_of_mem _ hs))
    have hsave : saveStreamData env disk d =
        (true, Function.update disk (logPath d.targetUserId d.platform d.streamerChannelId)
          (FileState.json (Json.arr
            (storedLog (disk (logPath d.targetUserId d.platform d.streamerChannelId)) ++
              [sessionRecord d.streamUrl d.startedAt d.title])))) := by
      rw [saveStreamData_eq, if_neg (by simp [h1, h2, h3]), if_neg (by simp [hm]), hex]
      simp [hw]
    refine ⟨by rw [hsave], ?_⟩
    rw [readUserActivity_eq, readUserActivity_eq, hsave]
    simp only [Function.update_same, storedLog]

/-- Witness of C16: the session of `oldRecordA` offered again under another title. -/
theorem identity_is_the_pair_witness :
    (∃ s ∈ readUserActivity (diskWith "data/42/Twitch_a.json" [oldRecordA]) "42" "Twitch" "a",
        hasKey (JsVal.str "https://www.twitch.tv/a") (JsVal.str "2024-04-30T10:00:00Z") s =
          true) ∧
      (saveStreamData fsOk (diskWith "data/42/Twitch_a.json" [oldRecordA])
        { streamUrl := JsVal.str "https://www.twitch.tv/a",
          startedAt := JsVal.str "2024-04-30T10:00:00Z",
          title := JsVal.str "munchy, a new title", platform := "Twitch",
          streamerChannelId := "a", targetUserId := "42", channelName := "A",
          thumbnailUrl := JsVal.undefined }).1 = false :=
  have h0 : ∃ s ∈ readUserActivity (diskWith "data/42/Twitch_a.json" [oldRecordA]) "42"
      "Twitch" "a",
      hasKey (JsVal.str "https://www.twitch.tv/a") (JsVal.str "2024-04-30T10:00:00Z") s =
        true := ⟨oldRecordA, List.mem_singleton_self _, by decide⟩
  ⟨h0,
    congrArg Prod.fst
      ((identity_is_the_pair fsOk (diskWith "data/42/Twitch_a.json" [oldRecordA])
        { streamUrl := JsVal.str "https://www.twitch.tv/a",
          startedAt := JsVal.str "2024-04-30T10:00:00Z",
          title := JsVal.str "munchy, a new title", platform := "Twitch",
          streamerChannelId := "a", targetUserId := "42", channelName := "A",
          thumbnailUrl := JsVal.undefined }).1 h0)⟩

/-! ## Lemmas on the identifier resolver -/

theorem jsTrim_ne_empty (raw : String) (h : jsTrim raw ≠ "") : raw ≠ "" := by
  intro hr
  apply h
  rw [hr]
  rfl

theorem ne_empty_of_isCanonicalId (identifier : String)
    (h : isCanonicalId identifier = true) : identifier ≠ "" := by
  intro he
  rw [he] at h
  exact absurd h (by decide)

/-- With an API key and an identifier that is not empty after trimming, the resolver is the
chain started after the canonical-id check, unless that check resolves the identifier. -/
theorem resolve_eq (env : ResolverEnv) (raw : String) (hkey : env.youtubeApiKey = true)
    (hne : jsTrim raw ≠ "") :
    resolveYouTubeIdentifierToChannelId env (JsVal.str raw) =
      if isCanonicalId (jsTrim raw) = true then
        match canonicalIdCheck env (jsTrim raw) with
        | some r =>
          Except.ok { result := some r, calls := [DirectoryCall.channelsById (jsTrim raw)] }
        | none =>
          Except.ok (handleStep env (jsTrim raw) (parseIdentifier env.urlPathname (jsTrim raw))
            [DirectoryCall.channelsById (jsTrim raw)])
      else
        Except.ok (handleStep env (jsTrim raw) (parseIdentifier env.urlPathname (jsTrim raw))
          []) := by
  have hraw := jsTrim_ne_empty raw hne
  unfold resolveYouTubeIdentifierToChannelId
  simp [hkey, hne, hraw]

theorem resolve_eq_handleStep (env : ResolverEnv) (raw : String)
    (hkey : env.youtubeApiKey = true) (hne : jsTrim raw ≠ "")
    (hfast : isCanonicalId (jsTrim raw) = true → canonicalIdCheck env (jsTrim raw) = none) :
    resolveYouTubeIdentifierToChannelId env (JsVal.str raw) =
      Except.ok (handleStep env (jsTrim raw) (parseIdentifier env.urlPathname (jsTrim raw))
        (fastPathCalls (jsTrim raw))) := by
  rw [resolve_eq env raw hkey hne]
  unfold fastPathCalls
  by_cases hc : isCanonicalId (jsTrim raw) = true
  · rw [if_pos hc, if_pos hc, hfast hc]
  · rw [if_neg hc, if_neg hc]

theorem substring1_of_data (s name : String) (c : Char) (h : s.data = c :: name.data) :
    substring1 s = name := by
  unfold substring1
  rw [h]
  rfl

theorem startsWith_at_of_data (s name : String) (h : s.data = '@' :: name.data) :
    startsWith s "@" = true := by
  have h1 : "@".data = ['@'] := rfl
  unfold startsWith
  rw [h, h1]
  simp [List.isPrefixOf]

theorem parseIdentifier_at (urlPathname : String → Except JsError String)
    (identifier : String) (h1 : startsWith identifier "@" = true) :
    parseIdentifier urlPathname identifier =
      { handleName := some (substring1 identifier),
        usernameForApi := substring1 identifier } := by
  unfold parseIdentifier
  rw [if_pos h1]

theorem parseIdentifier_plain (urlPathname : String → Except JsError String)
    (identifier : String) (h1 : startsWith identifier "@" = false)
    (h2 : includes identifier.data "youtube.com/".data = false) :
    parseIdentifier urlPathname identifier =
      { handleName := none, usernameForApi := identifier } := by
  unfold parseIdentifier
  rw [h1, h2]
  rfl

theorem parseIdentifier_url_error (urlPathname : String → Except JsError String)
    (identifier : String) (e : JsError) (h1 : startsWith identifier "@" = false)
    (h2 : includes identifier.data "youtube.com/".data = true)
    (hurl : urlPathname identifier = Except.error e) :
    parseIdentifier urlPathname identifier =
      { handleName := none, usernameForApi := identifier } := by
  unfold parseIdentifier
  rw [h1, h2, hurl]
  rfl

theorem parseIdentifier_url (urlPathname : String → Except JsError String)
    (identifier pathname : String) (h1 : startsWith identifier "@" = false)
    (h2 : includes identifier.data "youtube.com/".data = true)
    (hurl : urlPathname identifier = Except.ok pathname) :
    parseIdentifier urlPathname identifier =
      match pathParts pathname with
      | [] => { handleName := none, usernameForApi := identifier }
      | p0 :: rest =>
        if startsWith p0 "@" then
          { handleName := some (substring1 p0), usernameForApi := substring1 p0 }
        else
          match rest with
          | p1 :: _ =>
            if p0 == "c" then { handleName := none, usernameForApi := p1 }
            else if p0 == "user" then { handleName := none, usernameForApi := p1 }
            else { handleName := none, usernameForApi := identifier }
          | [] =>
            if !(["channel", "results", "feed", "watch"].contains p0) then
              { handleName := none, usernameForApi := p0 }
            else { handleName := none, usernameForApi := identifier } := by
  unfold parseIdentifier
  rw [h1, h2, hurl]
  rfl

/-- The outcomes of the parsing block: a handle taken from the identifier or from the
first path segment, both names being the handle; or no handle, the name being the
identifier or a path segment. -/
theorem parseIdentifier_cases (urlPathname : String → Except JsError String)
    (identifier : String) :
    (startsWith identifier "@" = true ∧
        parseIdentifier urlPathname identifier =
          { handleName := some (substring1 identifier),
            usernameForApi := substring1 identifier }) ∨
      (startsWith identifier "@" = false ∧
        parseIdentifier urlPathname identifier =
          { handleName := none, usernameForApi := identifier }) ∨
      (startsWith identifier "@" = false ∧
        includes identifier.data "youtube.com/".data = true ∧
        ∃ pathname p0 rest, urlPathname identifier = Except.ok pathname ∧
          pathParts pathname = p0 :: rest ∧
          ((startsWith p0 "@" = true ∧
              parseIdentifier urlPathname identifier =
                { handleName := some (substring1 p0), usernameForApi := substring1 p0 }) ∨
            ∃ u ∈ p0 :: rest,
              parseIdentifier urlPathname identifier =
                { handleName := none, usernameForApi := u })) := by
  rcases Bool.eq_false_or_eq_true (startsWith identifier "@") with h1 | h1
  · exact Or.inl ⟨h1, parseIdentifier_at _ _ h1⟩
  rcases Bool.eq_false_or_eq_true (includes identifier.data "youtube.com/".data) with h2 | h2
  swap
  · exact Or.inr (Or.inl ⟨h1, parseIdentifier_plain _ _ h1 h2⟩)
  rcases hurl : urlPathname identifier with e | pathname
  · exact Or.inr (Or.inl ⟨h1, parseIdentifier_url_error _ _ e h1 h2 hurl⟩)
  have hp := parseIdentifier_url _ _ _ h1 h2 hurl
  rcases hparts : pathParts pathname with _ | ⟨p0, rest⟩
  · rw [hparts] at hp
    exact Or.inr (Or.inl ⟨h1, hp⟩)
  rw [hparts] at hp
  simp only at hp
  rcases Bool.eq_false_or_eq_true (startsWith p0 "@") with h3 | h3
  · rw [if_pos h3] at hp
    exact Or.inr (Or.inr ⟨h1, h2, pathname, p0, rest, rfl, hparts, Or.inl ⟨h3, hp⟩⟩)
  rw [if_neg (by simp [h3])] at hp
  cases rest with
  | nil =>
    simp only at hp
    rcases Bool.eq_false_or_eq_true (["channel", "results", "feed", "watch"].contains p0) with
      h4 | h4
    · rw [h4] at hp
      exact Or.inr (Or.inl ⟨h1, hp⟩)
    · rw [h4] at hp
      exact Or.inr (Or.inr ⟨h1, h2, pathname, p0, [], rfl, hparts,
        Or.inr ⟨p0, List.mem_cons_self _ _, hp⟩⟩)
  | cons p1 rest =>
    simp only at hp
    rcases Bool.eq_false_or_eq_true (p0 == "c") with h4 | h4
    · rw [if_pos h4] at hp
      exact Or.inr (Or.inr ⟨h1, h2, pathname, p0, p1 :: rest, rfl, hparts,
        Or.inr ⟨p1, by simp, hp⟩⟩)
    rw [if_neg (by simp [h4])] at hp
    rcases Bool.eq_false_or_eq_true (p0 == "user") with h5 | h5
    · rw [if_pos h5] at hp
      exact Or.inr (Or.inr ⟨h1, h2, pathname, p0, p1 :: rest, rfl, hparts,
        Or.inr ⟨p1, by simp, hp⟩⟩)
    rw [if_neg (by simp [h5])] at hp
    exact Or.inr (Or.inl ⟨h1, hp⟩)

theorem parseIdentifier_handleForm (urlPathname : String → Except JsError String)
    (identifier name : String) (h : handleForm urlPathname identifier name) :
    parseIdentifier urlPathname identifier =
      { handleName := some name, usernameForApi := name } := by
  rcases h with h | ⟨h1, h2, pathname, p0, rest, hurl, hparts, hp0⟩
  · unfold parseIdentifier
    rw [if_pos (startsWith_at_of_data _ _ h), substring1_of_data _ _ _ h]
  · unfold parseIdentifier
    rw [h1, h2]
    simp only [Bool.false_eq_true, if_false, if_true, hurl, hparts]
    rw [if_pos (startsWith_at_of_data _ _ hp0), substring1_of_data _ _ _ hp0]

theorem handleForm_ne_empty (urlPathname : String → Except JsError String)
    (identifier name : String) (h : handleForm urlPathname identifier name) :
    identifier ≠ "" := by
  intro he
  rw [he] at h
  rcases h with h | ⟨_, h2, _⟩
  · exact absurd h (by simp)
  · exact absurd h2 (by decide)

/-- In the parsing block a handle, when there is one, is also the name for the username
lookup. -/
theorem parseIdentifier_handle (urlPathname : String → Except JsError String)
    (identifier handleName : String)
    (h : (parseIdentifier urlPathname identifier).handleName = some handleName) :
    (parseIdentifier urlPathname identifier).usernameForApi = handleName := by
  rcases parseIdentifier_cases urlPathname identifier with ⟨_, hp⟩ | ⟨_, hp⟩ |
    ⟨_, _, pathname, p0, rest, _, _, ⟨_, hp⟩ | ⟨u, _, hp⟩⟩
  · rw [hp] at h ⊢
    exact Option.some.inj h
  · rw [hp] at h
    cases h
  · rw [hp] at h ⊢
    exact Option.some.inj h
  · rw [hp] at h
    cases h

theorem pathParts_ne_empty (pathname u : String) (h : u ∈ pathParts pathname) : u ≠ "" := by
  unfold pathParts at h
  rw [List.mem_map] at h
  obtain ⟨p, hp, rfl⟩ := h
  rw [List.mem_filter] at hp
  intro he
  have : p = [] := congrArg String.data he
  rw [this] at hp
  simp at hp

/-- Without a handle the name for the username lookup is the identifier itself or a
segment of the path of the URL. -/
theorem parseIdentifier_no_handle (urlPathname : String → Except JsError String)
    (identifier : String) (h : (parseIdentifier urlPathname identifier).handleName = none) :
    (parseIdentifier urlPathname identifier).usernameForApi = identifier ∨
      ∃ pathname, urlPathname identifier = Except.ok pathname ∧
        (parseIdentifier urlPathname identifier).usernameForApi ∈ pathParts pathname := by
  rcases parseIdentifier_cases urlPathname identifier with ⟨_, hp⟩ | ⟨_, hp⟩ |
    ⟨_, _, pathname, p0, rest, hurl, hparts, ⟨_, hp⟩ | ⟨u, hu, hp⟩⟩
  · rw [hp] at h
    cases h
  · rw [hp]
    exact Or.inl rfl
  · rw [hp] at h
    cases h
  · rw [hp]
    exact Or.inr ⟨pathname, hurl, by rw [hparts]; exact hu⟩

/-- C17 (resolver short-circuit).  For an identifier whose trimmed form starts with "UC" and
has length 24, when the directory lookup by id answers with a first item that has a title,
the resolver makes this one directory request and returns the trimmed identifier with that
title. -/
theorem canonical_id_short_circuit (env : ResolverEnv) (raw : String)
    (item : ChannelResource) (rest : List ChannelResource) (title : JsVal)
    (hkey : env.youtubeApiKey = true)
    (hUC : startsWith (jsTrim raw) "UC" = true) (hlen : jsLength (jsTrim raw) = 24)
    (hdir : env.channelsById (jsTrim raw) = Except.ok (item :: rest))
    (hsn : item.snippetTitle = some title) (ht : title.truthy = true) :
    resolveYouTubeIdentifierToChannelId env (JsVal.str raw) =
      Except.ok { result := some { channelId := JsVal.str (jsTrim raw), channelName := title },
                  calls := [DirectoryCall.channelsById (jsTrim raw)] } := by
  have hc : isCanonicalId (jsTrim raw) = true := by
    simp [isCanonicalId, hUC, hlen]
  have hcheck : canonicalIdCheck env (jsTrim raw) =
      some { channelId := JsVal.str (jsTrim raw), channelName := title } := by
    simp [canonicalIdCheck, hdir, hsn, ht]
  rw [resolve_eq env raw hkey (ne_empty_of_isCanonicalId _ hc), if_pos hc, hcheck]

/-- Witness of C17: the id of `channelY`, typed with blanks around it. -/
theorem canonical_id_short_circuit_witness :
    startsWith (jsTrim " UCaaaaaaaaaaaaaaaaaaaaaa ") "UC" = true ∧
      jsLength (jsTrim " UCaaaaaaaaaaaaaaaaaaaaaa ") = 24 ∧
      resolveYouTubeIdentifierToChannelId directoryY (JsVal.str " UCaaaaaaaaaaaaaaaaaaaaaa ") =
        Except.ok
          { result := some { channelId := JsVal.str (jsTrim " UCaaaaaaaaaaaaaaaaaaaaaa "),
                             channelName := JsVal.str "Y" },
            calls := [DirectoryCall.channelsById (jsTrim " UCaaaaaaaaaaaaaaaaaaaaaa ")] } :=
  ⟨by decide, by decide,
    canonical_id_short_circuit directoryY " UCaaaaaaaaaaaaaaaaaaaaaa "
      { id := JsVal.str "UCaaaaaaaaaaaaaaaaaaaaaa", snippetTitle := some (JsVal.str "Y") } []
      (JsVal.str "Y") rfl (by decide) (by decide) rfl rfl rfl⟩

/-- C18 (resolver ordering).  For an identifier in handle form, `@name` or a profile URL
whose first path segment is `@name`, that the canonical-id check has not resolved: when the
lookup by handle answers with a first item that has a snippet, the resolver returns that
item, whatever the search would answer, and its requests are the id lookup, if the
identifier had the shape of an id, followed by the handle lookup: no lookup by username and
no search. -/
theorem handle_lookup_wins (env : ResolverEnv) (raw name : String) (item : ChannelResource)
    (rest : List ChannelResource) (title : JsVal)
    (hkey : env.youtubeApiKey = true)
    (hform : handleForm env.urlPathname (jsTrim raw) name) (hname : name ≠ "")
    (hfast : isCanonicalId (jsTrim raw) = true → canonicalIdCheck env (jsTrim raw) = none)
    (hdir : env.channelsForHandle name = Except.ok (item :: rest))
    (hsn : item.snippetTitle = some title) :
    resolveYouTubeIdentifierToChannelId env (JsVal.str raw) =
        Except.ok { result := some { channelId := item.id, channelName := title },
                    calls := fastPathCalls (jsTrim raw) ++
                      [DirectoryCall.channelsForHandle name] } ∧
      (∀ u, DirectoryCall.channelsForUsername u ∉
        fastPathCalls (jsTrim raw) ++ [DirectoryCall.channelsForHandle name]) ∧
      (∀ q, DirectoryCall.searchChannels q ∉
        fastPathCalls (jsTrim raw) ++ [DirectoryCall.channelsForHandle name]) ∧
      ((jsTrim raw).data = '@' :: name.data → fastPathCalls (jsTrim raw) = []) := by
  have hne := handleForm_ne_empty _ _ _ hform
  have hfirst : firstChannel (env.channelsForHandle name) =
      some { channelId := item.id, channelName := title } := by
    simp [firstChannel, hdir, hsn]
  refine ⟨?_, ?_, ?_, ?_⟩
  · rw [resolve_eq_handleStep env raw hkey hne hfast, parseIdentifier_handleForm _ _ _ hform]
    simp [handleStep, hname, hfirst]
  · intro u
    unfold fastPathCalls
    split <;> simp
  · intro q
    unfold fastPathCalls
    split <;> simp
  · intro h
    have h1 : "UC".data = ['U', 'C'] := rfl
    have : isCanonicalId (jsTrim raw) = false := by
      simp [isCanonicalId, startsWith, h, h1, List.isPrefixOf]
    simp [fastPathCalls, this]

/-- Witness of C18: the profile URL of the handle `foo`, which the search would find too. -/
theorem handle_lookup_wins_witness :
    handleForm urlPathnameFoo (jsTrim "https://www.youtube.com/@foo") "foo" ∧
      resolveYouTubeIdentifierToChannelId
        (directoryFoo [{ id := JsVal.str "UCgggggggggggggggggggggg",
                         snippetTitle := some (JsVal.str "Foo by handle") }])
        (JsVal.str "https://www.youtube.com/@foo") =
        Except.ok
          { result := some { channelId := JsVal.str "UCgggggggggggggggggggggg",
                             channelName := JsVal.str "Foo by handle" },
            calls := fastPathCalls (jsTrim "https://www.youtube.com/@foo") ++
              [DirectoryCall.channelsForHandle "foo"] } :=
  have hform : handleForm urlPathnameFoo (jsTrim "https://www.youtube.com/@foo") "foo" :=
    Or.inr ⟨by decide, by decide, "/@foo", "@foo", [], rfl, by decide, by decide⟩
  ⟨hform,
    (handle_lookup_wins
      (directoryFoo [{ id := JsVal.str "UCgggggggggggggggggggggg",
                       snippetTitle := some (JsVal.str "Foo by handle") }])
      "https://www.youtube.com/@foo" "foo"
      { id := JsVal.str "UCgggggggggggggggggggggg",
        snippetTitle := some (JsVal.str "Foo by handle") } []
      (JsVal.str "Foo by handle") rfl hform (by decide) (fun _ => rfl) rfl rfl).1⟩

theorem channelsForUsername_not_mem_fastPathCalls (identifier u : String) :
    DirectoryCall.channelsForUsername u ∉ fastPathCalls identifier := by
  unfold fastPathCalls
  split <;> simp

/-- C19, as stated, fails.  The identifier `UCaaaaaaaaaaaaaaaaaaaaaa` has no handle and its
name for the username lookup is the identifier itself, not empty; the canonical-id check
resolves it, and the resolver returns without a lookup by username. -/
theorem canonical_id_skips_username_lookup :
    (parseIdentifier directoryY.urlPathname "UCaaaaaaaaaaaaaaaaaaaaaa").handleName = none ∧
      (parseIdentifier directoryY.urlPathname "UCaaaaaaaaaaaaaaaaaaaaaa").usernameForApi =
        "UCaaaaaaaaaaaaaaaaaaaaaa" ∧
      resolveYouTubeIdentifierToChannelId directoryY (JsVal.str "UCaaaaaaaaaaaaaaaaaaaaaa") =
        Except.ok { result := some { channelId := JsVal.str "UCaaaaaaaaaaaaaaaaaaaaaa",
                                     channelName := JsVal.str "Y" },
                    calls := [DirectoryCall.channelsById "UCaaaaaaaaaaaaaaaaaaaaaa"] } ∧
      DirectoryCall.channelsForUsername "UCaaaaaaaaaaaaaaaaaaaaaa" ∉
        [DirectoryCall.channelsById "UCaaaaaaaaaaaaaaaaaaaaaa"] := by
  refine ⟨by decide, by decide, rfl, by decide⟩

/-- C19, amended.  When the canonical-id check has not resolved the identifier, the
resolver returns and (1) it makes a lookup by username exactly when the name fragment is not
empty and is not the handle; (2) for an identifier from which a handle was extracted and
whose handle lookup gave no result, the requests are the handle lookup followed by the
search for the same name, with no lookup by username; (3) for an identifier with no handle,
the lookup by username is the next request, made with a segment of the URL path or with the
identifier itself. -/
theorem username_lookup_condition (env : ResolverEnv) (raw : String)
    (hkey : env.youtubeApiKey = true) (hne : jsTrim raw ≠ "")
    (hfast : isCanonicalId (jsTrim raw) = true → canonicalIdCheck env (jsTrim raw) = none) :
    ∃ r, resolveYouTubeIdentifierToChannelId env (JsVal.str raw) = Except.ok r ∧
      ((∃ u, DirectoryCall.channelsForUsername u ∈ r.calls) ↔
        ((parseIdentifier env.urlPathname (jsTrim raw)).usernameForApi ≠ "" ∧
          (parseIdentifier env.urlPathname (jsTrim raw)).handleName ≠
            some (parseIdentifier env.urlPathname (jsTrim raw)).usernameForApi)) ∧
      (∀ name, (parseIdentifier env.urlPathname (jsTrim raw)).handleName = some name →
        name ≠ "" → firstChannel (env.channelsForHandle name) = none →
        r.calls = fastPathCalls (jsTrim raw) ++
          [DirectoryCall.channelsForHandle name, DirectoryCall.searchChannels name] ∧
        r.result = firstSearchResult (env.searchChannels name)) ∧
      ((parseIdentifier env.urlPathname (jsTrim raw)).handleName = none →
        ((parseIdentifier env.urlPathname (jsTrim raw)).usernameForApi = jsTrim raw ∨
          ∃ pathname, env.urlPathname (jsTrim raw) = Except.ok pathname ∧
            (parseIdentifier env.urlPathname (jsTrim raw)).usernameForApi ∈
              pathParts pathname) ∧
        ∃ tail, r.calls = fastPathCalls (jsTrim raw) ++
          DirectoryCall.channelsForUsername
            (parseIdentifier env.urlPathname (jsTrim raw)).usernameForApi :: tail) := by
  refine ⟨_, resolve_eq_handleStep env raw hkey hne hfast, ?_⟩
  have hhandle := parseIdentifier_handle env.urlPathname (jsTrim raw)
  have hnohandle := parseIdentifier_no_handle env.urlPathname (jsTrim raw)
  have hfp := channelsForUsername_not_mem_fastPathCalls (jsTrim raw)
  rcases hparsed : parseIdentifier env.urlPathname (jsTrim raw) with ⟨hn, u⟩
  rw [hparsed] at hhandle hnohandle
  cases hn with
  | some h =>
    have hu : u = h := hhandle h rfl
    subst hu
    have hnone : ∀ w, DirectoryCall.channelsForUsername w ∉
        (handleStep env (jsTrim raw) { handleName := some u, usernameForApi := u }
          (fastPathCalls (jsTrim raw))).calls := by
      intro w
      by_cases hu : u = ""
      · simp [handleStep, usernameStep, searchStep, hu, hfp]
      · rcases hf : firstChannel (env.channelsForHandle u) with _ | r'
        · simp [handleStep, usernameStep, searchStep, hu, hf, hfp]
        · simp [handleStep, hu, hf, hfp]
    refine ⟨?_, ?_, ?_⟩
    · constructor
      · rintro ⟨w, hw⟩
        exact absurd hw (hnone w)
      · rintro ⟨_, h2⟩
        exact absurd rfl h2
    · intro name hname hne2 hf
      have hname2 : u = name := Option.some.inj hname
      subst hname2
      simp [handleStep, usernameStep, searchStep, hne2, hf]
    · intro h
      cases h
  | none =>
    have hu : u ≠ "" := by
      rcases hnohandle rfl with h | ⟨pathname, _, hmem⟩
      · simp only at h
        rw [h]
        exact hne
      · exact pathParts_ne_empty pathname u hmem
    have hcalls : ∃ tail,
        (handleStep env (jsTrim raw) { handleName := none, usernameForApi := u }
          (fastPathCalls (jsTrim raw))).calls =
        fastPathCalls (jsTrim raw) ++ DirectoryCall.channelsForUsername u :: tail := by
      rcases hf : firstChannel (env.channelsForUsername u) with _ | r'
      · exact ⟨[DirectoryCall.searchChannels u], by
          simp [handleStep, usernameStep, searchStep, hu, hf]⟩
      · exact ⟨[], by simp [handleStep, usernameStep, hu, hf]⟩
    refine ⟨?_, ?_, ?_⟩
    · constructor
      · intro _
        exact ⟨hu, by simp⟩
      · intro _
        obtain ⟨tail, ht⟩ := hcalls
        exact ⟨u, by rw [ht]; simp⟩
    · intro name hname
      cases hname
    · intro _
      exact ⟨hnohandle rfl, hcalls⟩

/-- Witness of C19 (amended): the handle `foo`, not found by handle, goes on to the search. -/
theorem username_lookup_condition_witness :
    (directoryFoo []).youtubeApiKey = true ∧ jsTrim "@foo" ≠ "" ∧
      (isCanonicalId (jsTrim "@foo") = true →
        canonicalIdCheck (directoryFoo []) (jsTrim "@foo") = none) ∧
      ∃ r, resolveYouTubeIdentifierToChannelId (directoryFoo []) (JsVal.str "@foo") =
          Except.ok r ∧
        ((∃ u, DirectoryCall.channelsForUsername u ∈ r.calls) ↔
          ((parseIdentifier (directoryFoo []).urlPathname (jsTrim "@foo")).usernameForApi ≠ "" ∧
            (parseIdentifier (directoryFoo []).urlPathname (jsTrim "@foo")).handleName ≠
              some (parseIdentifier (directoryFoo []).urlPathname
                (jsTrim "@foo")).usernameForApi)) :=
  ⟨rfl, by decide, fun _ => rfl,
    (username_lookup_condition (directoryFoo []) "@foo" rfl (by decide) (fun _ => rfl)).imp
      (fun _ h => ⟨h.1, h.2.1⟩)⟩

/-- C20, evaluated on the code.  The lookup by handle answers with an item that has a
snippet and no `id`: the resolver returns `{ channelId: undefined, channelName: "Foo" }`
and stops, whereas with the same lookup answering with no channel the chain goes on to the
search and resolves the channel. -/
theorem malformed_item_is_returned :
    resolveYouTubeIdentifierToChannelId
        (directoryFoo [{ id := JsVal.undefined, snippetTitle := some (JsVal.str "Foo") }])
        (JsVal.str "@foo") =
        Except.ok { result := some { channelId := JsVal.undefined,
                                     channelName := JsVal.str "Foo" },
                    calls := [DirectoryCall.channelsForHandle "foo"] } ∧
      resolveYouTubeIdentifierToChannelId (directoryFoo []) (JsVal.str "@foo") =
        Except.ok { result := some { channelId := JsVal.str "UCffffffffffffffffffffff",
                                     channelName := JsVal.str "Foo" },
                    calls := [DirectoryCall.channelsForHandle "foo",
                      DirectoryCall.searchChannels "foo"] } := by
  exact ⟨rfl, rfl⟩

/-! ## Invalid identifiers -/

/-- C21: for an identifier that is not a string, or is a string that is empty after trimming,
the resolver stops before any directory request. With an API key configured it returns the
empty outcome (`null` in the source, logged as "empty or invalid identifier") and its trace of
directory calls is empty; without one `loadConfig` throws first, so whenever the resolver
returns at all the result is that same outcome with no call made. -/
theorem invalid_identifier_fails_immediately (env : ResolverEnv) (identifier : JsVal)
    (hinvalid : ∀ raw, identifier = JsVal.str raw → jsTrim raw = "") :
    (env.youtubeApiKey = true →
      resolveYouTubeIdentifierToChannelId env identifier =
        Except.ok { result := none, calls := [] }) ∧
    (env.youtubeApiKey = false →
      resolveYouTubeIdentifierToChannelId env identifier = Except.error JsError.apiError) ∧
    (∀ r, resolveYouTubeIdentifierToChannelId env identifier = Except.ok r →
      r.result = none ∧ r.calls = []) := by
  have hmain : env.youtubeApiKey = true →
      resolveYouTubeIdentifierToChannelId env identifier =
        Except.ok { result := none, calls := [] } := by
    intro hkey
    unfold resolveYouTubeIdentifierToChannelId
    cases identifier with
    | undefined => simp [hkey]
    | null => simp [hkey]
    | str raw =>
      have h := hinvalid raw rfl
      simp [hkey, h]
  refine ⟨hmain, ?_, ?_⟩
  · intro hkey
    unfold resolveYouTubeIdentifierToChannelId
    simp [hkey]
  · intro r hr
    cases hkey : env.youtubeApiKey with
    | true =>
      rw [hmain hkey] at hr
      cases hr
      exact ⟨rfl, rfl⟩
    | false =>
      unfold resolveYouTubeIdentifierToChannelId at hr
      simp [hkey] at hr

theorem invalid_identifier_fails_immediately_witness :
    resolveYouTubeIdentifierToChannelId directoryY (JsVal.str "  \t ") =
        Except.ok { result := none, calls := [] } ∧
      resolveYouTubeIdentifierToChannelId directoryY JsVal.undefined =
        Except.ok { result := none, calls := [] } :=
  ⟨(invalid_identifier_fails_immediately directoryY (JsVal.str "  \t ")
      (fun raw h => by cases h; decide)).1 rfl,
   (invalid_identifier_fails_immediately directoryY JsVal.undefined
      (fun raw h => by cases h)).1 rfl⟩

/-! ## One channel tracked for two users -/

theorem primeCooldown_not_found (disk : Disk) (primeClock : Int) (streamData : StreamData)
    (streamId : String) (m : AnnouncedStreams)
    (h : alreadyKnownStream
      (readUserActivity disk streamData.targetUserId streamData.platform
        streamData.streamerChannelId) streamData.startedAt = Except.ok none) :
    primeCooldown false disk primeClock streamData streamId m = m := by
  simp [primeCooldown, h]

/-- A non-manual iteration for a live candidate that is not found in the stored sessions and
whose key has an entry `t` with `now - t` within the cooldown sends nothing. -/
theorem checkChannel_silenced (client : Bool) (config : Config) (disk : Disk)
    (env : ChannelEnv) (channel : TrackedChannel) (st : CycleState)
    (streamDetails : StreamDetails) (t : Int) (hp : supportedPlatform channel.platform)
    (hs : env.status = Except.ok (some streamDetails))
    (hl : isLiveMunchy (some streamDetails) = true)
    (hfind : alreadyKnownStream
      (readUserActivity disk channel.targetUserId channel.platform channel.channelId)
      streamDetails.startedAt = Except.ok none)
    (hget : st.announcedStreams.get (streamIdOf channel.platform channel.channelId) = some t)
    (hgap : env.now - t ≤ announcementCooldownMs config) :
    checkChannel client config false disk env channel st =
      { st with
        liveMunchyStreams := st.liveMunchyStreams ++ [mkStreamData channel streamDetails] } := by
  rw [checkChannel_candidate client config false disk env channel st streamDetails hp hs hl]
  have hprimed : primed false disk env channel streamDetails st =
      { st with
        liveMunchyStreams := st.liveMunchyStreams ++ [mkStreamData channel streamDetails] } := by
    unfold primed
    rw [primeCooldown_not_found disk env.primeClock (mkStreamData channel streamDetails)
      (streamIdOf channel.platform channel.channelId) st.announcedStreams hfind]
  rw [hprimed]
  have hno : shouldAnnounce st.announcedStreams (streamIdOf channel.platform channel.channelId)
      false env.now (announcementCooldownMs config) = false := by
    rw [shouldAnnounce_of_get _ _ t _ _ hget]
    simpa using hgap
  simp only [hno]
  rfl

/-- A non-manual iteration for a live candidate that is not found in the stored sessions,
whose key has no entry, with the clock past the cooldown and a working sink, sends the
notification and records its time. -/
theorem checkChannel_announces_not_found (client : Bool) (config : Config) (disk : Disk)
    (env : ChannelEnv) (channel : TrackedChannel) (st : CycleState)
    (streamDetails : StreamDetails) (hp : supportedPlatform channel.platform)
    (hs : env.status = Except.ok (some streamDetails))
    (hl : isLiveMunchy (some streamDetails) = true)
    (hfind : alreadyKnownStream
      (readUserActivity disk channel.targetUserId channel.platform channel.channelId)
      streamDetails.startedAt = Except.ok none)
    (hnone : st.announcedStreams.get (streamIdOf channel.platform channel.channelId) = none)
    (hclock : announcementCooldownMs config < env.now)
    (hd : delivered client config env = true) :
    checkChannel client config false disk env channel st =
      { liveMunchyStreams := st.liveMunchyStreams ++ [mkStreamData channel streamDetails],
        announcedStreams :=
          st.announcedStreams.set (streamIdOf channel.platform channel.channelId) env.now,
        sent := st.sent ++
          [{ content := none, stream := mkStreamData channel streamDetails }] } := by
  rw [checkChannel_candidate client config false disk env channel st streamDetails hp hs hl]
  have hprimed : primed false disk env channel streamDetails st =
      { st with
        liveMunchyStreams := st.liveMunchyStreams ++ [mkStreamData channel streamDetails] } := by
    unfold primed
    rw [primeCooldown_not_found disk env.primeClock (mkStreamData channel streamDetails)
      (streamIdOf channel.platform channel.channelId) st.announcedStreams hfind]
  rw [hprimed]
  have hyes : shouldAnnounce st.announcedStreams (streamIdOf channel.platform channel.channelId)
      false env.now (announcementCooldownMs config) = true := by
    rw [shouldAnnounce_of_get_none _ _ _ _ hnone]
    simpa using hclock
  simp only [hyes, if_true]
  rw [announce_eq, hd]
  simp

/-- C26: the cooldown key is `platform_channelId` and does not mention the owning user. In a
non-manual cycle in which `first` and `second` track the same platform and channel for two
different users (no entry before or between them has that key), both are live with a title
that passes the filter, neither user's stored sessions hold the start time, the key has no
cooldown entry, the first notification goes out, and the second entry is processed within
the cooldown after the first, exactly one notification is sent for the first entry and none
for the second, while both events are in the list returned for persistence. -/
theorem shared_key_second_user_not_notified (client : Bool) (config : Config) (disk : Disk)
    (world : Nat → ChannelEnv) (announced : AnnouncedStreams) (sent : List Announcement)
    (pre mid post : List TrackedChannel) (first second : TrackedChannel)
    (d1 d2 : StreamDetails)
    (hcfg : config.trackedChannels = some (pre ++ first :: (mid ++ second :: post)))
    (hp : supportedPlatform first.platform)
    (hplat : second.platform = first.platform) (hid : second.channelId = first.channelId)
    (_huser : second.targetUserId ≠ first.targetUserId)
    (hpre : ∀ d ∈ pre, ¬(d.platform = first.platform ∧ d.channelId = first.channelId))
    (hmid : ∀ d ∈ mid, ¬(d.platform = first.platform ∧ d.channelId = first.channelId))
    (hs1 : (world pre.length).status = Except.ok (some d1))
    (hl1 : isLiveMunchy (some d1) = true)
    (hs2 : (world (pre.length + 1 + mid.length)).status = Except.ok (some d2))
    (hl2 : isLiveMunchy (some d2) = true)
    (hfind1 : alreadyKnownStream
      (readUserActivity disk first.targetUserId first.platform first.channelId)
      d1.startedAt = Except.ok none)
    (hfind2 : alreadyKnownStream
      (readUserActivity disk second.targetUserId second.platform second.channelId)
      d2.startedAt = Except.ok none)
    (hnone : announced.get (streamIdOf first.platform first.channelId) = none)
    (hclock : announcementCooldownMs config < (world pre.length).now)
    (hd : delivered client config (world pre.length) = true)
    (hgap : (world (pre.length + 1 + mid.length)).now - (world pre.length).now ≤
      announcementCooldownMs config) :
    streamIdOf second.platform second.channelId = streamIdOf first.platform first.channelId ∧
    (checkChannel client config false disk (world pre.length) first
        (checkChannels client config false disk world 0 pre (initialState announced sent))).sent =
      (checkChannels client config false disk world 0 pre (initialState announced sent)).sent ++
        [{ content := none, stream := mkStreamData first d1 }] ∧
    (checkChannel client config false disk (world (pre.length + 1 + mid.length)) second
        (checkChannels client config false disk world (pre.length + 1) mid
          (checkChannel client config false disk (world pre.length) first
            (checkChannels client config false disk world 0 pre
              (initialState announced sent))))).sent =
      (checkChannels client config false disk world (pre.length + 1) mid
          (checkChannel client config false disk (world pre.length) first
            (checkChannels client config false disk world 0 pre
              (initialState announced sent)))).sent ∧
    checkAllTrackedChannels client (Except.ok config) false disk world announced sent =
      checkChannels client config false disk world (pre.length + 1 + mid.length + 1) post
        (checkChannel client config false disk (world (pre.length + 1 + mid.length)) second
          (checkChannels client config false disk world (pre.length + 1) mid
            (checkChannel client config false disk (world pre.length) first
              (checkChannels client config false disk world 0 pre
                (initialState announced sent))))) ∧
    mkStreamData first d1 ∈ (checkAllTrackedChannels client (Except.ok config) false disk
      world announced sent).liveMunchyStreams ∧
    mkStreamData second d2 ∈ (checkAllTrackedChannels client (Except.ok config) false disk
      world announced sent).liveMunchyStreams := by
  have hkey : streamIdOf second.platform second.channelId =
      streamIdOf first.platform first.channelId := by rw [hplat, hid]
  have hp2 : supportedPlatform second.platform := by rw [hplat]; exact hp
  have hnone1 : (checkChannels client config false disk world 0 pre
      (initialState announced sent)).announcedStreams.get
        (streamIdOf first.platform first.channelId) = none := by
    rw [checkChannels_get_other client config false disk world first hp pre 0 _ hpre]
    exact hnone
  have hstep1 := checkChannel_announces_not_found client config disk (world pre.length) first
    (checkChannels client config false disk world 0 pre (initialState announced sent))
    d1 hp hs1 hl1 hfind1 hnone1 hclock hd
  have hget3 : (checkChannels client config false disk world (pre.length + 1) mid
      (checkChannel client config false disk (world pre.length) first
        (checkChannels client config false disk world 0 pre
          (initialState announced sent)))).announcedStreams.get
        (streamIdOf second.platform second.channelId) = some (world pre.length).now := by
    rw [hkey, checkChannels_get_other client config false disk world first hp mid
      (pre.length + 1) _ hmid, hstep1]
    show AnnouncedStreams.get (AnnouncedStreams.set _ _ _) _ = _
    rw [get_set, if_pos rfl]
  have hstep2 := checkChannel_silenced client config disk (world (pre.length + 1 + mid.length))
    second (checkChannels client config false disk world (pre.length + 1) mid
      (checkChannel client config false disk (world pre.length) first
        (checkChannels client config false disk world 0 pre (initialState announced sent))))
    d2 (world pre.length).now hp2 hs2 hl2 hfind2 hget3 hgap
  have hall : checkAllTrackedChannels client (Except.ok config) false disk world announced sent =
      checkChannels client config false disk world (pre.length + 1 + mid.length + 1) post
        (checkChannel client config false disk (world (pre.length + 1 + mid.length)) second
          (checkChannels client config false disk world (pre.length + 1) mid
            (checkChannel client config false disk (world pre.length) first
              (checkChannels client config false disk world 0 pre
                (initialState announced sent))))) := by
    rw [checkAllTrackedChannels_eq client config false disk world announced sent _ hcfg,
      checkChannels_append, Nat.zero_add, checkChannels, checkChannels_append, checkChannels]
  refine ⟨hkey, ?_, ?_, hall, ?_, ?_⟩
  · rw [hstep1]
  · rw [hstep2]
  · rw [hall]
    apply checkChannels_live_mono
    apply checkChannel_live_mono
    apply checkChannels_live_mono
    rw [hstep1]
    simp
  · rw [hall]
    apply checkChannels_live_mono
    rw [hstep2]
    simp

theorem shared_key_second_user_not_notified_witness :
    (checkAllTrackedChannels true (Except.ok configShared) false (fun _ => FileState.missing)
        (fun i => workingEnv snapshotA (1714558000000 + i)) [] []).sent =
      [{ content := none, stream := mkStreamData channelA snapshotA }] ∧
    mkStreamData channelA2 snapshotA ∈
      (checkAllTrackedChannels true (Except.ok configShared) false (fun _ => FileState.missing)
        (fun i => workingEnv snapshotA (1714558000000 + i)) [] []).liveMunchyStreams :=
  ⟨by decide,
   (shared_key_second_user_not_notified true configShared (fun _ => FileState.missing)
      (fun i => workingEnv snapshotA (1714558000000 + i)) [] [] [] [] [] channelA channelA2
      snapshotA snapshotA rfl (by decide) rfl rfl (by decide) (by simp) (by simp) rfl rfl rfl rfl
      rfl rfl rfl (by decide) (by decide) (by decide)).2.2.2.2.2⟩

/-! ## Registration -/

theorem noDupTriples_append_singleton (l : List ChannelEntry) (e : ChannelEntry)
    (h : NoDupTriples l) (hnew : ∀ ch ∈ l, ¬sameTriple ch e) : NoDupTriples (l ++ [e]) := by
  unfold NoDupTriples at *
  rw [List.pairwise_append]
  refine ⟨h, List.pairwise_singleton _ _, ?_⟩
  intro a ha b hb
  rw [List.mem_singleton] at hb
  rw [hb]
  exact hnew a ha

theorem find_none_no_sameTriple (l : List ChannelEntry) (platform channelId targetUserId : String)
    (channelName : JsVal) (channelLink : String)
    (h : l.find? (fun ch => ch.platform == platform && ch.channelId == channelId &&
      ch.targetUserId == targetUserId) = none) :
    ∀ ch ∈ l, ¬sameTriple ch
      { platform := platform, channelId := channelId, channelName := channelName,
        channelLink := channelLink, targetUserId := targetUserId } := by
  intro ch hch hsame
  rw [List.find?_eq_none] at h
  have := h ch hch
  obtain ⟨h1, h2, h3⟩ := hsame
  simp only [] at h1 h2 h3
  simp [h1, h2, h3] at this

/-- Appending an entry whose triple the duplicate search did not find keeps the list free of
duplicate triples. -/
theorem registration_step (before : Option (List ChannelEntry))
    (l : List ChannelEntry) (platform channelId targetUserId : String) (channelName : JsVal)
    (channelLink : String)
    (hfind : l.find? (fun ch => ch.platform == platform && ch.channelId == channelId &&
      ch.targetUserId == targetUserId) = none)
    (hl : l = before.getD []) (hnodup : NoDupTriples (before.getD [])) :
    NoDupTriples (l ++
      [{ platform := platform, channelId := channelId, channelName := channelName,
         channelLink := channelLink, targetUserId := targetUserId }]) := by
  apply noDupTriples_append_singleton
  · rw [hl]; exact hnodup
  · exact find_none_no_sameTriple l platform channelId targetUserId channelName channelLink hfind

theorem registrationEffect_unchanged (before : Option (List ChannelEntry))
    (reply : RegistrationReply) (platform targetUserId : String)
    (hnodup : NoDupTriples (before.getD [])) (hr : reply ≠ RegistrationReply.added) :
    RegistrationEffect before (reply, before) platform targetUserId :=
  ⟨hnodup, fun _ => rfl, fun h => absurd h hr⟩

theorem registrationEffect_added (before : Option (List ChannelEntry))
    (platform channelId targetUserId : String) (channelName : JsVal) (channelLink : String)
    (hnodup : NoDupTriples (before.getD []))
    (hfind : (before.getD []).find? (fun ch => ch.platform == platform &&
      ch.channelId == channelId && ch.targetUserId == targetUserId) = none) :
    RegistrationEffect before
      (RegistrationReply.added, some (before.getD [] ++
        [{ platform := platform, channelId := channelId, channelName := channelName,
           channelLink := channelLink, targetUserId := targetUserId }]))
      platform targetUserId :=
  ⟨registration_step before _ platform channelId targetUserId channelName channelLink hfind rfl
      hnodup,
    fun h => absurd rfl h,
    fun _ => ⟨_, rfl, rfl,
      find_none_no_sameTriple _ platform channelId targetUserId channelName channelLink hfind,
      rfl⟩⟩

/-- The tail shared by both paths: the duplicate search, then the push and the write. -/
theorem registrationEffect_tail (before : Option (List ChannelEntry)) (writeOk : Bool)
    (platform channelId targetUserId : String) (channelName : JsVal) (channelLink : String)
    (hnodup : NoDupTriples (before.getD [])) :
    RegistrationEffect before
      (match (before.getD []).find? (fun ch => ch.platform == platform &&
          ch.channelId == channelId && ch.targetUserId == targetUserId) with
        | some _ => (RegistrationReply.alreadyTracked, before)
        | none =>
          if writeOk then
            (RegistrationReply.added, some (before.getD [] ++
              [{ platform := platform, channelId := channelId, channelName := channelName,
                 channelLink := channelLink, targetUserId := targetUserId }]))
          else (RegistrationReply.failed, before))
      platform targetUserId := by
  cases hfind : (before.getD []).find? (fun ch => ch.platform == platform &&
      ch.channelId == channelId && ch.targetUserId == targetUserId) with
  | some found =>
    exact registrationEffect_unchanged before _ platform targetUserId hnodup (by decide)
  | none =>
    cases writeOk with
    | true =>
      exact registrationEffect_added before platform channelId targetUserId channelName
        channelLink hnodup hfind
    | false =>
      exact registrationEffect_unchanged before _ platform targetUserId hnodup (by decide)

theorem trackExecute_effect (env : ResolverEnv) (writeOk : Bool)
    (before : Option (List ChannelEntry)) (platform channelLink targetUserId : String)
    (hnodup : NoDupTriples (before.getD [])) :
    RegistrationEffect before
      (trackExecute env writeOk before platform channelLink targetUserId)
      platform targetUserId := by
  unfold trackExecute
  dsimp only
  split
  · rename_i reply hres
    apply registrationEffect_unchanged before _ platform targetUserId hnodup
    intro hadd
    rw [hadd] at hres
    split at hres
    · split at hres <;> cases hres
    · split at hres
      · split at hres
        · cases hres
        · split at hres
          · split at hres
            · split at hres <;> cases hres
            · cases hres
          · cases hres
      · cases hres
  · rename_i channelId channelName hres
    exact registrationEffect_tail before writeOk platform channelId targetUserId channelName
      channelLink hnodup

theorem addChannelModal_effect (env : ResolverEnv) (fetchUserOk writeOk : Bool)
    (before : Option (List ChannelEntry)) (targetUserId platformInput channelInput : String)
    (hnodup : NoDupTriples (before.getD [])) :
    RegistrationEffect before
      (addChannelModal env fetchUserOk writeOk before targetUserId platformInput channelInput)
      "YouTube" targetUserId := by
  unfold addChannelModal
  dsimp only
  split
  · exact registrationEffect_unchanged before _ _ targetUserId hnodup (by decide)
  · rename_i normalizedPlatform hnorm
    split
    · exact registrationEffect_unchanged before _ _ targetUserId hnodup (by decide)
    · split
      · exact registrationEffect_unchanged before _ _ targetUserId hnodup (by decide)
      · rename_i hnot
        have hyt : normalizedPlatform = "YouTube" := by
          split at hnorm
          · cases hnorm
            simp at hnot
          · split at hnorm
            · cases hnorm; rfl
            · cases hnorm
        rw [hyt]
        split
        · exact registrationEffect_unchanged before _ _ targetUserId hnodup (by decide)
        · split
          · exact registrationEffect_unchanged before _ _ targetUserId hnodup (by decide)
          · split
            · split
              · exact registrationEffect_tail before writeOk "YouTube" _ targetUserId _ _ hnodup
              · exact registrationEffect_unchanged before _ _ targetUserId hnodup (by decide)
            · exact registrationEffect_unchanged before _ _ targetUserId hnodup (by decide)

/-- Both registration paths keep `trackedChannels` free of duplicate triples. If no two
entries of the list share (platform, channelId, targetUserId) before the track command or
the add-channel modal runs, none do afterwards; the field is left exactly as it was unless
the path answers with its success message, and then exactly one entry has been appended to
the unchanged existing entries, with a triple that no existing entry has (so a triple that is
already in the list is never added again). -/
theorem registration_keeps_triples_unique (env : ResolverEnv) (fetchUserOk writeOk : Bool)
    (before : Option (List ChannelEntry))
    (platform channelLink targetUserId platformInput channelInput : String)
    (hnodup : NoDupTriples (before.getD [])) :
    RegistrationEffect before
        (trackExecute env writeOk before platform channelLink targetUserId)
        platform targetUserId ∧
      RegistrationEffect before
        (addChannelModal env fetchUserOk writeOk before targetUserId platformInput channelInput)
        "YouTube" targetUserId :=
  ⟨trackExecute_effect env writeOk before platform channelLink targetUserId hnodup,
   addChannelModal_effect env fetchUserOk writeOk before targetUserId platformInput
     channelInput hnodup⟩

theorem registration_keeps_triples_unique_witness :
    NoDupTriples [entryY] ∧
      trackExecute directoryY true (some [entryY]) "YouTube" "UCaaaaaaaaaaaaaaaaaaaaaa" "42" =
        (RegistrationReply.alreadyTracked, some [entryY]) ∧
      trackExecute directoryY true (some [entryY]) "Twitch" "https://www.twitch.tv/foo?x=1" "42" =
        (RegistrationReply.added, some [entryY,
          { platform := "Twitch", channelId := "foo", channelName := JsVal.str "foo",
            channelLink := "https://www.twitch.tv/foo?x=1", targetUserId := "42" }]) ∧
      RegistrationEffect (some [entryY])
        (addChannelModal directoryY true true (some [entryY]) "43" " youtube "
          " UCaaaaaaaaaaaaaaaaaaaaaa ") "YouTube" "43" :=
  ⟨by decide, by decide, by decide,
   (registration_keeps_triples_unique directoryY true true (some [entryY]) "Twitch"
      "https://www.twitch.tv/foo?x=1" "43" " youtube " " UCaaaaaaaaaaaaaaaaaaaaaa "
      (by decide)).2⟩

/-! ## Lemmas on dates -/

theorem dayFromYear_step (y : Int) :
    dayFromYear y + 365 ≤ dayFromYear (y + 1) ∧ dayFromYear (y + 1) ≤ dayFromYear y + 366 := by
  unfold dayFromYear
  omega

theorem inLeapYear_range (y : Int) : 0 ≤ inLeapYear y ∧ inLeapYear y ≤ 1 := by
  have := dayFromYear_step y
  unfold inLeapYear
  omega

theorem dayFromYear_mono (y z : Int) (h : y ≤ z) : dayFromYear y ≤ dayFromYear z := by
  unfold dayFromYear
  omega

theorem yearFromDay_spec (d : Int) :
    dayFromYear (yearFromDay d) ≤ d ∧ d < dayFromYear (yearFromDay d + 1) := by
  have hup : d < dayFromYear (1970 + 400 * d / 146097 + 2) := by
    unfold dayFromYear
    omega
  have hlo : dayFromYear (1970 + 400 * d / 146097 - 1) ≤ d := by
    unfold dayFromYear
    omega
  unfold yearFromDay
  split
  · rename_i h
    refine ⟨h, ?_⟩
    have : 1970 + 400 * d / 146097 + 1 + 1 = 1970 + 400 * d / 146097 + 2 := by ring
    rw [this]
    exact hup
  · rename_i h
    split
    · rename_i h2
      exact ⟨h2, by omega⟩
    · rename_i h2
      refine ⟨hlo, ?_⟩
      have : 1970 + 400 * d / 146097 - 1 + 1 = 1970 + 400 * d / 146097 := by ring
      rw [this]
      omega

theorem yearFromDay_unique (d y : Int) (h1 : dayFromYear y ≤ d) (h2 : d < dayFromYear (y + 1)) :
    yearFromDay d = y := by
  obtain ⟨h3, h4⟩ := yearFromDay_spec d
  by_contra hne
  rcases lt_or_gt_of_ne hne with hlt | hgt
  · have := dayFromYear_mono (yearFromDay d + 1) y (by omega)
    omega
  · have := dayFromYear_mono (y + 1) (yearFromDay d) (by omega)
    omega

theorem monthStart_0 (leap : Int) : monthStart leap 0 = 0 := rfl

theorem monthStart_1 (leap : Int) : monthStart leap 1 = 31 := rfl

theorem monthStart_2 (leap : Int) : monthStart leap 2 = 59 + leap := rfl

theorem monthStart_3 (leap : Int) : monthStart leap 3 = 90 + leap := rfl

theorem monthStart_4 (leap : Int) : monthStart leap 4 = 120 + leap := rfl

theorem monthStart_5 (leap : Int) : monthStart leap 5 = 151 + leap := rfl

theorem monthStart_6 (leap : Int) : monthStart leap 6 = 181 + leap := rfl

theorem monthStart_7 (leap : Int) : monthStart leap 7 = 212 + leap := rfl

theorem monthStart_8 (leap : Int) : monthStart leap 8 = 243 + leap := rfl

theorem monthStart_9 (leap : Int) : monthStart leap 9 = 273 + leap := rfl

theorem monthStart_10 (leap : Int) : monthStart leap 10 = 304 + leap := rfl

theorem monthStart_11 (leap : Int) : monthStart leap 11 = 334 + leap := rfl

theorem monthStart_12 (leap : Int) : monthStart leap 12 = 365 + leap := rfl

theorem monthFromDayInYear_0 (leap d : Int) (h0 : d < 31) :
    monthFromDayInYear leap d = 0 := by
  unfold monthFromDayInYear
  rw [if_pos h0]

theorem monthFromDayInYear_1 (leap d : Int) (h0 : ¬d < 31) (h1 : d < 59 + leap) :
    monthFromDayInYear leap d = 1 := by
  unfold monthFromDayInYear
  rw [if_neg h0, if_pos h1]

theorem monthFromDayInYear_2 (leap d : Int) (h0 : ¬d < 31) (h1 : ¬d < 59 + leap) (h2 : d < 90 + leap) :
    monthFromDayInYear leap d = 2 := by
  unfold monthFromDayInYear
  rw [if_neg h0, if_neg h1, if_pos h2]

theorem monthFromDayInYear_3 (leap d : Int) (h0 : ¬d < 31) (h1 : ¬d < 59 + leap) (h2 : ¬d < 90 + leap) (h3 : d < 120 + leap) :
    monthFromDayInYear leap d = 3 := by
  unfold monthFromDayInYear
  rw [if_neg h0, if_neg h1, if_neg h2, if_pos h3]

theorem monthFromDayInYear_4 (leap d : Int) (h0 : ¬d < 31) (h1 : ¬d < 59 + leap) (h2 : ¬d < 90 + leap) (h3 : ¬d < 120 + leap) (h4 : d < 151 + leap) :
    monthFromDayInYear leap d = 4 := by
  unfold monthFromDayInYear
  rw [if_neg h0, if_neg h1, if_neg h2, if_neg h3, if_pos h4]

theorem monthFromDayInYear_5 (leap d : Int) (h0 : ¬d < 31) (h1 : ¬d < 59 + leap) (h2 : ¬d < 90 + leap) (h3 : ¬d < 120 + leap) (h4 : ¬d < 151 + leap) (h5 : d < 181 + leap) :
    monthFromDayInYear leap d = 5 := by
  unfold monthFromDayInYear
  rw [if_neg h0, if_neg h1, if_neg h2, if_neg h3, if_neg h4, if_pos h5]

theorem monthFromDayInYear_6 (leap d : Int) (h0 : ¬d < 31) (h1 : ¬d < 59 + leap) (h2 : ¬d < 90 + leap) (h3 : ¬d < 120 + leap) (h4 : ¬d < 151 + leap) (h5 : ¬d < 181 + leap) (h6 : d < 212 + leap) :
    monthFromDayInYear leap d = 6 := by
  unfold monthFromDayInYear
  rw [if_neg h0, if_neg h1, if_neg h2, if_neg h3, if_neg h4, if_neg h5, if_pos h6]

theorem monthFromDayInYear_7 (leap d : Int) (h0 : ¬d < 31) (h1 : ¬d < 59 + leap) (h2 : ¬d < 90 + leap) (h3 : ¬d < 120 + leap) (h4 : ¬d < 151 + leap) (h5 : ¬d < 181 + leap) (h6 : ¬d < 212 + leap) (h7 : d < 243 + leap) :
    monthFromDayInYear leap d = 7 := by
  unfold monthFromDayInYear
  rw [if_neg h0, if_neg h1, if_neg h2, if_neg h3, if_neg h4, if_neg h5, if_neg h6, if_pos h7]

theorem monthFromDayInYear_8 (leap d : Int) (h0 : ¬d < 31) (h1 : ¬d < 59 + leap) (h2 : ¬d < 90 + leap) (h3 : ¬d < 120 + leap) (h4 : ¬d < 151 + leap) (h5 : ¬d < 181 + leap) (h6 : ¬d < 212 + leap) (h7 : ¬d < 243 + leap) (h8 : d < 273 + leap) :
    monthFromDayInYear leap d = 8 := by
  unfold monthFromDayInYear
  rw [if_neg h0, if_neg h1, if_neg h2, if_neg h3, if_neg h4, if_neg h5, if_neg h6, if_neg h7, if_pos h8]

theorem monthFromDayInYear_9 (leap d : Int) (h0 : ¬d < 31) (h1 : ¬d < 59 + leap) (h2 : ¬d < 90 + leap) (h3 : ¬d < 120 + leap) (h4 : ¬d < 151 + leap) (h5 : ¬d < 181 + leap) (h6 : ¬d < 212 + leap) (h7 : ¬d < 243 + leap) (h8 : ¬d < 273 + leap) (h9 : d < 304 + leap) :
    monthFromDayInYear leap d = 9 := by
  unfold monthFromDayInYear
  rw [if_neg h0, if_neg h1, if_neg h2, if_neg h3, if_neg h4, if_neg h5, if_neg h6, if_neg h7, if_neg h8, if_pos h9]

theorem monthFromDayInYear_10 (leap d : Int) (h0 : ¬d < 31) (h1 : ¬d < 59 + leap) (h2 : ¬d < 90 + leap) (h3 : ¬d < 120 + leap) (h4 : ¬d < 151 + leap) (h5 : ¬d < 181 + leap) (h6 : ¬d < 212 + leap) (h7 : ¬d < 243 + leap) (h8 : ¬d < 273 + leap) (h9 : ¬d < 304 + leap) (h10 : d < 334 + leap) :
    monthFromDayInYear leap d = 10 := by
  unfold monthFromDayInYear
  rw [if_neg h0, if_neg h1, if_neg h2, if_neg h3, if_neg h4, if_neg h5, if_neg h6, if_neg h7, if_neg h8, if_neg h9, if_pos h10]

theorem monthFromDayInYear_11 (leap d : Int) (h0 : ¬d < 31) (h1 : ¬d < 59 + leap) (h2 : ¬d < 90 + leap) (h3 : ¬d < 120 + leap) (h4 : ¬d < 151 + leap) (h5 : ¬d < 181 + leap) (h6 : ¬d < 212 + leap) (h7 : ¬d < 243 + leap) (h8 : ¬d < 273 + leap) (h9 : ¬d < 304 + leap) (h10 : ¬d < 334 + leap) :
    monthFromDayInYear leap d = 11 := by
  unfold monthFromDayInYear
  rw [if_neg h0, if_neg h1, if_neg h2, if_neg h3, if_neg h4, if_neg h5, if_neg h6, if_neg h7, if_neg h8, if_neg h9, if_neg h10]

theorem monthFromDayInYear_cases (leap d : Int) :
    (monthFromDayInYear leap d = 0 ∧ d < 31) ∨
      (monthFromDayInYear leap d = 1 ∧ 31 ≤ d ∧ d < 59 + leap) ∨
      (monthFromDayInYear leap d = 2 ∧ 59 + leap ≤ d ∧ d < 90 + leap) ∨
      (monthFromDayInYear leap d = 3 ∧ 90 + leap ≤ d ∧ d < 120 + leap) ∨
      (monthFromDayInYear leap d = 4 ∧ 120 + leap ≤ d ∧ d < 151 + leap) ∨
      (monthFromDayInYear leap d = 5 ∧ 151 + leap ≤ d ∧ d < 181 + leap) ∨
      (monthFromDayInYear leap d = 6 ∧ 181 + leap ≤ d ∧ d < 212 + leap) ∨
      (monthFromDayInYear leap d = 7 ∧ 212 + leap ≤ d ∧ d < 243 + leap) ∨
      (monthFromDayInYear leap d = 8 ∧ 243 + leap ≤ d ∧ d < 273 + leap) ∨
      (monthFromDayInYear leap d = 9 ∧ 273 + leap ≤ d ∧ d < 304 + leap) ∨
      (monthFromDayInYear leap d = 10 ∧ 304 + leap ≤ d ∧ d < 334 + leap) ∨
      (monthFromDayInYear leap d = 11 ∧ 334 + leap ≤ d) := by
  by_cases h0 : d < 31
  · exact Or.inl ⟨monthFromDayInYear_0 leap d h0, h0⟩
  by_cases h1 : d < 59 + leap
  · right; exact Or.inl ⟨monthFromDayInYear_1 leap d h0 h1, by omega, h1⟩
  by_cases h2 : d < 90 + leap
  · right; right; exact Or.inl ⟨monthFromDayInYear_2 leap d h0 h1 h2, by omega, h2⟩
  by_cases h3 : d < 120 + leap
  · right; right; right; exact Or.inl ⟨monthFromDayInYear_3 leap d h0 h1 h2 h3, by omega, h3⟩
  by_cases h4 : d < 151 + leap
  · right; right; right; right; exact Or.inl ⟨monthFromDayInYear_4 leap d h0 h1 h2 h3 h4, by omega, h4⟩
  by_cases h5 : d < 181 + leap
  · right; right; right; right; right; exact Or.inl ⟨monthFromDayInYear_5 leap d h0 h1 h2 h3 h4 h5, by omega, h5⟩
  by_cases h6 : d < 212 + leap
  · right; right; right; right; right; right; exact Or.inl ⟨monthFromDayInYear_6 leap d h0 h1 h2 h3 h4 h5 h6, by omega, h6⟩
  by_cases h7 : d < 243 + leap
  · right; right; right; right; right; right; right; exact Or.inl ⟨monthFromDayInYear_7 leap d h0 h1 h2 h3 h4 h5 h6 h7, by omega, h7⟩
  by_cases h8 : d < 273 + leap
  · right; right; right; right; right; right; right; right; exact Or.inl ⟨monthFromDayInYear_8 leap d h0 h1 h2 h3 h4 h5 h6 h7 h8, by omega, h8⟩
  by_cases h9 : d < 304 + leap
  · right; right; right; right; right; right; right; right; right; exact Or.inl ⟨monthFromDayInYear_9 leap d h0 h1 h2 h3 h4 h5 h6 h7 h8 h9, by omega, h9⟩
  by_cases h10 : d < 334 + leap
  · right; right; right; right; right; right; right; right; right; right; exact Or.inl ⟨monthFromDayInYear_10 leap d h0 h1 h2 h3 h4 h5 h6 h7 h8 h9 h10, by omega, h10⟩
  right; right; right; right; right; right; right; right; right; right; right
  exact ⟨monthFromDayInYear_11 leap d h0 h1 h2 h3 h4 h5 h6 h7 h8 h9 h10, by omega⟩

theorem month_spec (leap d : Int) (hd : 0 ≤ d ∧ d < 365 + leap) :
    0 ≤ monthFromDayInYear leap d ∧ monthFromDayInYear leap d ≤ 11 ∧
      monthStart leap (monthFromDayInYear leap d) ≤ d ∧
      d < monthStart leap (monthFromDayInYear leap d + 1) := by
  rcases monthFromDayInYear_cases leap d with h | h | h | h | h | h | h | h | h | h | h | h <;>
    (rw [h.1]
     simp only [Int.reduceAdd, monthStart_0, monthStart_1, monthStart_2, monthStart_3,
      monthStart_4, monthStart_5, monthStart_6, monthStart_7, monthStart_8, monthStart_9,
      monthStart_10, monthStart_11, monthStart_12]
     omega)

theorem month_unique (leap d m : Int) (hl : 0 ≤ leap ∧ leap ≤ 1) (hm : 0 ≤ m ∧ m ≤ 11)
    (h1 : monthStart leap m ≤ d) (h2 : d < monthStart leap (m + 1)) :
    monthFromDayInYear leap d = m := by
  obtain ⟨hm0, hm11⟩ := hm
  have hc := monthFromDayInYear_cases leap d
  interval_cases m <;>
    simp only [Int.reduceAdd, monthStart_0, monthStart_1, monthStart_2, monthStart_3,
      monthStart_4, monthStart_5, monthStart_6, monthStart_7, monthStart_8, monthStart_9,
      monthStart_10, monthStart_11, monthStart_12] at h1 h2 <;> omega

theorem monthStart_bounds (leap m : Int) (hl : 0 ≤ leap ∧ leap ≤ 1) (hm : 0 ≤ m ∧ m ≤ 11) :
    0 ≤ monthStart leap m ∧ monthStart leap m < monthStart leap (m + 1) ∧
      monthStart leap (m + 1) ≤ 365 + leap := by
  obtain ⟨hm0, hm11⟩ := hm
  interval_cases m <;>
    simp only [Int.reduceAdd, monthStart_0, monthStart_1, monthStart_2, monthStart_3,
      monthStart_4, monthStart_5, monthStart_6, monthStart_7, monthStart_8, monthStart_9,
      monthStart_10, monthStart_11, monthStart_12] <;> omega

theorem makeDay_first (y m : Int) (hm : 0 ≤ m ∧ m ≤ 11) (date : Int) :
    makeDay y m date = dayFromYear y + monthStart (inLeapYear y) m + date - 1 := by
  have e1 : y + m / 12 = y := by omega
  have e2 : m % 12 = m := by omega
  unfold makeDay
  rw [e1, e2]

theorem makeDay_next (y m : Int) (hm : 0 ≤ m ∧ m ≤ 11) (date : Int) :
    makeDay y (m + 1) date = dayFromYear y + monthStart (inLeapYear y) (m + 1) + date - 1 := by
  by_cases h : m = 11
  · have e1 : y + (m + 1) / 12 = y + 1 := by omega
    have e2 : (m + 1) % 12 = 0 := by omega
    unfold makeDay
    rw [e1, e2, h, monthStart_0]
    simp only [Int.reduceAdd, monthStart_12]
    unfold inLeapYear
    omega
  · exact makeDay_first y (m + 1) (by omega) date

/-- The days of the calendar month `m` (0 to 11) of the year `y` are the days from the one
`makeDay y m 1` to the one `makeDay y (m + 1) 0`. -/
theorem month_days (y m d : Int) (hm : 0 ≤ m ∧ m ≤ 11) :
    (makeDay y m 1 ≤ d ∧ d ≤ makeDay y (m + 1) 0) ↔
      (yearFromDay d = y ∧
        monthFromDayInYear (inLeapYear (yearFromDay d)) (d - dayFromYear (yearFromDay d)) = m) := by
  rw [makeDay_first y m hm, makeDay_next y m hm]
  have hleap := inLeapYear_range y
  have hb := monthStart_bounds (inLeapYear y) m hleap hm
  have hstep : dayFromYear (y + 1) = dayFromYear y + 365 + inLeapYear y := by
    unfold inLeapYear
    omega
  constructor
  · rintro ⟨h1, h2⟩
    have hy : yearFromDay d = y := yearFromDay_unique d y (by omega) (by omega)
    refine ⟨hy, ?_⟩
    rw [hy]
    exact month_unique (inLeapYear y) (d - dayFromYear y) m hleap hm (by omega) (by omega)
  · rintro ⟨hy, hmo⟩
    have hs := yearFromDay_spec d
    rw [hy] at hs hmo
    have hms := month_spec (inLeapYear y) (d - dayFromYear y) (by omega)
    rw [hmo] at hms
    omega

/-- The instants of the local calendar month `m` (0 to 11) of the year `y`: from the first
millisecond of its first day to the last millisecond of its last day, as the two `Date`
constructor calls of the report code compute them (before `TimeClip`). -/
theorem month_instants (lib : DateLib) (y m t : Int) (hm : 0 ≤ m ∧ m ≤ 11) :
    (makeDate (makeDay y m 1) (makeTime 0 0 0 0) - lib.localTZA ≤ t ∧
        t ≤ makeDate (makeDay y (m + 1) 0) (makeTime 23 59 59 999) - lib.localTZA) ↔
      (lib.getFullYear t = y ∧ lib.getMonth t = m) := by
  unfold DateLib.getFullYear DateLib.getMonth monthFromTime yearFromTime
  rw [← month_days y m (day (t + lib.localTZA)) hm]
  unfold makeDate makeTime day msPerDay
  generalize makeDay y m 1 = a
  generalize makeDay y (m + 1) 0 = b
  omega

theorem dayFromYear_bounds (y : Int) (hy : 100 ≤ y ∧ y ≤ 275001) :
    -700000 ≤ dayFromYear y ∧ dayFromYear y ≤ 99800000 := by
  unfold dayFromYear
  omega

/-- The two `Date` constructor calls of the report code give valid dates for a year from 100
to 275000 and a month from 1 to 12. -/
theorem report_period (lib : DateLib) (year month : Int) (hy : 100 ≤ year ∧ year ≤ 275000)
    (hm : 1 ≤ month ∧ month ≤ 12)
    (htz : -msPerDay ≤ lib.localTZA ∧ lib.localTZA ≤ msPerDay) :
    lib.newDate year (month - 1) 1 0 0 0 0 =
        some (makeDate (makeDay year (month - 1) 1) (makeTime 0 0 0 0) - lib.localTZA) ∧
      lib.newDate year (month - 1 + 1) 0 23 59 59 999 =
        some (makeDate (makeDay year (month - 1 + 1) 0) (makeTime 23 59 59 999) -
          lib.localTZA) := by
  have hm2 : 0 ≤ month - 1 ∧ month - 1 ≤ 11 := by omega
  have hleap := inLeapYear_range year
  have hb := monthStart_bounds (inLeapYear year) (month - 1) hleap hm2
  have hd := dayFromYear_bounds year (by omega)
  have h1 := makeDay_first year (month - 1) hm2 1
  have h2 := makeDay_next year (month - 1) hm2 0
  have hyear : (if 0 ≤ year ∧ year ≤ 99 then 1900 + year else year) = year := by
    rw [if_neg]
    omega
  unfold DateLib.newDate timeClip
  rw [hyear]
  unfold msPerDay at htz
  constructor
  · rw [if_pos]
    rw [h1]
    unfold makeDate makeTime msPerDay
    omega
  · rw [if_pos]
    rw [h2]
    unfold makeDate makeTime msPerDay
    omega

/-! ## The report counts -/

theorem startedWithin_eq (lib : DateLib) (first last : Int) (s : Json) :
    startedWithin lib first last s =
      ((match s.getProp "startedAt" with
        | some v => v.truthy
        | none => false) &&
        (dateGe (lib.ofJson (s.getProp "startedAt")) (some first) &&
          dateLe (lib.ofJson (s.getProp "startedAt")) (some last))) := by
  unfold startedWithin startedAtInstant
  generalize s.getProp "startedAt" = p
  cases p with
  | none => rfl
  | some v =>
    simp only
    generalize lib.ofJson (some v) = d
    generalize v.truthy = b
    cases b with
    | false => simp
    | true =>
      cases d with
      | none => simp [dateGe]
      | some t =>
        simp only [if_true, dateGe, dateLe, Bool.true_and]
        rw [Bool.decide_and]

theorem countStreams_cons (lib : DateLib) (first last : Int) (s : Json) (rest : List Json)
    (streamCount : Nat) (hs : s.isNull = false) :
    countStreams lib (some first) (some last) (s :: rest) streamCount =
      countStreams lib (some first) (some last) rest
        (streamCount + if startedWithin lib first last s then 1 else 0) := by
  rw [countStreams, hs, startedWithin_eq]
  simp only [Bool.false_eq_true, if_false]
  generalize (match s.getProp "startedAt" with
    | some v => v.truthy
    | none => false) = b
  generalize (dateGe (lib.ofJson (s.getProp "startedAt")) (some first) &&
    dateLe (lib.ofJson (s.getProp "startedAt")) (some last)) = c
  cases b <;> cases c <;> simp

theorem countStreams_eq (lib : DateLib) (first last : Int) (log : List Json) :
    ∀ (streamCount : Nat), (∀ s ∈ log, s.isNull = false) →
      countStreams lib (some first) (some last) log streamCount =
        streamCount + sessionsWithin lib first last log := by
  induction log with
  | nil => intro n _; simp [countStreams, sessionsWithin]
  | cons s rest ih =>
    intro n hnn
    have hs : s.isNull = false := hnn s (List.mem_cons_self _ _)
    have hrest : ∀ x ∈ rest, x.isNull = false := fun x hx => hnn x (List.mem_cons_of_mem _ hx)
    rw [countStreams_cons lib first last s rest n hs, ih _ hrest]
    unfold sessionsWithin
    rw [List.countP_cons]
    omega

theorem channelStreamCount_eq (lib : DateLib) (disk : Disk) (first last : Option Int)
    (trackedChannel : ChannelEntry) :
    channelStreamCount lib disk first last trackedChannel =
      userChannelCount lib disk first last trackedChannel := by
  unfold channelStreamCount userChannelCount readUserActivity
  generalize disk (logPath trackedChannel.targetUserId trackedChannel.platform
    trackedChannel.channelId) = fs
  cases fs with
  | json v => cases v <;> rfl
  | missing => rfl
  | unreadable v => rfl
  | garbage => rfl

theorem sessionsWithin_congr (lib : DateLib) (first last year month : Int) (log : List Json)
    (h : ∀ t, (first ≤ t ∧ t ≤ last) ↔ (lib.getFullYear t = year ∧ lib.getMonth t = month)) :
    sessionsWithin lib first last log = sessionsInMonth lib year month log := by
  unfold sessionsWithin sessionsInMonth
  congr 1
  funext s
  unfold startedWithin startedInMonth
  cases startedAtInstant lib s with
  | none => rfl
  | some t =>
    simp only
    by_cases hr : first ≤ t ∧ t ≤ last
    · rw [decide_eq_true hr, decide_eq_true ((h t).1 hr)]
    · rw [decide_eq_false hr, decide_eq_false (fun hc => hr ((h t).2 hc))]

/-- C22 (amended): for a month from 1 to 12 of a year from 100 to 275000 (where the `Date`
constructor takes the year as it is and the dates are valid), with local time at a constant offset of at
most a day from UTC, and a log without `null` elements: the two dates built by the report
code are the first instant of the month and 23:59:59.999 of its last day; an instant lies
between them exactly when its local year and month are the reported ones; and the count
that `generateReport` computes for a tracked channel, like the one
`generateUserStreamReportData` adds for it, is the number of stored sessions whose start
instant lies between the two, which is the number of sessions that started in that calendar
month. -/
theorem report_counts_sessions_of_month (lib : DateLib) (disk : Disk) (year month : Int)
    (trackedChannel : ChannelEntry)
    (hy : 100 ≤ year ∧ year ≤ 275000) (hm : 1 ≤ month ∧ month ≤ 12)
    (htz : -msPerDay ≤ lib.localTZA ∧ lib.localTZA ≤ msPerDay)
    (hlog : ∀ s ∈ readUserActivity disk trackedChannel.targetUserId trackedChannel.platform
      trackedChannel.channelId, s.isNull = false) :
    lib.newDate year (month - 1) 1 0 0 0 0 = some (firstInstant lib year month) ∧
    lib.newDate year (month - 1 + 1) 0 23 59 59 999 = some (lastInstant lib year month) ∧
    timeWithinDay (firstInstant lib year month + lib.localTZA) = 0 ∧
    timeWithinDay (lastInstant lib year month + lib.localTZA) = 86399999 ∧
    (∀ t, (firstInstant lib year month ≤ t ∧ t ≤ lastInstant lib year month) ↔
      (lib.getFullYear t = year ∧ lib.getMonth t = month - 1)) ∧
    channelStreamCount lib disk (lib.newDate year (month - 1) 1 0 0 0 0)
        (lib.newDate year (month - 1 + 1) 0 23 59 59 999) trackedChannel =
      sessionsWithin lib (firstInstant lib year month) (lastInstant lib year month)
        (readUserActivity disk trackedChannel.targetUserId trackedChannel.platform
          trackedChannel.channelId) ∧
    userChannelCount lib disk (lib.newDate year (month - 1) 1 0 0 0 0)
        (lib.newDate year (month - 1 + 1) 0 23 59 59 999) trackedChannel =
      sessionsWithin lib (firstInstant lib year month) (lastInstant lib year month)
        (readUserActivity disk trackedChannel.targetUserId trackedChannel.platform
          trackedChannel.channelId) ∧
    sessionsWithin lib (firstInstant lib year month) (lastInstant lib year month)
        (readUserActivity disk trackedChannel.targetUserId trackedChannel.platform
          trackedChannel.channelId) =
      sessionsInMonth lib year (month - 1)
        (readUserActivity disk trackedChannel.targetUserId trackedChannel.platform
          trackedChannel.channelId) := by
  obtain ⟨hfirst, hlast⟩ := report_period lib year month hy hm htz
  have hiff : ∀ t, (firstInstant lib year month ≤ t ∧ t ≤ lastInstant lib year month) ↔
      (lib.getFullYear t = year ∧ lib.getMonth t = month - 1) :=
    fun t => month_instants lib year (month - 1) t (by omega)
  have huser : userChannelCount lib disk (lib.newDate year (month - 1) 1 0 0 0 0)
        (lib.newDate year (month - 1 + 1) 0 23 59 59 999) trackedChannel =
      sessionsWithin lib (firstInstant lib year month) (lastInstant lib year month)
        (readUserActivity disk trackedChannel.targetUserId trackedChannel.platform
          trackedChannel.channelId) := by
    rw [hfirst, hlast]
    unfold userChannelCount
    rw [countStreams_eq lib _ _ _ 0 hlog, Nat.zero_add]
    rfl
  refine ⟨hfirst, hlast, ?_, ?_, hiff, ?_, huser, ?_⟩
  · unfold firstInstant timeWithinDay makeDate makeTime msPerDay
    omega
  · unfold lastInstant timeWithinDay makeDate makeTime msPerDay
    omega
  · rw [channelStreamCount_eq]
    exact huser
  · exact sessionsWithin_congr lib _ _ year (month - 1) _ hiff

theorem report_counts_sessions_of_month_witness :
    channelStreamCount isoLib diskSpring (isoLib.newDate 2024 (5 - 1) 1 0 0 0 0)
        (isoLib.newDate 2024 (5 - 1 + 1) 0 23 59 59 999) entryA = 2 ∧
      channelStreamCount isoLib diskSpring (isoLib.newDate 2024 (4 - 1) 1 0 0 0 0)
        (isoLib.newDate 2024 (4 - 1 + 1) 0 23 59 59 999) entryA = 1 ∧
      sessionsWithin isoLib (firstInstant isoLib 2024 5) (lastInstant isoLib 2024 5)
          (readUserActivity diskSpring entryA.targetUserId entryA.platform entryA.channelId) =
        sessionsInMonth isoLib 2024 (5 - 1)
          (readUserActivity diskSpring entryA.targetUserId entryA.platform entryA.channelId) :=
  ⟨by decide, by decide,
   (report_counts_sessions_of_month isoLib diskSpring 2024 5 entryA (by decide) (by decide)
      (by decide) (by decide)).2.2.2.2.2.2.2⟩

/-! ## The two month filters -/

theorem getMonth_range (lib : DateLib) (t : Int) : 0 ≤ lib.getMonth t ∧ lib.getMonth t ≤ 11 := by
  unfold DateLib.getMonth monthFromTime yearFromTime
  have hs := yearFromDay_spec (day (t + lib.localTZA))
  have hleap : dayFromYear (yearFromDay (day (t + lib.localTZA)) + 1) =
      dayFromYear (yearFromDay (day (t + lib.localTZA))) + 365 +
        inLeapYear (yearFromDay (day (t + lib.localTZA))) := by
    unfold inLeapYear
    omega
  have hm := month_spec (inLeapYear (yearFromDay (day (t + lib.localTZA))))
    (day (t + lib.localTZA) - dayFromYear (yearFromDay (day (t + lib.localTZA)))) (by omega)
  exact ⟨hm.1, hm.2.1⟩

/-- On a log whose sessions all carry a non-empty `startedAt`, the footer filter keeps the
sessions that started in the given local year and month, and does not throw. -/
theorem footerFilter_eq (lib : DateLib) (year month : Int) (log : List Json)
    (hvalid : ∀ s ∈ log, ∃ v, s.getProp "startedAt" = some v ∧ v.truthy = true) :
    footerFilter lib year month log = Except.ok (log.filter (startedInMonth lib year month)) := by
  induction log with
  | nil => rfl
  | cons s rest ih =>
    obtain ⟨v, hv, ht⟩ := hvalid s (List.mem_cons_self _ _)
    have hnn : s.isNull = false := by
      cases s <;> first | rfl | simp [Json.getProp] at hv
    rw [footerFilter, hnn, ih (fun x hx => hvalid x (List.mem_cons_of_mem _ hx))]
    simp only [Bool.false_eq_true, if_false]
    rw [List.filter_cons]
    have hin : startedInMonth lib year month s =
        (match lib.ofJson (s.getProp "startedAt") with
          | some t => decide (lib.getFullYear t = year ∧ lib.getMonth t = month)
          | none => false) := by
      unfold startedInMonth startedAtInstant
      rw [hv]
      simp only [ht, if_true]
    rw [hin]
    cases lib.ofJson (s.getProp "startedAt") with
    | none => simp
    | some t =>
      simp only
      by_cases hc : lib.getFullYear t = year ∧ lib.getMonth t = month
      · simp [hc]
      · simp [hc]

/-- C27: the two month filters agree. For a log whose sessions all carry a non-empty
`startedAt` and a current date in a year from 100 to 275000 (local time at a constant offset
of at most a day from UTC), the footer count "Streams this month" of the poll cycle equals
the count that `generateReport` computes for the same channel when called for the current
year and the current month (as a 1-indexed month); both are the number of sessions that
started in the current local calendar month. -/
theorem month_filters_agree (lib : DateLib) (disk : Disk) (streamData : StreamData)
    (trackedChannel : ChannelEntry) (now : Int)
    (hsame : trackedChannel.targetUserId = streamData.targetUserId ∧
      trackedChannel.platform = streamData.platform ∧
      trackedChannel.channelId = streamData.streamerChannelId)
    (hy : 100 ≤ lib.getFullYear now ∧ lib.getFullYear now ≤ 275000)
    (htz : -msPerDay ≤ lib.localTZA ∧ lib.localTZA ≤ msPerDay)
    (hvalid : ∀ s ∈ readUserActivity disk streamData.targetUserId streamData.platform
      streamData.streamerChannelId, ∃ v, s.getProp "startedAt" = some v ∧ v.truthy = true) :
    streamsThisMonthCount lib disk streamData now =
        channelStreamCount lib disk
          (lib.newDate (lib.getFullYear now) (lib.getMonth now + 1 - 1) 1 0 0 0 0)
          (lib.newDate (lib.getFullYear now) (lib.getMonth now + 1 - 1 + 1) 0 23 59 59 999)
          trackedChannel ∧
      streamsThisMonthCount lib disk streamData now =
        sessionsInMonth lib (lib.getFullYear now) (lib.getMonth now)
          (readUserActivity disk streamData.targetUserId streamData.platform
            streamData.streamerChannelId) := by
  obtain ⟨h1, h2, h3⟩ := hsame
  have hmr := getMonth_range lib now
  have hfooter : streamsThisMonthCount lib disk streamData now =
      sessionsInMonth lib (lib.getFullYear now) (lib.getMonth now)
        (readUserActivity disk streamData.targetUserId streamData.platform
          streamData.streamerChannelId) := by
    unfold streamsThisMonthCount
    rw [footerFilter_eq lib _ _ _ hvalid]
    unfold sessionsInMonth
    rw [List.countP_eq_length_filter]
  refine ⟨?_, hfooter⟩
  rw [hfooter, channelStreamCount_eq]
  obtain ⟨hfirst, hlast⟩ := report_period lib (lib.getFullYear now) (lib.getMonth now + 1) hy
    (by omega) htz
  rw [hfirst, hlast]
  unfold userChannelCount
  rw [h1, h2, h3]
  have hnn : ∀ s ∈ readUserActivity disk streamData.targetUserId streamData.platform
      streamData.streamerChannelId, s.isNull = false := by
    intro s hs
    obtain ⟨v, hv, _⟩ := hvalid s hs
    cases s <;> first | rfl | simp [Json.getProp] at hv
  rw [countStreams_eq lib _ _ _ 0 hnn, Nat.zero_add]
  have hiff := fun t => month_instants lib (lib.getFullYear now) (lib.getMonth now + 1 - 1) t
    (by omega)
  rw [sessionsWithin_congr lib _ _ (lib.getFullYear now) (lib.getMonth now + 1 - 1) _ hiff]
  congr 1
  omega

theorem month_filters_agree_witness :
    streamsThisMonthCount isoLib diskSpring (mkStreamData channelA snapshotA) 1714558000000 = 2 ∧
      streamsThisMonthCount isoLib diskSpring (mkStreamData channelA snapshotA) 1714558000000 =
        channelStreamCount isoLib diskSpring
          (isoLib.newDate (isoLib.getFullYear 1714558000000)
            (isoLib.getMonth 1714558000000 + 1 - 1) 1 0 0 0 0)
          (isoLib.newDate (isoLib.getFullYear 1714558000000)
            (isoLib.getMonth 1714558000000 + 1 - 1 + 1) 0 23 59 59 999) entryA :=
  ⟨by decide,
   (month_filters_agree isoLib diskSpring (mkStreamData channelA snapshotA) entryA
      1714558000000 (by decide) (by decide) (by decide) (by decide)).1⟩

/-! ## The scheduled report -/

theorem forceReportArguments_default (lib : DateLib) (inputYear inputMonth : Option Int)
    (now : Int) (hmissing : inputYear = none ∨ inputMonth = none) :
    forceReportArguments lib inputYear inputMonth now =
      if lib.getMonth now - 1 < 0 then (lib.getFullYear now - 1, 11 + 1)
      else (lib.getFullYear now, lib.getMonth now - 1 + 1) := by
  unfold forceReportArguments
  rcases hmissing with h | h
  · subst h
    rfl
  · subst h
    cases inputYear <;> simp

/-- C28: for every current date, with `y` its local year and `m` its 0-indexed local month,
`generatePreviousMonthReport` calls `generateReport` for `(y, m)` when `m ≥ 1` and for
`(y - 1, 12)` when `m = 0`: as a 1-indexed month, the calendar month before the current one.
The command `forcegeneratereport` computes the same pair when the year or the month option
is missing. The month is within 1..12, so the month validation of `generateReport` does not
reject it. -/
theorem previous_month_is_requested (config : ReportConfig) (lib : DateLib) (env : ReportEnv)
    (disk : Disk) (now : Int) :
    generatePreviousMonthReport config lib env disk now =
        generateReport config lib env disk
          (if lib.getMonth now = 0 then lib.getFullYear now - 1 else lib.getFullYear now)
          (if lib.getMonth now = 0 then 12 else lib.getMonth now) ∧
      (∀ inputYear inputMonth : Option Int, inputYear = none ∨ inputMonth = none →
        forceReportArguments lib inputYear inputMonth now =
          (if lib.getMonth now = 0 then lib.getFullYear now - 1 else lib.getFullYear now,
           if lib.getMonth now = 0 then 12 else lib.getMonth now)) ∧
      (1 ≤ (if lib.getMonth now = 0 then 12 else lib.getMonth now) ∧
        (if lib.getMonth now = 0 then 12 else lib.getMonth now) ≤ 12) ∧
      12 * (if lib.getMonth now = 0 then lib.getFullYear now - 1 else lib.getFullYear now) +
          ((if lib.getMonth now = 0 then 12 else lib.getMonth now) - 1) + 1 =
        12 * lib.getFullYear now + lib.getMonth now ∧
      (generatePreviousMonthReport config lib env disk now).outcome ≠
        Except.error ReportError.invalidMonth := by
  have hr := getMonth_range lib now
  have hgen : generatePreviousMonthReport config lib env disk now =
      generateReport config lib env disk
        (if lib.getMonth now = 0 then lib.getFullYear now - 1 else lib.getFullYear now)
        (if lib.getMonth now = 0 then 12 else lib.getMonth now) := by
    unfold generatePreviousMonthReport
    by_cases h : lib.getMonth now = 0
    · rw [if_pos h, if_pos h, if_pos h]
    · rw [if_neg h, if_neg h, if_neg h]
  have hmonth : 1 ≤ (if lib.getMonth now = 0 then 12 else lib.getMonth now) ∧
      (if lib.getMonth now = 0 then 12 else lib.getMonth now) ≤ 12 := by
    by_cases h : lib.getMonth now = 0
    · rw [if_pos h]; omega
    · rw [if_neg h]; omega
  refine ⟨hgen, ?_, hmonth, ?_, ?_⟩
  · intro inputYear inputMonth hmissing
    rw [forceReportArguments_default lib inputYear inputMonth now hmissing]
    by_cases h : lib.getMonth now = 0
    · rw [if_pos h, if_pos h, if_pos (by omega)]
      rfl
    · rw [if_neg h, if_neg h, if_neg (by omega)]
      congr 1
      omega
  · by_cases h : lib.getMonth now = 0
    · rw [if_pos h, if_pos h]; omega
    · rw [if_neg h, if_neg h]; omega
  · rw [hgen]
    unfold generateReport
    rw [if_neg (by omega)]
    split
    · split
      · simp
      · split <;> simp
        split <;> try simp
        split <;> try simp
        split <;> try simp
        split <;> simp
    · simp

theorem previous_month_is_requested_witness :
    utcLib.getMonth 1736899200000 = 0 ∧ utcLib.getFullYear 1736899200000 = 2025 ∧
      forceReportArguments utcLib (some 2023) none 1736899200000 =
        (if utcLib.getMonth 1736899200000 = 0 then utcLib.getFullYear 1736899200000 - 1
          else utcLib.getFullYear 1736899200000,
         if utcLib.getMonth 1736899200000 = 0 then 12 else utcLib.getMonth 1736899200000) :=
  ⟨by decide, by decide,
   (previous_month_is_requested configReport utcLib reportEnvOk (fun _ => FileState.missing)
      1736899200000).2.1 (some 2023) none (Or.inr rfl)⟩

theorem checkAndGenerateReport_skip (config : ReportConfig) (lib : DateLib) (env : ReportEnv)
    (disk : Disk) (marker today now : Int)
    (h : ¬(lib.getDate today = 1 ∧ marker ≠ lib.getMonth today)) :
    checkAndGenerateReport config lib env disk marker today now =
      { lastReportGeneratedForMonth := marker, run := none } := by
  unfold checkAndGenerateReport
  by_cases h1 : lib.getDate today = 1
  · have h2 : ¬marker ≠ lib.getMonth today := fun hc => h ⟨h1, hc⟩
    rw [if_pos h1, if_neg h2]
  · rw [if_neg h1]

theorem checkAndGenerateReport_trigger (config : ReportConfig) (lib : DateLib)
    (env : ReportEnv) (disk : Disk) (marker today now : Int)
    (h : lib.getDate today = 1 ∧ marker ≠ lib.getMonth today) :
    checkAndGenerateReport config lib env disk marker today now =
      { lastReportGeneratedForMonth :=
          match (generatePreviousMonthReport config lib env disk now).outcome with
          | .ok _ => lib.getMonth today
          | .error _ => marker,
        run := some (generatePreviousMonthReport config lib env disk now) } := by
  unfold checkAndGenerateReport
  rw [if_pos h.1, if_pos h.2]
  split <;> rfl

/-- After a generation that succeeded in the month of `today`, further checks in the same
month start no generation and keep the marker. -/
theorem runChecks_same_month (lib : DateLib) (month : Int) (later : List CheckInput)
    (hsame : ∀ c ∈ later, lib.getMonth c.today = month) :
    ∀ r ∈ runChecks lib month later,
      r.run.isSome = false ∧ r.lastReportGeneratedForMonth = month := by
  induction later with
  | nil => intro r hr; simp [runChecks] at hr
  | cons c rest ih =>
    have hskip := checkAndGenerateReport_skip c.config lib c.env c.disk month c.today c.now
      (fun hc => hc.2 (hsame c (List.mem_cons_self _ _)).symm)
    intro r hr
    rw [runChecks, hskip, List.mem_cons] at hr
    rcases hr with hr | hr
    · rw [hr]
      exact ⟨rfl, rfl⟩
    · exact ih (fun x hx => hsame x (List.mem_cons_of_mem _ hx)) r hr

/-- C29: `checkAndGenerateReport` starts the monthly generation exactly when the local day
of the month is 1 and `lastReportGeneratedForMonth` differs from the local month index of
today. A generation that returns sets the marker to that month index, and then no later
check in the same month starts a generation or changes the marker; a generation that throws
leaves the marker as it was, so a later check on a 1st starts one again whenever the marker
still differs from that day's month index, in particular in the same month. When no
generation is started (any day other than the 1st included) the marker is unchanged. -/
theorem monthly_trigger (config : ReportConfig) (lib : DateLib) (env : ReportEnv)
    (disk : Disk) (marker today now : Int) :
    ((checkAndGenerateReport config lib env disk marker today now).run.isSome = true ↔
      (lib.getDate today = 1 ∧ marker ≠ lib.getMonth today)) ∧
    (∀ run, (checkAndGenerateReport config lib env disk marker today now).run = some run →
      run = generatePreviousMonthReport config lib env disk now ∧
      (∀ message, run.outcome = Except.ok message →
        (checkAndGenerateReport config lib env disk marker today now
          ).lastReportGeneratedForMonth = lib.getMonth today ∧
        ∀ later : List CheckInput, (∀ c ∈ later, lib.getMonth c.today = lib.getMonth today) →
          ∀ r ∈ runChecks lib
              (checkAndGenerateReport config lib env disk marker today now
                ).lastReportGeneratedForMonth later,
            r.run.isSome = false ∧ r.lastReportGeneratedForMonth = lib.getMonth today) ∧
      (∀ error, run.outcome = Except.error error →
        (checkAndGenerateReport config lib env disk marker today now
          ).lastReportGeneratedForMonth = marker ∧
        ∀ c : CheckInput, lib.getDate c.today = 1 → marker ≠ lib.getMonth c.today →
          (checkAndGenerateReport c.config lib c.env c.disk
            (checkAndGenerateReport config lib env disk marker today now
              ).lastReportGeneratedForMonth c.today c.now).run =
            some (generatePreviousMonthReport c.config lib c.env c.disk c.now))) ∧
    ((checkAndGenerateReport config lib env disk marker today now).run = none →
      (checkAndGenerateReport config lib env disk marker today now
        ).lastReportGeneratedForMonth = marker) ∧
    (lib.getDate today ≠ 1 →
      checkAndGenerateReport config lib env disk marker today now =
        { lastReportGeneratedForMonth := marker, run := none }) := by
  by_cases h : lib.getDate today = 1 ∧ marker ≠ lib.getMonth today
  · have ht := checkAndGenerateReport_trigger config lib env disk marker today now h
    refine ⟨?_, ?_, ?_, ?_⟩
    · rw [ht]
      exact ⟨fun _ => h, fun _ => rfl⟩
    · intro run hrun
      rw [ht] at hrun
      simp only [Option.some.injEq] at hrun
      refine ⟨hrun.symm, ?_, ?_⟩
      · intro message hok
        rw [← hrun] at hok
        have hmark : (checkAndGenerateReport config lib env disk marker today now
            ).lastReportGeneratedForMonth = lib.getMonth today := by
          rw [ht]
          simp only [hok]
        refine ⟨hmark, ?_⟩
        intro later hsame
        rw [hmark]
        exact runChecks_same_month lib (lib.getMonth today) later hsame
      · intro error herr
        rw [← hrun] at herr
        have hmark : (checkAndGenerateReport config lib env disk marker today now
            ).lastReportGeneratedForMonth = marker := by
          rw [ht]
          simp only [herr]
        refine ⟨hmark, ?_⟩
        intro c hc1 hc2
        rw [hmark, checkAndGenerateReport_trigger c.config lib c.env c.disk marker c.today c.now
          ⟨hc1, hc2⟩]
    · intro hnone
      rw [ht] at hnone
      cases hnone
    · intro hday
      exact absurd h.1 hday
  · have hs := checkAndGenerateReport_skip config lib env disk marker today now h
    refine ⟨?_, ?_, ?_, ?_⟩
    · rw [hs]
      exact ⟨fun hc => (by cases hc), fun hc => absurd hc h⟩
    · intro run hrun
      rw [hs] at hrun
      cases hrun
    · intro _
      rw [hs]
    · intro _
      exact hs

theorem monthly_trigger_witness :
    utcLib.getDate 1714521600000 = 1 ∧ utcLib.getMonth 1714521600000 = 4 ∧
      (checkAndGenerateReport configReport utcLib reportEnvOk (fun _ => FileState.missing) (-1)
        1714521600000 1714521600000).lastReportGeneratedForMonth = 4 ∧
      (checkAndGenerateReport configNoReportChannel utcLib reportEnvOk
        (fun _ => FileState.missing) 3 1714521600000 1714521600000
          ).lastReportGeneratedForMonth = 3 ∧
      ((checkAndGenerateReport configReport utcLib reportEnvOk (fun _ => FileState.missing) (-1)
        1714521600000 1714521600000).run.isSome = true ↔
        (utcLib.getDate 1714521600000 = 1 ∧ (-1 : Int) ≠ utcLib.getMonth 1714521600000)) :=
  ⟨by decide, by decide, by decide, by decide,
   (monthly_trigger configReport utcLib reportEnvOk (fun _ => FileState.missing) (-1)
      1714521600000 1714521600000).1⟩

/-! ## Missing configuration -/

theorem checkChannel_no_sink (client : Bool) (config : Config) (isManualCheck : Bool)
    (disk : Disk) (env : ChannelEnv) (channel : TrackedChannel) (st : CycleState)
    (hsink : config.munchyStreamChannelId = none) :
    (checkChannel client config isManualCheck disk env channel st).sent = st.sent := by
  rcases checkChannel_cases client config isManualCheck disk env channel st with h |
    ⟨streamDetails, hp, hs, hl⟩
  · rw [h]
  · rw [checkChannel_candidate client config isManualCheck disk env channel st streamDetails
      hp hs hl]
    have hd : delivered client config env = false := by
      unfold delivered
      rw [hsink]
      simp
    split
    · rw [announce_eq, hd]
      rfl
    · rfl

theorem checkChannels_no_sink (client : Bool) (config : Config) (isManualCheck : Bool)
    (disk : Disk) (world : Nat → ChannelEnv) (hsink : config.munchyStreamChannelId = none)
    (channels : List TrackedChannel) :
    ∀ (i : Nat) (st : CycleState),
      (checkChannels client config isManualCheck disk world i channels st).sent = st.sent := by
  induction channels with
  | nil => intro i st; rfl
  | cons channel rest ih =>
    intro i st
    rw [checkChannels, ih, checkChannel_no_sink client config isManualCheck disk (world i)
      channel st hsink]

/-- C23 (counterexample): with a tracked channel and no report channel configured,
`generateReport` throws the error "Report channel ID is not configured". -/
theorem report_without_channel_throws :
    (generateReport configNoReportChannel utcLib reportEnvOk (fun _ => FileState.missing)
      2024 5).outcome = Except.error ReportError.noReportChannel ∧
    configNoReportChannel.reportChannelId = none ∧
    getTrackedChannels configNoReportChannel = [entryA] := by
  refine ⟨?_, rfl, rfl⟩
  rfl

/-- For a month from 1 to 12 of a year from 100 to 275000, `generateReport` passes the month
validation and the log line of the report period, and goes on with the configuration. -/
theorem generateReport_valid (config : ReportConfig) (lib : DateLib) (env : ReportEnv)
    (disk : Disk) (year month : Int) (hy : 100 ≤ year ∧ year ≤ 275000)
    (hm : 1 ≤ month ∧ month ≤ 12)
    (htz : -msPerDay ≤ lib.localTZA ∧ lib.localTZA ≤ msPerDay) :
    generateReport config lib env disk year month =
      if (getTrackedChannels config).length = 0 then
        { outcome := Except.ok ReportMessage.noTrackedChannels, description := none }
      else
        match getReportChannelId config with
        | none => { outcome := Except.error ReportError.noReportChannel, description := none }
        | some _ =>
          { outcome :=
              if !env.embedOk (reportDescription config lib env disk
                  (some (firstInstant lib year month)) (some (lastInstant lib year month)))
              then Except.error (ReportError.thrown JsError.apiError)
              else
                match env.fetchChannel with
                | .error e => Except.error (ReportError.thrown e)
                | .ok none => Except.error ReportError.channelUnavailable
                | .ok (some discordChannel) =>
                  if discordChannel.isTextBased then
                    if env.sendOk then Except.ok ReportMessage.reportSent
                    else Except.error (ReportError.thrown JsError.apiError)
                  else Except.error ReportError.channelUnavailable,
            description :=
              some (reportDescription config lib env disk
                (some (firstInstant lib year month)) (some (lastInstant lib year month))) } := by
  obtain ⟨hfirst, hlast⟩ := report_period lib year month hy hm htz
  unfold generateReport
  rw [if_neg (by omega)]
  simp only [hfirst, hlast]
  rfl

/-- C23 (amended): what missing configuration does. When the configuration cannot be read or
tracks no channel, `checkAllTrackedChannels` returns the empty list, sends nothing and leaves
the cooldown map alone; when no announcement channel is configured it does not stop early:
it still returns every candidate event and only sends nothing. `generateReport` (for a valid
month) returns the message "No channels are currently tracked" when no channel is tracked,
and with tracked channels but no report channel it throws "Report channel ID is not
configured". -/
theorem missing_configuration_outcomes (client isManualCheck : Bool) (disk : Disk)
    (world : Nat → ChannelEnv) (announced : AnnouncedStreams) (sent : List Announcement)
    (config : Config) (e : JsError)
    (reportConfig : ReportConfig) (lib : DateLib) (env : ReportEnv) (year month : Int)
    (hy : 100 ≤ year ∧ year ≤ 275000) (hm : 1 ≤ month ∧ month ≤ 12)
    (htz : -msPerDay ≤ lib.localTZA ∧ lib.localTZA ≤ msPerDay) :
    checkAllTrackedChannels client (Except.error e) isManualCheck disk world announced sent =
        initialState announced sent ∧
    (config.trackedChannels = none ∨ config.trackedChannels = some [] →
      checkAllTrackedChannels client (Except.ok config) isManualCheck disk world announced sent =
        initialState announced sent) ∧
    (∀ channels, config.trackedChannels = some channels →
      config.munchyStreamChannelId = none →
      (checkAllTrackedChannels client (Except.ok config) isManualCheck disk world announced
          sent).sent = sent ∧
        (checkAllTrackedChannels client (Except.ok config) isManualCheck disk world announced
          sent).liveMunchyStreams = expectedEvents world 0 channels) ∧
    (getTrackedChannels reportConfig = [] →
      generateReport reportConfig lib env disk year month =
        { outcome := Except.ok ReportMessage.noTrackedChannels, description := none }) ∧
    (getTrackedChannels reportConfig ≠ [] → getReportChannelId reportConfig = none →
      generateReport reportConfig lib env disk year month =
        { outcome := Except.error ReportError.noReportChannel, description := none }) := by
  refine ⟨rfl, ?_, ?_, ?_, ?_⟩
  · intro h
    unfold checkAllTrackedChannels initialState
    rcases h with h | h <;> simp only [h]
  · intro channels hcfg hsink
    rw [checkAllTrackedChannels_eq client config isManualCheck disk world announced sent
      channels hcfg]
    refine ⟨?_, ?_⟩
    · rw [checkChannels_no_sink client config isManualCheck disk world hsink]
      rfl
    · rw [checkChannels_live_expected]
      rfl
  · intro hnone
    rw [generateReport_valid reportConfig lib env disk year month hy hm htz, hnone]
    rfl
  · intro hsome hnoreport
    rw [generateReport_valid reportConfig lib env disk year month hy hm htz, hnoreport,
      if_neg (by simpa using hsome)]

theorem missing_configuration_outcomes_witness :
    generateReport { trackedChannels := none, reportChannelId := none } utcLib reportEnvOk
        (fun _ => FileState.missing) 2024 5 =
      { outcome := Except.ok ReportMessage.noTrackedChannels, description := none } :=
  (missing_configuration_outcomes true false (fun _ => FileState.missing)
    (fun _ => workingEnv snapshotA 1714558000000) [] [] configA JsError.fsError
    { trackedChannels := none, reportChannelId := none } utcLib reportEnvOk 2024 5
    (by decide) (by decide) (by decide)).2.2.2.1 rfl

/-! ## The truncation of the report -/

theorem utf16_append (a b : String) : utf16 (a ++ b) = utf16 a ++ utf16 b := by
  unfold utf16
  rw [String.data_append, List.map_append, List.flatten_append]

theorem utf16_foldl_length (l : List String) :
    ∀ acc : String, (utf16 (l.foldl (fun r s => r ++ s) acc)).length =
      (utf16 acc).length + (l.map (fun s => (utf16 s).length)).sum := by
  induction l with
  | nil => intro acc; simp
  | cons s rest ih =>
    intro acc
    rw [List.foldl_cons, ih, utf16_append, List.length_append, List.map_cons, List.sum_cons]
    omega

theorem utf16_join_length (l : List String) :
    (utf16 (String.join l)).length = (l.map (fun s => (utf16 s).length)).sum := by
  unfold String.join
  rw [utf16_foldl_length]
  have h : (utf16 "").length = 0 := rfl
  rw [h, Nat.zero_add]

theorem sum_map_ge {α : Type} (f : α → Nat) (n : Nat) (l : List α) (h : ∀ x ∈ l, n ≤ f x) :
    n * l.length ≤ (l.map f).sum := by
  induction l with
  | nil => simp
  | cons x rest ih =>
    have h1 := h x (List.mem_cons_self _ _)
    have h2 := ih (fun y hy => h y (List.mem_cons_of_mem _ hy))
    rw [List.map_cons, List.sum_cons, List.length_cons, Nat.mul_succ]
    omega

/-- Every channel line of the report has at least 22 code units. -/
theorem channel_line_length (ch : ChannelLine) :
    22 ≤ (utf16 ("  • " ++ ch.platform ++ " - " ++ ch.name ++ ": **" ++ toString ch.count ++
      "** streams\n")).length := by
  have h1 : (utf16 "  • ").length = 4 := by decide
  have h2 : (utf16 " - ").length = 3 := by decide
  have h3 : (utf16 ": **").length = 4 := by decide
  have h4 : (utf16 "** streams\n").length = 11 := by decide
  simp only [utf16_append, List.length_append, h1, h2, h3, h4]
  omega

/-- The block of a user with channels starts with `<` and has at least 22 code units for
each channel line. -/
theorem describeUser_length (userData : UserActivity) (hch : 0 < userData.channels.length) :
    22 * userData.channels.length ≤ (utf16 (describeUser userData)).length ∧
      ∃ rest, utf16 (describeUser userData) = 60 :: rest := by
  unfold describeUser
  rw [if_pos hch]
  constructor
  · simp only [utf16_append, List.length_append, utf16_join_length, List.map_map]
    have := sum_map_ge
      ((fun s => (utf16 s).length) ∘ fun ch : ChannelLine =>
        "  • " ++ ch.platform ++ " - " ++ ch.name ++ ": **" ++ toString ch.count ++
          "** streams\n") 22 userData.channels (fun ch _ => channel_line_length ch)
    omega
  · have h : utf16 "<@" = [60, 64] := by decide
    simp only [utf16_append, h]
    exact ⟨_, rfl⟩

theorem trimUnits_id (units init rest : List Nat) (u v : Nat)
    (hhead : units = u :: rest) (hlast : units = init ++ [v])
    (hu : isJsWhiteSpace (Char.ofNat u) = false) (hv : isJsWhiteSpace (Char.ofNat v) = false) :
    trimUnits units = units := by
  unfold trimUnits
  have h1 : units.dropWhile (fun u => isJsWhiteSpace (Char.ofNat u)) = units := by
    rw [hhead, List.dropWhile_cons_of_neg (by simp [hu])]
  rw [h1]
  have h2 : units.reverse = v :: init.reverse := by
    rw [hlast, List.reverse_append]
    rfl
  rw [h2, List.dropWhile_cons_of_neg (by simp [hv]), ← h2, List.reverse_reverse]

/-- The truncation step applied to a description of more than 4096 code units that starts
with a character other than white space: what `setDescription` receives has 4127 code
units, the first 4090 of the description followed by the notice of 37. -/
theorem embedDescription_long (description : String) (u : Nat) (rest : List Nat)
    (hlen : 4096 < (utf16 description).length) (hhead : utf16 description = u :: rest)
    (hu : isJsWhiteSpace (Char.ofNat u) = false) :
    embedDescription description =
        (utf16 description).take 4090 ++ utf16 "\n... (report truncated due to length)" ∧
      (embedDescription description).length = 4127 := by
  have hnotice : utf16 "\n... (report truncated due to length)" =
      utf16 "\n... (report truncated due to length" ++ [41] := by decide
  have hnlen : (utf16 "\n... (report truncated due to length)").length = 37 := by decide
  have htrunc : truncateDescription (utf16 description) =
      (utf16 description).take 4090 ++ utf16 "\n... (report truncated due to length)" := by
    unfold truncateDescription
    rw [if_pos hlen]
  have hlen2 : ((utf16 description).take 4090 ++
      utf16 "\n... (report truncated due to length)").length = 4127 := by
    rw [List.length_append, List.length_take, hnlen]
    omega
  have htrim : trimUnits ((utf16 description).take 4090 ++
      utf16 "\n... (report truncated due to length)") =
      (utf16 description).take 4090 ++ utf16 "\n... (report truncated due to length)" := by
    apply trimUnits_id _
      ((utf16 description).take 4090 ++ utf16 "\n... (report truncated due to length")
      (rest.take 4089 ++ utf16 "\n... (report truncated due to length)") u 41
    · rw [hhead]
      rfl
    · rw [hnotice, List.append_assoc]
    · exact hu
    · decide
  have hmain : embedDescription description =
      (utf16 description).take 4090 ++ utf16 "\n... (report truncated due to length)" := by
    unfold embedDescription
    rw [htrunc, htrim, if_neg]
    intro hempty
    rw [List.isEmpty_iff] at hempty
    rw [hempty] at hlen2
    simp at hlen2
  exact ⟨hmain, by rw [hmain]; exact hlen2⟩

theorem recordChannel_same (u0 : UserActivity) (line : ChannelLine) :
    recordChannel [u0] u0.userId line =
      [{ u0 with channels := u0.channels ++ [line],
                 totalStreams := u0.totalStreams + line.count }] := by
  simp [recordChannel]

/-- With all tracked channels of one user, `userActivity` holds one entry, with one line
for each channel. -/
theorem collectActivity_single (lib : DateLib) (disk : Disk) (first last : Option Int)
    (channels : List ChannelEntry) :
    ∀ u0 : UserActivity, (∀ c ∈ channels, c.targetUserId = u0.userId) →
      ∃ user : UserActivity, collectActivity lib disk first last channels [u0] = [user] ∧
        user.channels.length = u0.channels.length + channels.length := by
  induction channels with
  | nil => intro u0 _; exact ⟨u0, rfl, rfl⟩
  | cons c rest ih =>
    intro u0 hall
    rw [collectActivity, hall c (List.mem_cons_self _ _), recordChannel_same]
    obtain ⟨user, huser, hlen⟩ := ih
      { u0 with
        channels := u0.channels ++
          [{ platform := capitalize c.platform, name := effectiveChannelName c,
             count := channelStreamCount lib disk first last c }],
        totalStreams := u0.totalStreams + channelStreamCount lib disk first last c }
      (fun x hx => hall x (List.mem_cons_of_mem _ hx))
    refine ⟨user, huser, ?_⟩
    rw [hlen]
    simp only [List.length_append, List.length_cons, List.length_nil]
    omega

/-- A report for tracked channels that all belong to one user, at least 187 of them: the
description assembled has more than 4096 code units and starts with `<`. -/
theorem single_user_description (config : ReportConfig) (lib : DateLib) (env : ReportEnv)
    (disk : Disk) (first last : Option Int) (targetUserId : String)
    (hall : ∀ c ∈ getTrackedChannels config, c.targetUserId = targetUserId)
    (hmany : 187 ≤ (getTrackedChannels config).length) :
    ∃ description : String,
      reportDescription config lib env disk first last = embedDescription description ∧
      4096 < (utf16 description).length ∧ ∃ rest, utf16 description = 60 :: rest := by
  unfold reportDescription
  cases hch : getTrackedChannels config with
  | nil => rw [hch] at hmany; simp at hmany
  | cons c rest =>
    rw [hch] at hall hmany
    have hc : c.targetUserId = targetUserId := hall c (List.mem_cons_self _ _)
    obtain ⟨user, huser, hlen⟩ := collectActivity_single lib disk first last rest
      { userId := c.targetUserId, username := "User ID " ++ c.targetUserId,
        channels := [{ platform := capitalize c.platform, name := effectiveChannelName c,
                       count := channelStreamCount lib disk first last c }],
        totalStreams := channelStreamCount lib disk first last c }
      (fun x hx => by rw [hall x (List.mem_cons_of_mem _ hx), hc])
    have hcollect : collectActivity lib disk first last (c :: rest) [] = [user] := by
      rw [collectActivity]
      exact huser
    rw [hcollect]
    have hfetch : ∃ named : UserActivity, fetchNames env [user] = [named] ∧
        named.channels = user.channels := by
      unfold fetchNames
      rw [List.map_cons, List.map_nil]
      cases env.fetchUser user.userId with
      | error e => exact ⟨user, rfl, rfl⟩
      | ok name => exact ⟨{ user with username := name }, rfl, rfl⟩
    obtain ⟨named, hnamed, hsame⟩ := hfetch
    rw [hnamed]
    have hsort : [named].insertionSort (reportOrder env) = [named] := by simp
    rw [hsort]
    have hlen2 : named.channels.length = (c :: rest).length := by
      rw [hsame, hlen]
      simp only [List.length_cons, List.length_nil]
      omega
    have hassemble : assembleDescription [named] (c :: rest) = String.join [describeUser named] := by
      unfold assembleDescription
      rw [if_neg (by simp), if_neg (by simp)]
      rfl
    rw [hassemble]
    have hjoin : utf16 (String.join [describeUser named]) = utf16 (describeUser named) := by
      have h : String.join [describeUser named] = "" ++ describeUser named := rfl
      rw [h, utf16_append]
      rfl
    obtain ⟨hge, hhead⟩ := describeUser_length named (by rw [hlen2]; simp)
    refine ⟨String.join [describeUser named], rfl, ?_, ?_⟩
    · rw [hjoin]
      rw [hlen2] at hge
      omega
    · rw [hjoin]
      exact hhead

/-- C25: a report whose description exceeds the limit. With 200 channels tracked for one
user (no sessions stored), the description assembled by `generateReport` is longer than
4096 code units, and the description it then sets on the embed, cut to 4090 code units and
followed by the truncation notice, has 4127 code units: more than the 4096 its truncation
step tests for. -/
theorem truncated_description_exceeds_limit :
    (generateReport configManyChannels utcLib reportEnvOk (fun _ => FileState.missing)
        2024 5).description.map List.length = some 4127 := by
  have hlen : (getTrackedChannels configManyChannels).length = 200 := by
    simp [getTrackedChannels, configManyChannels]
  have hall : ∀ c ∈ getTrackedChannels configManyChannels,
      c.targetUserId = "123456789012345678" := by
    intro c hc
    simp only [getTrackedChannels, configManyChannels, Option.getD, List.mem_map] at hc
    obtain ⟨i, _, hi⟩ := hc
    rw [← hi]
  obtain ⟨description, hdesc, hlong, rest, hhead⟩ :=
    single_user_description configManyChannels utcLib reportEnvOk (fun _ => FileState.missing)
      (some (firstInstant utcLib 2024 5)) (some (lastInstant utcLib 2024 5))
      "123456789012345678" hall (by rw [hlen]; decide)
  rw [generateReport_valid configManyChannels utcLib reportEnvOk (fun _ => FileState.missing)
    2024 5 (by decide) (by decide) (by decide), if_neg (by rw [hlen]; decide)]
  have hreport : getReportChannelId configManyChannels = some "reports" := by decide
  rw [hreport]
  simp only [Option.map]
  rw [hdesc, (embedDescription_long description 60 rest hlong hhead (by decide)).2]

/-! ## The timeframe parser -/

/-- C24: a duration whose start date is out of range. Called on 6 November 2026 (UTC) with
`"200000000d"`, `parseTimeframe` returns an object, not `null`, whose `startDate` is an
invalid date, so that `startDate <= endDate` is false. The date-range branch returns `null`
for invalid dates, and ordinary inputs behave as described: `"7d"` gives midnight of 30
October to now, a range of two valid dates gives its first day's start to its last day's
end, a reversed range and a text of neither form give `null`. -/
theorem duration_overflow_gives_invalid_start :
    parseTimeframe dayLib 1793923200000 "200000000d" =
        some { startDate := none, endDate := some 1793923200000 } ∧
      dateLe none (some 1793923200000) = false ∧
      parseTimeframe dayLib 1793966400000 "7d" =
        some { startDate := some 1793318400000, endDate := some 1793966400000 } ∧
      parseTimeframe dayLib 1793923200000 "2024-05-01_2024-05-31" =
        some { startDate := some 1714521600000, endDate := some 1717199999999 } ∧
      parseTimeframe dayLib 1793923200000 "2024-05-31_2024-05-01" = none ∧
      parseTimeframe dayLib 1793923200000 "2024-13-01_2024-13-02" = none ∧
      parseTimeframe dayLib 1793923200000 "7 days" = none := by
  refine ⟨?_, ?_, ?_, ?_, ?_, ?_, ?_⟩ <;> decide

/-- Within the range of valid dates the day branch of `parseTimeframe` does what the
specification says: `setDate(getDate() - n)` followed by `setHours(0, 0, 0, 0)` gives local
midnight of the day `n` days before now, which is not after now. -/
theorem days_before_midnight (lib : DateLib) (now n : Int)
    (hn : 0 ≤ n ∧ n ≤ 10000000) (hnow : 0 ≤ now ∧ now ≤ 4000000000000000) :
    lib.setHours (lib.setDate (some now) (lib.getDate now - n)) 0 0 0 0 =
        some ((day (now + lib.localTZA) - n) * msPerDay - lib.localTZA) ∧
      (day (now + lib.localTZA) - n) * msPerDay - lib.localTZA ≤ now := by
  have hmr := getMonth_range lib now
  unfold DateLib.getMonth at hmr
  have hday : makeDay (yearFromTime (now + lib.localTZA)) (monthFromTime (now + lib.localTZA))
      (lib.getDate now - n) = day (now + lib.localTZA) - n := by
    rw [makeDay_first _ _ hmr]
    unfold DateLib.getDate dateFromTime
    omega
  have hset : lib.setDate (some now) (lib.getDate now - n) = some (now - n * msPerDay) := by
    unfold DateLib.setDate
    simp only
    rw [hday]
    unfold timeClip makeDate timeWithinDay day
    unfold msPerDay
    rw [if_pos (by omega)]
    congr 1
    omega
  rw [hset]
  unfold DateLib.setHours
  simp only
  have hday2 : day (now - n * msPerDay + lib.localTZA) = day (now + lib.localTZA) - n := by
    unfold day msPerDay
    omega
  rw [hday2]
  unfold timeClip makeDate makeTime
  unfold day msPerDay at *
  constructor
  · rw [if_pos (by omega)]
    congr 1
    omega
  · omega

/-- C22 (counterexample): two inputs on which the count is not the number of sessions of the
requested month. For the year 50 the `Date` constructor builds the period of May 1950, so a
session of 10 May 1950 is counted by both functions although no session started in May of
the year 50; and in a log that holds `null` before a session of May 2024 the loop throws at
the first element, so both functions count 0 for May 2024 although one session started
then. -/
theorem report_count_differs :
    channelStreamCount centuryLib disk1950 (centuryLib.newDate 50 (5 - 1) 1 0 0 0 0)
        (centuryLib.newDate 50 (5 - 1 + 1) 0 23 59 59 999) entryA = 1 ∧
    userChannelCount centuryLib disk1950 (centuryLib.newDate 50 (5 - 1) 1 0 0 0 0)
        (centuryLib.newDate 50 (5 - 1 + 1) 0 23 59 59 999) entryA = 1 ∧
    sessionsWithin centuryLib (firstInstant centuryLib 50 5) (lastInstant centuryLib 50 5)
        (readUserActivity disk1950 entryA.targetUserId entryA.platform entryA.channelId) = 0 ∧
    sessionsInMonth centuryLib 50 (5 - 1)
        (readUserActivity disk1950 entryA.targetUserId entryA.platform entryA.channelId) = 0 ∧
    sessionsInMonth centuryLib 1950 (5 - 1)
        (readUserActivity disk1950 entryA.targetUserId entryA.platform entryA.channelId) = 1 ∧
    channelStreamCount centuryLib diskNullFirst (centuryLib.newDate 2024 (5 - 1) 1 0 0 0 0)
        (centuryLib.newDate 2024 (5 - 1 + 1) 0 23 59 59 999) entryA = 0 ∧
    userChannelCount centuryLib diskNullFirst (centuryLib.newDate 2024 (5 - 1) 1 0 0 0 0)
        (centuryLib.newDate 2024 (5 - 1 + 1) 0 23 59 59 999) entryA = 0 ∧
    sessionsWithin centuryLib (firstInstant centuryLib 2024 5) (lastInstant centuryLib 2024 5)
        (readUserActivity diskNullFirst entryA.targetUserId entryA.platform
          entryA.channelId) = 1 := by
  refine ⟨?_, ?_, ?_, ?_, ?_, ?_, ?_, ?_⟩ <;> decide

/-- The Twitch branch of the add-channel modal never registers anything: whatever the list,
the user and the channel typed, the handler ends in its `catch` and the list is as before. -/
theorem addChannelModal_twitch_never_adds (env : ResolverEnv) (fetchUserOk writeOk : Bool)
    (before : Option (List ChannelEntry)) (targetUserId platformInput channelInput : String)
    (htwitch : toLowerCase (jsTrim platformInput).data = "twitch".data) :
    (addChannelModal env fetchUserOk writeOk before targetUserId platformInput channelInput).2 =
        before ∧
      (addChannelModal env fetchUserOk writeOk before targetUserId platformInput channelInput).1 ≠
        RegistrationReply.added := by
  unfold addChannelModal
  simp only [htwitch, if_true]
  cases fetchUserOk <;> simp

/-- The track command, as written, registers a Twitch channel that is new for the user when
the configuration can be written. -/
theorem trackExecute_twitch_new (env : ResolverEnv) (before : Option (List ChannelEntry))
    (channelLink targetUserId : String)
    (hnew : ∀ ch ∈ before.getD [], ¬(ch.platform = "Twitch" ∧ ch.targetUserId = targetUserId)) :
    ∃ e : ChannelEntry, e.platform = "Twitch" ∧ e.targetUserId = targetUserId ∧
      trackExecute env true before "Twitch" channelLink targetUserId =
        (RegistrationReply.added, some (before.getD [] ++ [e])) := by
  have hfind : ∀ channelId : String, (before.getD []).find? (fun ch =>
      ch.platform == "Twitch" && ch.channelId == channelId &&
        ch.targetUserId == targetUserId) = none := by
    intro channelId
    rw [List.find?_eq_none]
    intro ch hch hc
    apply hnew ch hch
    simp only [Bool.and_eq_true, beq_iff_eq] at hc
    exact ⟨hc.1.1, hc.2⟩
  unfold trackExecute
  simp only [beq_self_eq_true, if_true]
  cases twitchLoginMatch channelLink.data with
  | none =>
    simp only [hfind]
    exact ⟨_, rfl, rfl, rfl⟩
  | some login =>
    simp only [hfind]
    exact ⟨_, rfl, rfl, rfl⟩

/-- C30: a registration that adds nothing for a new triple. The add-channel modal is
submitted for user `43` with platform `twitch` and channel `foo`, while the list holds only
a YouTube channel of user `42`: the list is free of duplicates and holds no Twitch entry, so
the triple is new, yet the handler answers with its error message and the list is as
before. The track command's `execute`, given the same platform, channel and user, appends
the entry. -/
theorem modal_twitch_registration_adds_nothing :
    NoDupTriples [entryY] ∧
    (∀ ch ∈ [entryY], ch.platform ≠ "Twitch") ∧
    addChannelModal directoryY true true (some [entryY]) "43" "twitch" "foo" =
      (RegistrationReply.failed, some [entryY]) ∧
    trackExecute directoryY true (some [entryY]) "Twitch" "foo" "43" =
      (RegistrationReply.added, some [entryY,
        { platform := "Twitch", channelId := "foo", channelName := JsVal.str "foo",
          channelLink := "foo", targetUserId := "43" }]) := by
  refine ⟨?_, ?_, ?_, ?_⟩ <;> decide

end MediaBot
